import Mathlib

/-!
Verification of joystickmidi: state store, value translation and dispatch step.

A shallow embedding of the per-mapping state (`MappingState`), the ingestion
update of `InputMonitorLoop`, the body of the dispatch loop of `main`,
`PerformCalibration`, the cases of `EditConfiguration`, `LoadConfiguration` and
the loop of `DisplayMonitoringOutput` (`src/main.cpp`), followed by theorems
about them.

Conventions of the embedding:

* `LONG` (`int32_t`) and `int` values are integers; the two `LONG`
  subtractions of the axis branch wrap to 32 bits (`wrapLong`), and
  `InLong` says that a value is representable.
* `double` is IEEE 754 binary64. A `double` is the rational it denotes; each
  division, subtraction, multiplication and addition on `double`s is the exact
  operation followed by rounding to the nearest `double`, ties to even
  (`roundDouble`), one operation at a time (no fused multiply-add and no
  excess precision). The conversion of a `LONG` to `double` is exact, every
  magnitude that occurs is far below the overflow threshold, and `(int)` is
  truncation toward zero.
* `(unsigned char)` is reduction modulo 256 (`toUChar`).
* `g_midiOut.sendMessage` appends the message to the list of sent messages.
* The globals `g_currentConfig` and `g_mappingStates` are passed explicitly
  (`Globals`); standard input is the list of whole numbers typed (`Console`);
  the values read during a capture window are an argument of the calibration.
* A thrown exception is the result `none`.
* The input thread and the dispatch loop access `currentValue` and
  `valueChanged` by the default, sequentially consistent operations of
  `std::atomic`, so a concurrent run is an interleaving of their atomic
  operations (`runSchedule`).
-/

namespace JoystickMidi

/-! ## Machine numbers -/

/-- Representable values of `LONG` (`typedef int32_t LONG`). -/
def InLong (x : Int) : Prop := -2147483648 ≤ x ∧ x < 2147483648

instance (x : Int) : Decidable (InLong x) := by
  unfold InLong; exact inferInstance

/-- Result of a `LONG` operation, wrapped to 32-bit two's complement. -/
def wrapLong (x : Int) : Int := (x + 2147483648) % 4294967296 - 2147483648

/-- Conversion `(unsigned char)x` of an `int`: the value modulo 256. -/
def toUChar (x : Int) : Nat := (x % 256).toNat

/-- Conversion `(int)x` of a `double`: truncation toward zero. -/
def doubleToInt (q : ℚ) : Int := if 0 ≤ q then ⌊q⌋ else ⌈q⌉

/-- The integer nearest to a rational, the even one of the two at a tie. -/
def roundHalfEven (m : ℚ) : Int :=
  let f := ⌊m⌋
  if m - f < 1 / 2 then f
  else if 1 / 2 < m - f then f + 1
  else if f % 2 = 0 then f else f + 1

/-- The exponent of the binade of a `double` holding `x`: the `e` with
`2 ^ e ≤ |x| < 2 ^ (e + 1)`, and the least normal exponent `-1022` for smaller
values (subnormal numbers). For zero `Int.log` gives 0; zero rounds to zero
whatever the exponent. -/
def doubleExponent (x : ℚ) : Int := max (Int.log 2 |x|) (-1022)

/-- The `double` nearest to a rational, ties to even: the nearest multiple of
`2 ^ (e - 52)` for the exponent `e` of the binade, which leaves 53 significant
bits. Overflow to infinity is left out. -/
def roundDouble (x : ℚ) : ℚ :=
  let quantum : ℚ := 2 ^ (doubleExponent x - 52)
  (roundHalfEven (x / quantum) : ℚ) * quantum

/-! ## Data structures -/

/-- The `struct ControlInfo` (Linux variant). -/
structure ControlInfo where
  isButton : Bool := false
  logicalMin : Int := 0
  logicalMax : Int := 0
  name : String := "Unknown Control"
  eventType : Nat := 0
  eventCode : Nat := 0
  deriving DecidableEq

/-- The `enum class MidiMessageType`. -/
inductive MidiMessageType where
  | NONE
  | NOTE_ON_OFF
  | CC
  deriving DecidableEq

/-- The `struct ControlMapping`, with its default member initialisers. -/
structure ControlMapping where
  control : ControlInfo := {}
  midiMessageType : MidiMessageType := MidiMessageType.NONE
  midiChannel : Int := -1
  midiNoteOrCCNumber : Int := 0
  midiValueNoteOnVelocity : Int := 64
  midiValueCCOn : Int := 127
  midiValueCCOff : Int := 0
  calibrationMinHid : Int := 0
  calibrationMaxHid : Int := 0
  calibrationDone : Bool := false
  reverseAxis : Bool := false
  deriving DecidableEq

/-- The `struct MidiMappingConfig`. -/
structure MidiMappingConfig where
  hidDevicePath : String := ""
  hidDeviceName : String := ""
  midiDeviceName : String := ""
  defaultMidiChannel : Int := 0
  midiSendIntervalMs : Int := 1
  mappings : List ControlMapping := []
  deriving DecidableEq

/-- The `struct MappingState`, with its default member initialisers:
`currentValue{0}`, `valueChanged{false}`, `previousValue = -1`,
`lastSentMidiValue = -1`. -/
structure MappingState where
  currentValue : Int := 0
  valueChanged : Bool := false
  previousValue : Int := -1
  lastSentMidiValue : Int := -1
  deriving DecidableEq

/-- A MIDI message handed to `g_midiOut.sendMessage`: a vector of bytes. -/
abbrev Message := List Nat

/-- The fields of a `struct input_event` that the input thread reads. -/
structure InputEvent where
  type : Nat
  code : Nat
  value : Int
  deriving DecidableEq

/-! ## Operations -/

/-- Function `InitializeMappingStates`: clear the state vector and resize it to the
number of mappings, so every entry is a default-constructed `MappingState`. -/
def InitializeMappingStates (config : MidiMappingConfig) : List MappingState :=
  List.replicate config.mappings.length {}

/-- Function `GetEffectiveChannel`: the explicit channel of the mapping when it is
non-negative, the default channel otherwise. -/
def GetEffectiveChannel (mapping : ControlMapping) (defaultChannel : Int) : Int :=
  if mapping.midiChannel ≥ 0 then mapping.midiChannel else defaultChannel

/-- The update of one entry in `InputMonitorLoop` (the spec's `observe`):
`if (static_cast<LONG>(ev.value) != state.currentValue.load())
   { state.currentValue = ev.value; state.valueChanged = true; }`. -/
def observe (state : MappingState) (rawValue : Int) : MappingState :=
  if rawValue ≠ state.currentValue then
    { state with currentValue := rawValue, valueChanged := true }
  else state

/-- The loop of `InputMonitorLoop` over one received event: every index below
both sizes whose mapping has the event's type and code is updated. -/
def InputMonitorLoop_event (ev : InputEvent) :
    List ControlMapping → List MappingState → List MappingState
  | mapping :: mappings, state :: states =>
      (if ev.type = mapping.control.eventType ∧ ev.code = mapping.control.eventCode then
        observe state ev.value
      else state) :: InputMonitorLoop_event ev mappings states
  | _, states => states

/-- The atomic `state.valueChanged.exchange(false)`: the old flag and the
entry with the flag cleared. -/
def exchangeValueChanged (state : MappingState) : Bool × MappingState :=
  (state.valueChanged, { state with valueChanged := false })

/-- The spec's `takeIfDirty`: `valueChanged.exchange(false)` followed, when the
flag was set, by `currentValue.load()`. -/
def takeIfDirty (state : MappingState) : MappingState × Option Int :=
  let (wasChanged, state) := exchangeValueChanged state
  if wasChanged then (state, some state.currentValue) else (state, none)

/-- The `LONG range = calibrationMaxHid - calibrationMinHid` of the axis
branch. -/
def axisRange (mapping : ControlMapping) : Int :=
  wrapLong (mapping.calibrationMaxHid - mapping.calibrationMinHid)

/-- The `double norm` of the axis branch for the loaded `currentValue`:
`(double)(clamped - calibrationMinHid) / range`, and `1.0 - norm` when the axis
is reversed. The branch is entered only when `range > 0`, so the divisor is not
zero where the value is used. -/
def axisNorm (mapping : ControlMapping) (currentValue : Int) : ℚ :=
  let range := axisRange mapping
  let clamped := max mapping.calibrationMinHid (min mapping.calibrationMaxHid currentValue)
  let norm : ℚ :=
    roundDouble (((wrapLong (clamped - mapping.calibrationMinHid) : Int) : ℚ) / (range : ℚ))
  if mapping.reverseAxis then roundDouble (1 - norm) else norm

/-- The `int midiVal` of the axis branch for the loaded `currentValue`:
`(int)(norm * 127.0 + 0.5)`. -/
def axisMidiVal (mapping : ControlMapping) (currentValue : Int) : Int :=
  let norm := axisNorm mapping currentValue
  doubleToInt (roundDouble (roundDouble (norm * 127) + 1 / 2))

/-- The message built in the button branch on an edge. -/
def buttonMessage (mapping : ControlMapping) (channel : Int) (pressed : Bool) : Message :=
  if mapping.midiMessageType = MidiMessageType.NOTE_ON_OFF then
    [toUChar (Int.lor (if pressed then 0x90 else 0x80) channel),
     toUChar mapping.midiNoteOrCCNumber,
     toUChar (if pressed then mapping.midiValueNoteOnVelocity else 0)]
  else
    [toUChar (Int.lor 0xB0 channel),
     toUChar mapping.midiNoteOrCCNumber,
     toUChar (if pressed then mapping.midiValueCCOn else mapping.midiValueCCOff)]

/-- The message built in the axis branch. -/
def axisMessage (mapping : ControlMapping) (channel : Int) (midiVal : Int) : Message :=
  [toUChar (Int.lor 0xB0 channel), toUChar mapping.midiNoteOrCCNumber, toUChar midiVal]

/-- The body of the dispatch loop of `main` for one index: the new state of
the entry and the messages sent. -/
def dispatchEntry (mapping : ControlMapping) (defaultMidiChannel : Int)
    (state : MappingState) : MappingState × List Message :=
  let (wasChanged, state) := exchangeValueChanged state
  if wasChanged then
    let channel := GetEffectiveChannel mapping defaultMidiChannel
    let (state, sent) : MappingState × List Message :=
      if mapping.control.isButton then
        let pressed : Bool := state.currentValue != 0
        if pressed != (state.previousValue != 0) then
          let message := buttonMessage mapping channel pressed
          (state, if !message.isEmpty then [message] else [])
        else (state, [])
      else
        if mapping.calibrationDone then
          if axisRange mapping > 0 then
            let midiVal := axisMidiVal mapping state.currentValue
            if midiVal != state.lastSentMidiValue then
              ({ state with lastSentMidiValue := midiVal },
                [axisMessage mapping channel midiVal])
            else (state, [])
          else (state, [])
        else (state, [])
    ({ state with previousValue := state.currentValue }, sent)
  else (state, [])

/-- One pass of the dispatch loop of `main` over all indices below both
sizes; the messages are sent in index order. -/
def dispatchLoop (defaultMidiChannel : Int) :
    List ControlMapping → List MappingState → List MappingState × List Message
  | mapping :: mappings, state :: states =>
      let r := dispatchEntry mapping defaultMidiChannel state
      let rs := dispatchLoop defaultMidiChannel mappings states
      (r.1 :: rs.1, r.2 ++ rs.2)
  | _, states => (states, [])

/-- A raw value is ingested for an entry and then one dispatch pass runs on
it; the messages sent so far are accumulated. -/
def observeThenDispatch (mapping : ControlMapping) (defaultMidiChannel : Int)
    (acc : MappingState × List Message) (rawValue : Int) : MappingState × List Message :=
  let r := dispatchEntry mapping defaultMidiChannel (observe acc.1 rawValue)
  (r.1, acc.2 ++ r.2)

/-- Raw values delivered one at a time, each followed by a dispatch pass. -/
def runSamples (mapping : ControlMapping) (defaultMidiChannel : Int)
    (state : MappingState) (rawValues : List Int) : MappingState × List Message :=
  rawValues.foldl (observeThenDispatch mapping defaultMidiChannel) (state, [])

/-- A sequence of `observe` calls on one entry. -/
def observeAll (state : MappingState) (rawValues : List Int) : MappingState :=
  rawValues.foldl observe state

/-! ## The spec's formula for the axis value -/

/-- The spec's axis value in exact arithmetic: clamp to `[calMin, calMax]`,
`n = (clamped - calMin) / (calMax - calMin)`, `n := 1 - n` when reversed, and
`outValue = floor (127 * n + 1/2)`. -/
def outValueExact (calMin calMax : Int) (reverse : Bool) (currentValue : Int) : Int :=
  let clamped := max calMin (min calMax currentValue)
  let n : ℚ := ((clamped - calMin : Int) : ℚ) / ((calMax - calMin : Int) : ℚ)
  let n : ℚ := if reverse then 1 - n else n
  ⌊127 * n + 1 / 2⌋

/-- The number that the spec's formula rounds down: `127 * n + 1/2` in exact
arithmetic. -/
def outValueScaled (calMin calMax : Int) (reverse : Bool) (currentValue : Int) : ℚ :=
  let clamped := max calMin (min calMax currentValue)
  let n : ℚ := ((clamped - calMin : Int) : ℚ) / ((calMax - calMin : Int) : ℚ)
  let n : ℚ := if reverse then 1 - n else n
  127 * n + 1 / 2

/-! ## Concrete inputs used in the evaluations below -/

/-- An axis mapping calibrated to `[0, 1000]`, not reversed. -/
def axisExample : ControlMapping :=
  { calibrationMinHid := 0, calibrationMaxHid := 1000, calibrationDone := true }

/-- An axis mapping calibrated to `[0, 1000]`, reversed. -/
def reversedAxisExample : ControlMapping :=
  { calibrationMinHid := 0, calibrationMaxHid := 1000, calibrationDone := true,
    reverseAxis := true }

/-- An axis mapping calibrated to `[0, 254]`, reversed. -/
def reversed254Example : ControlMapping :=
  { calibrationMinHid := 0, calibrationMaxHid := 254, calibrationDone := true,
    reverseAxis := true }

/-- A button mapping of kind `NOTE_ON_OFF`: channel 2, note 60, velocity 100. -/
def noteButtonExample : ControlMapping :=
  { control := { isButton := true }, midiMessageType := MidiMessageType.NOTE_ON_OFF,
    midiChannel := 2, midiNoteOrCCNumber := 60, midiValueNoteOnVelocity := 100 }

/-- A button mapping of kind `CC`: default channel, controller 7, values 127 and 0. -/
def ccButtonExample : ControlMapping :=
  { control := { isButton := true }, midiMessageType := MidiMessageType.CC,
    midiNoteOrCCNumber := 7 }

/-- A dirty entry holding the raw value 500, otherwise fresh. -/
def dirty500 : MappingState := { currentValue := 500, valueChanged := true }

/-! ## Sequences of steps on one entry -/

/-- One step acting on an entry: a raw value ingested by the input thread, or a
pass of the dispatch loop under the default channel then in force. -/
inductive EntryOp where
  | observe (rawValue : Int)
  | dispatch (defaultMidiChannel : Int)
  deriving DecidableEq

/-- The effect of one step on the entry and on the messages sent so far. -/
def applyEntryOp (mapping : ControlMapping) (acc : MappingState × List Message) :
    EntryOp → MappingState × List Message
  | EntryOp.observe rawValue => (observe acc.1 rawValue, acc.2)
  | EntryOp.dispatch defaultMidiChannel =>
      let r := dispatchEntry mapping defaultMidiChannel acc.1
      (r.1, acc.2 ++ r.2)

/-- Any interleaving of ingested values and dispatch passes on one entry. -/
def runEntryOps (mapping : ControlMapping) (state : MappingState) (ops : List EntryOp) :
    MappingState × List Message :=
  ops.foldl (applyEntryOp mapping) (state, [])

/-! ## Global state, calibration and interactive editing -/

/-- The globals `g_currentConfig` and `g_mappingStates`. -/
structure Globals where
  g_currentConfig : MidiMappingConfig := {}
  g_mappingStates : List MappingState := []
  deriving DecidableEq

/-- The globals with the mapping vector of `g_currentConfig` replaced. -/
def withMappings (g : Globals) (mappings : List ControlMapping) : Globals :=
  { g with g_currentConfig := { g.g_currentConfig with mappings := mappings } }

/-- The lambda `capture_hold_value` of `PerformCalibration`: the running
extreme of the values of `state.currentValue` loaded during the capture window
(`samples`, in the order read), seeded with `numeric_limits<LONG>::max()` when
capturing the minimum and with `numeric_limits<LONG>::min()` otherwise. -/
def capture_hold_value (captureMin : Bool) (samples : List Int) : Int :=
  samples.foldl
    (fun extremeValue current_val =>
      if captureMin then min extremeValue current_val else max extremeValue current_val)
    (if captureMin then 2147483647 else -2147483648)

/-- Function `PerformCalibration`: the result and the globals afterwards.
`minSamples` and `maxSamples` are the values of the entry's `currentValue`
read during the two capture windows. -/
def PerformCalibration (g : Globals) (mappingIndex : Nat)
    (minSamples maxSamples : List Int) : Bool × Globals :=
  if mappingIndex ≥ g.g_currentConfig.mappings.length ∨
      mappingIndex ≥ g.g_mappingStates.length then (false, g)
  else
    match g.g_currentConfig.mappings.get? mappingIndex with
    | none => (false, g)
    | some mapping =>
      if mapping.control.isButton then (true, g)
      else
        let mapping := { mapping with calibrationMinHid := capture_hold_value true minSamples }
        let mapping := { mapping with calibrationMaxHid := capture_hold_value false maxSamples }
        let mapping :=
          if mapping.calibrationMinHid > mapping.calibrationMaxHid then
            { mapping with calibrationMinHid := mapping.calibrationMaxHid,
                           calibrationMaxHid := mapping.calibrationMinHid }
          else mapping
        let mapping := { mapping with calibrationDone := true }
        (true, withMappings g (g.g_currentConfig.mappings.set mappingIndex mapping))

/-- The console: the whole numbers still to be read from standard input, one
per line (lines that are not whole numbers are skipped by `GetUserSelection`
exactly like numbers out of range, so they are left out), and `g_quitFlag`. -/
structure Console where
  lines : List Int := []
  g_quitFlag : Bool := false
  deriving DecidableEq

/-- The reading loop of `GetUserSelection`: the first number within the valid
range and the lines after it, or nothing when the input ends first. -/
def readSelection (maxValidChoice minValidChoice : Int) : List Int → Option (Int × List Int)
  | [] => none
  | choice :: rest =>
      if choice ≥ minValidChoice ∧ choice ≤ maxValidChoice then some (choice, rest)
      else readSelection maxValidChoice minValidChoice rest

/-- Function `GetUserSelection`: the first valid choice; at the end of the
input `g_quitFlag` is set and the result is `-1`. -/
def GetUserSelection (maxValidChoice minValidChoice : Int) (console : Console) :
    Int × Console :=
  match readSelection maxValidChoice minValidChoice console.lines with
  | none => (-1, { console with lines := [], g_quitFlag := true })
  | some (choice, rest) => (choice, { console with lines := rest })

/-- Function `ConfigureMappingMidi` (the default channel is only printed). -/
def ConfigureMappingMidi (mapping : ControlMapping) (console : Console) :
    ControlMapping × Console :=
  let (sel, console) := GetUserSelection 1 0 console
  let mapping := { mapping with
    midiMessageType := if sel = 0 then MidiMessageType.NOTE_ON_OFF else MidiMessageType.CC }
  let (sel, console) := GetUserSelection 1 0 console
  let (mapping, console) : ControlMapping × Console :=
    if sel = 1 then
      let (channel, console) := GetUserSelection 16 1 console
      ({ mapping with midiChannel := channel - 1 }, console)
    else ({ mapping with midiChannel := -1 }, console)
  let (number, console) := GetUserSelection 127 0 console
  let mapping := { mapping with midiNoteOrCCNumber := number }
  if mapping.midiMessageType = MidiMessageType.NOTE_ON_OFF then
    let (velocity, console) := GetUserSelection 127 1 console
    ({ mapping with midiValueNoteOnVelocity := velocity }, console)
  else if mapping.control.isButton then
    let (onValue, console) := GetUserSelection 127 0 console
    let mapping := { mapping with midiValueCCOn := onValue }
    let (offValue, console) := GetUserSelection 127 0 console
    ({ mapping with midiValueCCOff := offValue }, console)
  else
    let (rev, console) := GetUserSelection 1 0 console
    ({ mapping with reverseAxis := (rev == 1) }, console)

/-- The steps shared by the two places that add a mapping (`case 1` of
`EditConfiguration` and step 4 of `main`): `push_back`,
`InitializeMappingStates`, `ConfigureMappingMidi` on the new last mapping, and
`PerformCalibration` when the control is an axis mapped to `CC`. -/
def pushAndConfigure (control : ControlInfo) (g : Globals) (console : Console)
    (minSamples maxSamples : List Int) : Globals × Console :=
  let newMapping : ControlMapping := { control := control }
  let g : Globals := withMappings g (g.g_currentConfig.mappings ++ [newMapping])
  let g : Globals := { g with g_mappingStates := InitializeMappingStates g.g_currentConfig }
  let mappingIdx := g.g_currentConfig.mappings.length - 1
  match g.g_currentConfig.mappings.get? mappingIdx with
  | none => (g, console)
  | some mapping =>
    let (mapping, console) := ConfigureMappingMidi mapping console
    let g : Globals := withMappings g (g.g_currentConfig.mappings.set mappingIdx mapping)
    if !newMapping.control.isButton ∧ mapping.midiMessageType = MidiMessageType.CC then
      ((PerformCalibration g mappingIdx minSamples maxSamples).2, console)
    else (g, console)

/-- The `case 1` of `EditConfiguration`: add a new control mapping. -/
def EditConfiguration_add (available_controls : List ControlInfo) (g : Globals)
    (console : Console) (minSamples maxSamples : List Int) : Globals × Console :=
  if available_controls.isEmpty then (g, console)
  else
    let (ctrl_choice, console) := GetUserSelection available_controls.length 0 console
    if console.g_quitFlag then (g, console)
    else if ctrl_choice < available_controls.length then
      match available_controls.get? ctrl_choice.toNat with
      | none => (g, console)
      | some control => pushAndConfigure control g console minSamples maxSamples
    else (g, console)

/-- The `case 2` of `EditConfiguration`: remove a control mapping. -/
def EditConfiguration_remove (g : Globals) (console : Console) : Globals × Console :=
  if g.g_currentConfig.mappings.isEmpty then (g, console)
  else
    let (removeChoice, console) := GetUserSelection g.g_currentConfig.mappings.length 0 console
    if console.g_quitFlag then (g, console)
    else if removeChoice < g.g_currentConfig.mappings.length then
      let (confirm, console) := GetUserSelection 1 0 console
      if confirm = 1 then
        let g : Globals :=
          withMappings g (g.g_currentConfig.mappings.eraseIdx removeChoice.toNat)
        ({ g with g_mappingStates := InitializeMappingStates g.g_currentConfig }, console)
      else (g, console)
    else (g, console)

/-- The `case 3` of `EditConfiguration`: edit a control mapping (MIDI
settings, recalibration, or toggling the reverse flag). -/
def EditConfiguration_edit (g : Globals) (console : Console)
    (minSamples maxSamples : List Int) : Globals × Console :=
  if g.g_currentConfig.mappings.isEmpty then (g, console)
  else
    let (editChoice, console) := GetUserSelection g.g_currentConfig.mappings.length 0 console
    if console.g_quitFlag then (g, console)
    else if editChoice < g.g_currentConfig.mappings.length then
      match g.g_currentConfig.mappings.get? editChoice.toNat with
      | none => (g, console)
      | some mapping =>
        let axisCC : Bool :=
          !mapping.control.isButton && (mapping.midiMessageType == MidiMessageType.CC)
        let (editOption, console) := GetUserSelection (if axisCC then 3 else 1) 0 console
        if console.g_quitFlag then (g, console)
        else if editOption = 1 then
          let (mapping, console) := ConfigureMappingMidi mapping console
          (withMappings g (g.g_currentConfig.mappings.set editChoice.toNat mapping), console)
        else if editOption = 2 then
          if axisCC then
            ((PerformCalibration g editChoice.toNat minSamples maxSamples).2, console)
          else (g, console)
        else if editOption = 3 then
          if axisCC then
            (withMappings g (g.g_currentConfig.mappings.set editChoice.toNat
                { mapping with reverseAxis := !mapping.reverseAxis }), console)
          else (g, console)
        else (g, console)
    else (g, console)

/-- The `case 4` of `EditConfiguration`: change the default MIDI channel. -/
def EditConfiguration_defaultChannel (g : Globals) (console : Console) : Globals × Console :=
  let (choice, console) := GetUserSelection 16 1 console
  let newChannel := choice - 1
  if console.g_quitFlag then (g, console)
  else ({ g with g_currentConfig :=
          { g.g_currentConfig with defaultMidiChannel := newChannel } }, console)

/-- One operation on the mappings: an interactive edit with the lines typed
during it and the values read during its capture windows, or a calibration of
one index. -/
inductive ConfigOp where
  | add (available_controls : List ControlInfo) (lines minSamples maxSamples : List Int)
  | remove (lines : List Int)
  | edit (lines minSamples maxSamples : List Int)
  | defaultChannel (lines : List Int)
  | calibrate (mappingIndex : Nat) (minSamples maxSamples : List Int)

/-- The globals after one operation. -/
def applyConfigOp (g : Globals) : ConfigOp → Globals
  | ConfigOp.add controls lines minSamples maxSamples =>
      (EditConfiguration_add controls g { lines := lines } minSamples maxSamples).1
  | ConfigOp.remove lines => (EditConfiguration_remove g { lines := lines }).1
  | ConfigOp.edit lines minSamples maxSamples =>
      (EditConfiguration_edit g { lines := lines } minSamples maxSamples).1
  | ConfigOp.defaultChannel lines =>
      (EditConfiguration_defaultChannel g { lines := lines }).1
  | ConfigOp.calibrate mappingIndex minSamples maxSamples =>
      (PerformCalibration g mappingIndex minSamples maxSamples).2

/-- The globals after a sequence of operations. -/
def runConfigOps (g : Globals) (ops : List ConfigOp) : Globals :=
  ops.foldl applyConfigOp g

/-- The spec's invariant for one mapping: an axis mapping with
`calibrationDone` has `calibrationMinHid ≤ calibrationMaxHid`. -/
def MappingOrdered (mapping : ControlMapping) : Prop :=
  mapping.control.isButton = false → mapping.calibrationDone = true →
    mapping.calibrationMinHid ≤ mapping.calibrationMaxHid

/-- The spec's invariant of calibrated axes, for every mapping of a
configuration. -/
def CalibrationOrdered (config : MidiMappingConfig) : Prop :=
  ∀ mapping ∈ config.mappings, MappingOrdered mapping

/-- The state vector has exactly as many entries as the mapping vector. -/
def IndexAligned (g : Globals) : Prop :=
  g.g_mappingStates.length = g.g_currentConfig.mappings.length

/-- An axis mapping marked calibrated with `calibrationMinHid = calibrationMaxHid = 5`. -/
def degenerateAxisExample : ControlMapping :=
  { calibrationMinHid := 5, calibrationMaxHid := 5, calibrationDone := true }

/-- An axis mapping with bounds `[0, 1000]` that is not marked calibrated. -/
def uncalibratedAxisExample : ControlMapping :=
  { calibrationMinHid := 0, calibrationMaxHid := 1000, calibrationDone := false }

/-- Globals with one axis mapping, not yet calibrated, and its fresh entry. -/
def oneAxisGlobals : Globals :=
  { g_currentConfig := { mappings := [{ midiMessageType := MidiMessageType.CC }] },
    g_mappingStates := [{}] }

/-- A button mapping of the unset kind `NONE` (a default-constructed mapping
of a button control). -/
def noneButtonExample : ControlMapping :=
  { control := { isButton := true } }


/-- An axis control and a button control, as `GetAvailableControls` reports
them. -/
def availableExample : List ControlInfo :=
  [{ isButton := false, logicalMin := 0, logicalMax := 255, name := "Axis 0",
     eventType := 3, eventCode := 0 },
   { isButton := true, logicalMin := 0, logicalMax := 1, name := "Button 0",
     eventType := 1, eventCode := 288 }]

/-- Adding the axis as controller 7 on the default channel, with captures 80
and 20, then adding the button as note 60 on channel 3 with velocity 100, then
removing the first mapping. -/
def editSessionExample : List ConfigOp :=
  [ConfigOp.add availableExample [0, 1, 0, 7, 0] [80] [20],
   ConfigOp.add availableExample [1, 0, 1, 3, 60, 100] [] [],
   ConfigOp.remove [0, 1]]

/-! ## Loading a configuration -/

/-- Modelled from the spec: the JSON library (`third_party/nlohmann/json.hpp`)
is not among the sources. The configuration is "a serializable mapping set"
read from "a structured file"; a JSON value is null, a boolean, a number
(integers only here), a string, an array or an object with named fields. -/
inductive Json where
  | null
  | bool (b : Bool)
  | num (n : Int)
  | str (s : String)
  | arr (items : List Json)
  | obj (fields : List (String × Json))

/-- Modelled from the spec: the library call `j.at(key)`, a required field;
`none` stands for the exception thrown when `j` is not an object or has no
such field ("malformed or missing mapping fields"). -/
def Json.atKey (j : Json) (key : String) : Option Json :=
  match j with
  | Json.obj fields => fields.lookup key
  | _ => none

/-- Modelled from the spec: the library conversion to `bool`, which accepts
booleans only. -/
def Json.getBool : Json → Option Bool
  | Json.bool b => some b
  | _ => none

/-- Modelled from the spec: the library conversion to a 32-bit integer (`LONG`,
`int`), which accepts numbers and booleans and narrows to 32 bits. -/
def Json.getInt : Json → Option Int
  | Json.num n => some (wrapLong n)
  | Json.bool b => some (if b then 1 else 0)
  | _ => none

/-- Modelled from the spec: the library conversion to `std::string`, which
accepts strings only. -/
def Json.getString : Json → Option String
  | Json.str s => some s
  | _ => none

/-- Modelled from the spec: the library call `j.value(key, default)` for an
`int` default, an optional field: the default when the field is absent, the
converted field when present, an exception when `j` is not an object or the
field has the wrong type. -/
def Json.valueInt (j : Json) (key : String) (default : Int) : Option Int :=
  match j with
  | Json.obj fields =>
      match fields.lookup key with
      | some v => v.getInt
      | none => some default
  | _ => none

/-- Modelled from the spec: the library call `j.value(key, default)` for a
`bool` default. -/
def Json.valueBool (j : Json) (key : String) (default : Bool) : Option Bool :=
  match j with
  | Json.obj fields =>
      match fields.lookup key with
      | some v => v.getBool
      | none => some default
  | _ => none

/-- The conversion declared by `NLOHMANN_JSON_SERIALIZE_ENUM(MidiMessageType, ...)`:
`"NoteOnOff"` and `"CC"` are recognised, and every other value gives the first
entry of the table, `NONE`. -/
def Json.getMidiMessageType : Json → MidiMessageType
  | Json.str s =>
      if s = "NoteOnOff" then MidiMessageType.NOTE_ON_OFF
      else if s = "CC" then MidiMessageType.CC
      else MidiMessageType.NONE
  | _ => MidiMessageType.NONE

/-- The `from_json(const json&, ControlInfo&)` (Linux variant); `none` stands
for a thrown exception. -/
def from_json_ControlInfo (j : Json) (ctrl : ControlInfo) : Option ControlInfo := do
  let isButton ← (← j.atKey "isButton").getBool
  let logicalMin ← (← j.atKey "logicalMin").getInt
  let logicalMax ← (← j.atKey "logicalMax").getInt
  let name ← (← j.atKey "name").getString
  let eventType ← j.valueInt "eventType" 0
  let eventCode ← j.valueInt "eventCode" 0
  pure { ctrl with isButton := isButton, logicalMin := logicalMin, logicalMax := logicalMax,
                   name := name, eventType := (eventType % 65536).toNat,
                   eventCode := (eventCode % 65536).toNat }

/-- The `from_json(const json&, ControlMapping&)`; `none` stands for a thrown
exception. -/
def from_json_ControlMapping (j : Json) (mapping : ControlMapping) : Option ControlMapping := do
  let control ← from_json_ControlInfo (← j.atKey "control") mapping.control
  let midiMessageType := (← j.atKey "midiMessageType").getMidiMessageType
  let midiChannel ← j.valueInt "midiChannel" (-1)
  let midiNoteOrCCNumber ← (← j.atKey "midiNoteOrCCNumber").getInt
  let midiValueNoteOnVelocity ← j.valueInt "midiValueNoteOnVelocity" 64
  let midiValueCCOn ← j.valueInt "midiValueCCOn" 127
  let midiValueCCOff ← j.valueInt "midiValueCCOff" 0
  let calibrationMinHid ← j.valueInt "calibrationMinHid" 0
  let calibrationMaxHid ← j.valueInt "calibrationMaxHid" 0
  let calibrationDone ← j.valueBool "calibrationDone" false
  let reverseAxis ← j.valueBool "reverseAxis" false
  pure { control := control, midiMessageType := midiMessageType, midiChannel := midiChannel,
         midiNoteOrCCNumber := midiNoteOrCCNumber,
         midiValueNoteOnVelocity := midiValueNoteOnVelocity,
         midiValueCCOn := midiValueCCOn, midiValueCCOff := midiValueCCOff,
         calibrationMinHid := calibrationMinHid, calibrationMaxHid := calibrationMaxHid,
         calibrationDone := calibrationDone, reverseAxis := reverseAxis }

/-- The conversion of a JSON array to `std::vector<ControlMapping>`: every
element is converted into a default-constructed mapping. -/
def from_json_mappings : Json → Option (List ControlMapping)
  | Json.arr items => items.mapM (fun item => from_json_ControlMapping item {})
  | _ => none

/-- The `from_json(const json&, MidiMappingConfig&)`; `none` stands for a
thrown exception. -/
def from_json_MidiMappingConfig (j : Json) (cfg : MidiMappingConfig) :
    Option MidiMappingConfig := do
  let hidDevicePath ← (← j.atKey "hidDevicePath").getString
  let hidDeviceName ← (← j.atKey "hidDeviceName").getString
  let midiDeviceName ← (← j.atKey "midiDeviceName").getString
  let defaultMidiChannel ← j.valueInt "defaultMidiChannel" 0
  let midiSendIntervalMs ← j.valueInt "midiSendIntervalMs" 1
  let mappings ← from_json_mappings (← j.atKey "mappings")
  pure { cfg with hidDevicePath := hidDevicePath, hidDeviceName := hidDeviceName,
                  midiDeviceName := midiDeviceName, defaultMidiChannel := defaultMidiChannel,
                  midiSendIntervalMs := midiSendIntervalMs, mappings := mappings }

/-- What `LoadConfiguration` finds under the file name: a file that cannot be
opened, text that is not JSON, or a JSON value. -/
inductive ConfigFile where
  | cannotOpen
  | notJson
  | json (j : Json)

/-- Function `LoadConfiguration`: the result and the caller's configuration
afterwards (`config = j.get<MidiMappingConfig>()` assigns a converted
default-constructed configuration, and only when no exception was thrown). -/
def LoadConfiguration (file : ConfigFile) (config : MidiMappingConfig) :
    Bool × MidiMappingConfig :=
  match file with
  | ConfigFile.cannotOpen => (false, config)
  | ConfigFile.notJson => (false, config)
  | ConfigFile.json j =>
      match from_json_MidiMappingConfig j {} with
      | some loaded => (true, loaded)
      | none => (false, config)

/-- A configuration file with one axis mapping marked calibrated whose stored
bounds are inverted (`calibrationMinHid = 10`, `calibrationMaxHid = 5`). -/
def invertedFile : ConfigFile :=
  ConfigFile.json (Json.obj
    [("hidDevicePath", Json.str "/dev/input/event5"),
     ("hidDeviceName", Json.str "Pad"),
     ("midiDeviceName", Json.str "Out"),
     ("mappings", Json.arr
       [Json.obj
         [("control", Json.obj
            [("isButton", Json.bool false), ("logicalMin", Json.num 0),
             ("logicalMax", Json.num 255), ("name", Json.str "Axis 0")]),
          ("midiMessageType", Json.str "CC"),
          ("midiNoteOrCCNumber", Json.num 7),
          ("calibrationMinHid", Json.num 10),
          ("calibrationMaxHid", Json.num 5),
          ("calibrationDone", Json.bool true)]])])

/-! ## The dispatch step as atomic operations -/

/-- The part of the dispatch loop body between the exchange of the flag and the
final assignment of `previousValue`, for the value `loaded` that
`state.currentValue.load()` returns there: the message, if any, and
`lastSentMidiValue`. -/
def translateLoaded (mapping : ControlMapping) (defaultMidiChannel : Int)
    (state : MappingState) (loaded : Int) : MappingState × List Message :=
  let channel := GetEffectiveChannel mapping defaultMidiChannel
  if mapping.control.isButton then
    let pressed : Bool := loaded != 0
    if pressed != (state.previousValue != 0) then
      let message := buttonMessage mapping channel pressed
      (state, if !message.isEmpty then [message] else [])
    else (state, [])
  else
    if mapping.calibrationDone then
      if axisRange mapping > 0 then
        let midiVal := axisMidiVal mapping loaded
        if midiVal != state.lastSentMidiValue then
          ({ state with lastSentMidiValue := midiVal },
            [axisMessage mapping channel midiVal])
        else (state, [])
      else (state, [])
    else (state, [])

/-- Where the input thread stands in one update of an entry: before the
comparison with `currentValue.load()`, before `currentValue = ev.value`,
before `valueChanged = true`, or finished. -/
inductive ObservePc where
  | compare
  | store
  | setFlag
  | done
  deriving DecidableEq

/-- Where the dispatch loop stands in one pass over an entry: before
`valueChanged.exchange(false)`, before the load of `currentValue` that is
translated, before `previousValue = currentValue.load()`, or finished. -/
inductive DispatchPc where
  | exchange
  | translate
  | storePrevious
  | done
  deriving DecidableEq

/-- One entry shared by the input thread and the dispatch loop, with the
position of each and the messages sent so far. -/
structure Interleaved where
  state : MappingState
  observePc : ObservePc := ObservePc.compare
  dispatchPc : DispatchPc := DispatchPc.exchange
  sent : List Message := []
  deriving DecidableEq

/-- One atomic operation of the input thread ingesting `rawValue`. -/
def stepObserve (rawValue : Int) (c : Interleaved) : Interleaved :=
  match c.observePc with
  | ObservePc.compare =>
      if rawValue ≠ c.state.currentValue then { c with observePc := ObservePc.store }
      else { c with observePc := ObservePc.done }
  | ObservePc.store =>
      { c with state := { c.state with currentValue := rawValue },
               observePc := ObservePc.setFlag }
  | ObservePc.setFlag =>
      { c with state := { c.state with valueChanged := true }, observePc := ObservePc.done }
  | ObservePc.done => c

/-- One atomic operation of the dispatch loop on the entry. -/
def stepDispatch (mapping : ControlMapping) (defaultMidiChannel : Int) (c : Interleaved) :
    Interleaved :=
  match c.dispatchPc with
  | DispatchPc.exchange =>
      let r := exchangeValueChanged c.state
      { c with state := r.2,
               dispatchPc := if r.1 then DispatchPc.translate else DispatchPc.done }
  | DispatchPc.translate =>
      let r := translateLoaded mapping defaultMidiChannel c.state c.state.currentValue
      { c with state := r.1, sent := c.sent ++ r.2, dispatchPc := DispatchPc.storePrevious }
  | DispatchPc.storePrevious =>
      { c with state := { c.state with previousValue := c.state.currentValue },
               dispatchPc := DispatchPc.done }
  | DispatchPc.done => c

/-- The thread that performs the next atomic operation. -/
inductive Thread where
  | input
  | dispatch
  deriving DecidableEq

/-- The entry after the atomic operations of one `observe` of `rawValue` and one
dispatch pass, interleaved as the schedule says. -/
def runSchedule (mapping : ControlMapping) (defaultMidiChannel : Int) (rawValue : Int)
    (c : Interleaved) (schedule : List Thread) : Interleaved :=
  schedule.foldl
    (fun c thread =>
      match thread with
      | Thread.input => stepObserve rawValue c
      | Thread.dispatch => stepDispatch mapping defaultMidiChannel c)
    c

/-- A pressed button whose press has not been consumed yet (`currentValue = 1`,
flag set, `previousValue = 0`). -/
def pressedPending : MappingState :=
  { currentValue := 1, valueChanged := true, previousValue := 0 }

/-- The release arrives while the dispatch loop handles the press: the loop
exchanges the flag and translates the value 1, the input thread compares and
stores 0, the loop stores `previousValue`, the input thread sets the flag. -/
def racingSchedule : List Thread :=
  [Thread.dispatch, Thread.dispatch, Thread.input, Thread.input, Thread.dispatch, Thread.input]

/-! ## The monitoring display -/

/-- What `DisplayMonitoringOutput` shows for one mapping: the first 12 bytes
of the control name and, for a button, whether it is on, for an axis, the
length of the bar and the percentage. -/
inductive DisplayItem where
  | button (shortName : List UInt8) (isOn : Bool)
  | axis (shortName : List UInt8) (barLength : Int) (percentage : ℚ)
  deriving DecidableEq

/-- The body of the loop of `DisplayMonitoringOutput` for one index. -/
def displayEntry (mapping : ControlMapping) (state : MappingState) : DisplayItem :=
  let shortName := mapping.control.name.toUTF8.data.toList.take 12
  if mapping.control.isButton then
    DisplayItem.button shortName (state.currentValue != 0)
  else
    let displayRangeMin :=
      if mapping.calibrationDone then mapping.calibrationMinHid else mapping.control.logicalMin
    let displayRangeMax :=
      if mapping.calibrationDone then mapping.calibrationMaxHid else mapping.control.logicalMax
    let displayRange := wrapLong (displayRangeMax - displayRangeMin)
    let percentage : ℚ :=
      if displayRange > 0 then
        let clampedValue := max displayRangeMin (min displayRangeMax state.currentValue)
        roundDouble
          (roundDouble (((wrapLong (clampedValue - displayRangeMin) : Int) : ℚ) * 100)
            / (displayRange : ℚ))
      else if state.currentValue ≥ displayRangeMax then 100
      else 0
    let barLength :=
      doubleToInt (roundDouble (roundDouble (roundDouble (percentage / 100) * 20) + 1 / 2))
    let barLength := max 0 (min 20 barLength)
    DisplayItem.axis shortName barLength percentage

/-- The loop of `DisplayMonitoringOutput` over all indices below both sizes. -/
def DisplayMonitoringOutput : List ControlMapping → List MappingState → List DisplayItem
  | mapping :: mappings, state :: states =>
      displayEntry mapping state :: DisplayMonitoringOutput mappings states
  | _, _ => []

/-! ## Further concrete inputs -/

/-- A configuration file whose only mapping has the number 42 where the message
kind is expected. -/
def wrongKindFile : ConfigFile :=
  ConfigFile.json (Json.obj
    [("hidDevicePath", Json.str "/dev/input/event5"),
     ("hidDeviceName", Json.str "Pad"),
     ("midiDeviceName", Json.str "Out"),
     ("mappings", Json.arr
       [Json.obj
         [("control", Json.obj
            [("isButton", Json.bool true), ("logicalMin", Json.num 0),
             ("logicalMax", Json.num 1), ("name", Json.str "Button 0")]),
          ("midiMessageType", Json.num 42),
          ("midiNoteOrCCNumber", Json.num 60)]])])

/-- A configuration file whose only mapping lacks `midiNoteOrCCNumber`. -/
def missingNumberFile : ConfigFile :=
  ConfigFile.json (Json.obj
    [("hidDevicePath", Json.str "/dev/input/event5"),
     ("hidDeviceName", Json.str "Pad"),
     ("midiDeviceName", Json.str "Out"),
     ("mappings", Json.arr
       [Json.obj
         [("control", Json.obj
            [("isButton", Json.bool true), ("logicalMin", Json.num 0),
             ("logicalMax", Json.num 1), ("name", Json.str "Button 0")]),
          ("midiMessageType", Json.str "CC")]])])

/-- Globals with one button mapping and its fresh entry. -/
def oneButtonGlobals : Globals :=
  { g_currentConfig := { mappings := [noteButtonExample] }, g_mappingStates := [{}] }

/-- A calibrated axis whose stored bounds are the two ends of the `LONG` range
the wrong way round: `calibrationMinHid = 2147483647`,
`calibrationMaxHid = -2147483648`. -/
def underflowAxisExample : ControlMapping :=
  { calibrationMinHid := 2147483647, calibrationMaxHid := -2147483648,
    calibrationDone := true }

/-- A calibrated axis whose bounds are the two ends of the `LONG` range:
`calibrationMinHid = -2147483648`, `calibrationMaxHid = 2147483647`. -/
def fullRangeAxisExample : ControlMapping :=
  { calibrationMinHid := -2147483648, calibrationMaxHid := 2147483647,
    calibrationDone := true }

/-! ## Auxiliary facts -/

theorem wrapLong_of_inLong {x : Int} (h : InLong x) : wrapLong x = x := by
  unfold InLong at h
  unfold wrapLong
  omega

theorem doubleToInt_of_nonneg {q : ℚ} (h : 0 ≤ q) : doubleToInt q = ⌊q⌋ := by
  simp [doubleToInt, h]

/-- The clamped value lies between the calibration bounds when they are ordered. -/
theorem clamp_bounds (lo hi v : Int) (h : lo ≤ hi) :
    lo ≤ max lo (min hi v) ∧ max lo (min hi v) ≤ hi := by
  omega

/-- When the wrapped range is positive, either it is the true difference and
the bounds are ordered, or the true difference underflowed and the upper
bound is below the lower one. -/
theorem axisRange_pos_cases (m : ControlMapping)
    (hmin : InLong m.calibrationMinHid) (hmax : InLong m.calibrationMaxHid)
    (hr : 0 < axisRange m) :
    (m.calibrationMinHid < m.calibrationMaxHid ∧
      axisRange m = m.calibrationMaxHid - m.calibrationMinHid) ∨
    (m.calibrationMaxHid < m.calibrationMinHid) := by
  unfold InLong at hmin hmax
  unfold axisRange wrapLong at *
  omega

/-- The quotient the code computes from the wrapped operands is the exact
quotient of the true differences. -/
theorem axis_norm_eq (m : ControlMapping) (cur : Int)
    (hmin : InLong m.calibrationMinHid) (hmax : InLong m.calibrationMaxHid)
    (hr : 0 < axisRange m) :
    ((wrapLong (max m.calibrationMinHid (min m.calibrationMaxHid cur)
        - m.calibrationMinHid) : Int) : ℚ) / ((axisRange m : Int) : ℚ)
      = ((max m.calibrationMinHid (min m.calibrationMaxHid cur)
          - m.calibrationMinHid : Int) : ℚ)
        / ((m.calibrationMaxHid - m.calibrationMinHid : Int) : ℚ) := by
  rcases axisRange_pos_cases m hmin hmax hr with ⟨hlt, heq⟩ | hgt
  · have hb := clamp_bounds m.calibrationMinHid m.calibrationMaxHid cur (le_of_lt hlt)
    have hin : InLong (max m.calibrationMinHid (min m.calibrationMaxHid cur)
        - m.calibrationMinHid) := by
      have hpos : 0 < m.calibrationMaxHid - m.calibrationMinHid := by omega
      have hlt2 : m.calibrationMaxHid - m.calibrationMinHid < 2147483648 := by
        have := heq ▸ hr
        unfold axisRange wrapLong at heq
        omega
      unfold InLong
      omega
    rw [wrapLong_of_inLong hin, heq]
  · have hc : max m.calibrationMinHid (min m.calibrationMaxHid cur) = m.calibrationMinHid := by
      omega
    rw [hc]
    simp [wrapLong]

/-- The exact quotient lies in the unit interval. -/
theorem axis_norm_unit (m : ControlMapping) (cur : Int)
    (hmin : InLong m.calibrationMinHid) (hmax : InLong m.calibrationMaxHid)
    (hr : 0 < axisRange m) :
    (0 : ℚ) ≤ ((max m.calibrationMinHid (min m.calibrationMaxHid cur)
          - m.calibrationMinHid : Int) : ℚ)
        / ((m.calibrationMaxHid - m.calibrationMinHid : Int) : ℚ) ∧
    ((max m.calibrationMinHid (min m.calibrationMaxHid cur)
          - m.calibrationMinHid : Int) : ℚ)
        / ((m.calibrationMaxHid - m.calibrationMinHid : Int) : ℚ) ≤ 1 := by
  rcases axisRange_pos_cases m hmin hmax hr with ⟨hlt, _⟩ | hgt
  · have hb := clamp_bounds m.calibrationMinHid m.calibrationMaxHid cur (le_of_lt hlt)
    have hd : (0 : ℚ) < ((m.calibrationMaxHid - m.calibrationMinHid : Int) : ℚ) := by
      exact_mod_cast (by omega : 0 < m.calibrationMaxHid - m.calibrationMinHid)
    have hn0 : (0 : ℚ) ≤ ((max m.calibrationMinHid (min m.calibrationMaxHid cur)
          - m.calibrationMinHid : Int) : ℚ) := by
      exact_mod_cast (by omega : 0 ≤ max m.calibrationMinHid (min m.calibrationMaxHid cur)
          - m.calibrationMinHid)
    have hn1 : ((max m.calibrationMinHid (min m.calibrationMaxHid cur)
          - m.calibrationMinHid : Int) : ℚ)
        ≤ ((m.calibrationMaxHid - m.calibrationMinHid : Int) : ℚ) := by
      exact_mod_cast (by omega : max m.calibrationMinHid (min m.calibrationMaxHid cur)
          - m.calibrationMinHid ≤ m.calibrationMaxHid - m.calibrationMinHid)
    exact ⟨div_nonneg hn0 (le_of_lt hd), (div_le_one hd).mpr hn1⟩
  · have hc : max m.calibrationMinHid (min m.calibrationMaxHid cur) = m.calibrationMinHid := by
      omega
    rw [hc]
    simp

/-! ## Rounding to `double` -/

/-- The rounding of `m` is the floor of `m` or the next integer, whichever is
nearer. -/
theorem roundHalfEven_cases (m : ℚ) :
    (roundHalfEven m = ⌊m⌋ ∧ m - ⌊m⌋ ≤ 1 / 2) ∨
    (roundHalfEven m = ⌊m⌋ + 1 ∧ 1 / 2 ≤ m - ⌊m⌋) := by
  unfold roundHalfEven
  simp only
  split_ifs with h1 h2 h3
  · left; exact ⟨rfl, le_of_lt h1⟩
  · right; exact ⟨rfl, le_of_lt h2⟩
  · left; exact ⟨rfl, not_lt.mp h2⟩
  · right; exact ⟨rfl, not_lt.mp h1⟩

/-- The rounding of `m` is within `1/2` of `m`. -/
theorem roundHalfEven_near (m : ℚ) :
    m - 1 / 2 ≤ (roundHalfEven m : ℚ) ∧ (roundHalfEven m : ℚ) ≤ m + 1 / 2 := by
  have h1 := Int.floor_le m
  have h2 := Int.lt_floor_add_one m
  rcases roundHalfEven_cases m with ⟨h, hh⟩ | ⟨h, hh⟩
  · rw [h]; constructor <;> linarith
  · rw [h]; push_cast; constructor <;> linarith

/-- Rounding to an integer is monotone. -/
theorem roundHalfEven_mono {m1 m2 : ℚ} (h : m1 ≤ m2) :
    roundHalfEven m1 ≤ roundHalfEven m2 := by
  have hf : ⌊m1⌋ ≤ ⌊m2⌋ := Int.floor_mono h
  rcases lt_or_eq_of_le hf with hlt | heq
  · rcases roundHalfEven_cases m1 with ⟨h1, _⟩ | ⟨h1, _⟩ <;>
    rcases roundHalfEven_cases m2 with ⟨h2, _⟩ | ⟨h2, _⟩ <;> omega
  · unfold roundHalfEven
    simp only [heq]
    split_ifs <;> first | omega | (exfalso; linarith)

/-- An integer is its own rounding. -/
theorem roundHalfEven_intCast (n : Int) : roundHalfEven (n : ℚ) = n := by
  simp [roundHalfEven]

/-- The integer strictly within `1/2` of `m` is the rounding of `m`. -/
theorem roundHalfEven_eq_of_lt (m : ℚ) (N : Int) (h1 : (N : ℚ) - 1 / 2 < m)
    (h2 : m < (N : ℚ) + 1 / 2) : roundHalfEven m = N := by
  obtain ⟨h3, h4⟩ := roundHalfEven_near m
  have h5 : ((roundHalfEven m : Int) : ℚ) < ((N + 1 : Int) : ℚ) := by push_cast; linarith
  have h6 : ((N - 1 : Int) : ℚ) < ((roundHalfEven m : Int) : ℚ) := by push_cast; linarith
  have h7 := Int.cast_lt.mp h5
  have h8 := Int.cast_lt.mp h6
  omega

/-- Powers of two are positive. -/
theorem doubleQuantum_pos (e : Int) : (0 : ℚ) < 2 ^ e := zpow_pos (by norm_num) e

/-- A non-negative value rounds to a non-negative `double`. -/
theorem roundDouble_nonneg {x : ℚ} (h : 0 ≤ x) : 0 ≤ roundDouble x := by
  unfold roundDouble
  simp only
  have hq := doubleQuantum_pos (doubleExponent x - 52)
  have h0 : roundHalfEven ((0 : Int) : ℚ) ≤ roundHalfEven (x / 2 ^ (doubleExponent x - 52)) :=
    roundHalfEven_mono (by simpa using div_nonneg h (le_of_lt hq))
  rw [roundHalfEven_intCast] at h0
  have : (0 : ℚ) ≤ (roundHalfEven (x / 2 ^ (doubleExponent x - 52)) : ℚ) := by
    exact_mod_cast h0
  positivity

/-- A positive value lies in the binade of its logarithm. -/
theorem log_spec {x : ℚ} (hx : 0 < x) :
    (2 : ℚ) ^ Int.log 2 x ≤ x ∧ x < (2 : ℚ) ^ (Int.log 2 x + 1) := by
  have h1 := Int.zpow_log_le_self (b := 2) (by norm_num) hx
  have h2 := Int.lt_zpow_succ_log_self (b := 2) (by norm_num) x
  exact ⟨by simpa using h1, by simpa using h2⟩

/-- The binade a value lies in determines its logarithm. -/
theorem log_eq_of_binade {x : ℚ} {e : Int} (h1 : (2 : ℚ) ^ e ≤ x)
    (h2 : x < (2 : ℚ) ^ (e + 1)) :
    Int.log 2 x = e := by
  have hx : 0 < x := lt_of_lt_of_le (doubleQuantum_pos e) h1
  have h3 : e ≤ Int.log 2 x :=
    (Int.zpow_le_iff_le_log (b := 2) (by norm_num) hx).mp (by simpa using h1)
  have h4 : Int.log 2 x < e + 1 :=
    (Int.lt_zpow_iff_log_lt (b := 2) (by norm_num) hx).mp (by simpa using h2)
  omega


/-- For a positive value the scaled significand is below `2 ^ 53`. -/
theorem significand_lt {x : ℚ} (hx : 0 < x) :
    x / 2 ^ (doubleExponent x - 52) < 2 ^ (53 : Int) := by
  have hq := doubleQuantum_pos (doubleExponent x - 52)
  rw [div_lt_iff₀ hq, ← zpow_add₀ (by norm_num : (2 : ℚ) ≠ 0)]
  have h2 := (log_spec hx).2
  have hle : Int.log 2 x + 1 ≤ 53 + (doubleExponent x - 52) := by
    unfold doubleExponent
    rw [abs_of_pos hx]
    omega
  exact lt_of_lt_of_le h2 (zpow_le_zpow_right₀ (by norm_num) hle)

/-- For a value of the normal range the scaled significand is at least
`2 ^ 52`. -/
theorem significand_ge {x : ℚ} (hx : 0 < x) (he : -1022 ≤ Int.log 2 x) :
    (2 : ℚ) ^ (52 : Int) ≤ x / 2 ^ (doubleExponent x - 52) := by
  have hq := doubleQuantum_pos (doubleExponent x - 52)
  rw [le_div_iff₀ hq, ← zpow_add₀ (by norm_num : (2 : ℚ) ≠ 0)]
  have h1 := (log_spec hx).1
  have heq : 52 + (doubleExponent x - 52) = Int.log 2 x := by
    unfold doubleExponent
    rw [abs_of_pos hx]
    omega
  rw [heq]
  exact h1

/-- Zero is a `double`. -/
theorem roundDouble_zero : roundDouble 0 = 0 := by
  simp [roundDouble, roundHalfEven]

/-- Rounding to `double` is monotone on the non-negative rationals. -/
theorem roundDouble_mono {x y : ℚ} (hx : 0 ≤ x) (hxy : x ≤ y) :
    roundDouble x ≤ roundDouble y := by
  rcases eq_or_lt_of_le hx with h0 | hpos
  · rw [← h0, roundDouble_zero]
    exact roundDouble_nonneg (le_trans hx hxy)
  have hy : 0 < y := lt_of_lt_of_le hpos hxy
  have hlog : Int.log 2 x ≤ Int.log 2 y := Int.log_mono_right hpos hxy
  have hE : doubleExponent x ≤ doubleExponent y := by
    unfold doubleExponent
    rw [abs_of_pos hpos, abs_of_pos hy]
    omega
  rcases eq_or_lt_of_le hE with heq | hlt
  · unfold roundDouble
    simp only [heq]
    have hq := doubleQuantum_pos (doubleExponent y - 52)
    have hm : roundHalfEven (x / 2 ^ (doubleExponent y - 52))
        ≤ roundHalfEven (y / 2 ^ (doubleExponent y - 52)) :=
      roundHalfEven_mono (div_le_div_of_nonneg_right hxy (le_of_lt hq))
    have hm2 : (roundHalfEven (x / 2 ^ (doubleExponent y - 52)) : ℚ)
        ≤ (roundHalfEven (y / 2 ^ (doubleExponent y - 52)) : ℚ) := by exact_mod_cast hm
    exact mul_le_mul_of_nonneg_right hm2 (le_of_lt hq)
  · have hey : -1022 ≤ Int.log 2 y ∧ doubleExponent y = Int.log 2 y := by
      unfold doubleExponent at hlt ⊢
      rw [abs_of_pos hy] at hlt ⊢
      omega
    have h1 : roundHalfEven (x / 2 ^ (doubleExponent x - 52)) ≤ 2 ^ 53 := by
      have := roundHalfEven_mono (le_of_lt (significand_lt hpos))
      have h53 : ((2 : ℚ) ^ (53 : Int)) = (((2 ^ 53 : Int) : Int) : ℚ) := by norm_num
      rw [h53, roundHalfEven_intCast] at this
      exact this
    have h2 : 2 ^ 52 ≤ roundHalfEven (y / 2 ^ (doubleExponent y - 52)) := by
      have := roundHalfEven_mono (significand_ge hy hey.1)
      have h52 : ((2 : ℚ) ^ (52 : Int)) = (((2 ^ 52 : Int) : Int) : ℚ) := by norm_num
      rw [h52, roundHalfEven_intCast] at this
      exact this
    have hqx := doubleQuantum_pos (doubleExponent x - 52)
    have hqy := doubleQuantum_pos (doubleExponent y - 52)
    have h3 : roundDouble x ≤ 2 ^ (53 : Int) * 2 ^ (doubleExponent x - 52) := by
      unfold roundDouble
      simp only
      apply mul_le_mul_of_nonneg_right _ (le_of_lt hqx)
      have : ((roundHalfEven (x / 2 ^ (doubleExponent x - 52)) : Int) : ℚ)
          ≤ (((2 ^ 53 : Int) : Int) : ℚ) := by exact_mod_cast h1
      have h53 : ((2 : ℚ) ^ (53 : Int)) = (((2 ^ 53 : Int) : Int) : ℚ) := by norm_num
      rw [h53]
      exact this
    have h4 : (2 : ℚ) ^ (52 : Int) * 2 ^ (doubleExponent y - 52) ≤ roundDouble y := by
      unfold roundDouble
      simp only
      apply mul_le_mul_of_nonneg_right _ (le_of_lt hqy)
      have : (((2 ^ 52 : Int) : Int) : ℚ)
          ≤ ((roundHalfEven (y / 2 ^ (doubleExponent y - 52)) : Int) : ℚ) := by exact_mod_cast h2
      have h52 : ((2 : ℚ) ^ (52 : Int)) = (((2 ^ 52 : Int) : Int) : ℚ) := by norm_num
      rw [h52]
      exact this
    rw [← zpow_add₀ (by norm_num : (2 : ℚ) ≠ 0)] at h3 h4
    have h5 : (2 : ℚ) ^ (53 + (doubleExponent x - 52)) ≤ 2 ^ (52 + (doubleExponent y - 52)) :=
      zpow_le_zpow_right₀ (by norm_num) (by omega)
    linarith

/-- Evaluation of the rounding: a positive value of the binade `e` whose
scaled significand is nearer to `N` than to any other integer rounds to
`N * 2 ^ (e - 52)`. -/
theorem roundDouble_eq (x : ℚ) (e N : Int) (he : -1022 ≤ e)
    (h1 : (2 : ℚ) ^ e ≤ x) (h2 : x < (2 : ℚ) ^ (e + 1))
    (h3 : (N : ℚ) - 1 / 2 < x / 2 ^ (e - 52)) (h4 : x / 2 ^ (e - 52) < (N : ℚ) + 1 / 2) :
    roundDouble x = (N : ℚ) * 2 ^ (e - 52) := by
  have hx : 0 < x := lt_of_lt_of_le (doubleQuantum_pos e) h1
  have hE : doubleExponent x = e := by
    unfold doubleExponent
    rw [abs_of_pos hx, log_eq_of_binade h1 h2]
    omega
  unfold roundDouble
  simp only [hE]
  rw [roundHalfEven_eq_of_lt _ N h3 h4]

/-- A `double` is its own rounding: a positive value of the binade `e` whose
scaled significand is the integer `N`. -/
theorem roundDouble_eq_self (x : ℚ) (e N : Int) (he : -1022 ≤ e)
    (h1 : (2 : ℚ) ^ e ≤ x) (h2 : x < (2 : ℚ) ^ (e + 1))
    (h3 : x / 2 ^ (e - 52) = (N : ℚ)) : roundDouble x = x := by
  have hq := doubleQuantum_pos (e - 52)
  rw [roundDouble_eq x e N he h1 h2 (by rw [h3]; linarith) (by rw [h3]; linarith), ← h3]
  field_simp

/-- Below `2 ^ 8` a rounding moves a value by at most `2 ^ (-46)`. -/
theorem roundDouble_near {x : ℚ} (h0 : 0 ≤ x) (h1 : x ≤ 128) :
    x - 1 / 2 ^ 46 ≤ roundDouble x ∧ roundDouble x ≤ x + 1 / 2 ^ 46 := by
  have hE : doubleExponent x ≤ 7 := by
    unfold doubleExponent
    rcases eq_or_lt_of_le h0 with h | hpos
    · rw [← h]; simp
    · rw [abs_of_pos hpos]
      have : Int.log 2 x < 8 :=
        (Int.lt_zpow_iff_log_lt (b := 2) (by norm_num) hpos).mp (by norm_num; linarith)
      omega
  have hq := doubleQuantum_pos (doubleExponent x - 52)
  have hq2 : (2 : ℚ) ^ (doubleExponent x - 52) ≤ 2 ^ (-45 : Int) :=
    zpow_le_zpow_right₀ (by norm_num) (by omega)
  have h45 : (2 : ℚ) ^ (-45 : Int) = 1 / 2 ^ 45 := by norm_num
  rw [h45] at hq2
  obtain ⟨h3, h4⟩ := roundHalfEven_near (x / 2 ^ (doubleExponent x - 52))
  have hx : x = x / 2 ^ (doubleExponent x - 52) * 2 ^ (doubleExponent x - 52) := by
    field_simp
  unfold roundDouble
  simp only
  generalize (roundHalfEven (x / 2 ^ (doubleExponent x - 52)) : ℚ) = r at h3 h4 ⊢
  generalize x / 2 ^ (doubleExponent x - 52) = m at h3 h4 hx
  generalize (2 : ℚ) ^ (doubleExponent x - 52) = q at hq hq2 hx ⊢
  subst hx
  constructor <;> nlinarith

/-- The constants `0.5`, `1.0`, `127.0` and `127.5` are `double`s. -/
theorem roundDouble_half : roundDouble (1 / 2) = 1 / 2 :=
  roundDouble_eq_self _ (-1) (2 ^ 52) (by norm_num) (by norm_num) (by norm_num) (by norm_num)

theorem roundDouble_one : roundDouble 1 = 1 :=
  roundDouble_eq_self _ 0 (2 ^ 52) (by norm_num) (by norm_num) (by norm_num) (by norm_num)

theorem roundDouble_127 : roundDouble 127 = 127 :=
  roundDouble_eq_self _ 6 (127 * 2 ^ 46) (by norm_num) (by norm_num) (by norm_num) (by norm_num)

theorem roundDouble_255_half : roundDouble (255 / 2) = 255 / 2 :=
  roundDouble_eq_self _ 6 (255 * 2 ^ 45) (by norm_num) (by norm_num) (by norm_num) (by norm_num)

/-! ## The axis value -/

/-- The spec's value is the floor of the scaled number. -/
theorem outValueExact_eq_floor (lo hi : Int) (rev : Bool) (v : Int) :
    outValueExact lo hi rev v = ⌊outValueScaled lo hi rev v⌋ := rfl

/-- A value of the unit interval rounds into the unit interval. -/
theorem roundDouble_unit {q : ℚ} (h0 : 0 ≤ q) (h1 : q ≤ 1) :
    0 ≤ roundDouble q ∧ roundDouble q ≤ 1 := by
  refine ⟨roundDouble_nonneg h0, ?_⟩
  have := roundDouble_mono h0 h1
  rwa [roundDouble_one] at this

/-- The `double` that is truncated to `midiVal` lies between `0.5` and
`127.5` when `norm` lies in the unit interval. -/
theorem scaled_bounds {w : ℚ} (h0 : 0 ≤ w) (h1 : w ≤ 1) :
    1 / 2 ≤ roundDouble (roundDouble (w * 127) + 1 / 2) ∧
    roundDouble (roundDouble (w * 127) + 1 / 2) ≤ 255 / 2 := by
  have ht0 : 0 ≤ roundDouble (w * 127) := roundDouble_nonneg (by linarith)
  have ht1 : roundDouble (w * 127) ≤ 127 := by
    have := roundDouble_mono (by linarith : (0 : ℚ) ≤ w * 127) (by linarith : w * 127 ≤ 127)
    rwa [roundDouble_127] at this
  constructor
  · have := roundDouble_mono (by norm_num : (0 : ℚ) ≤ 1 / 2)
      (by linarith : (1 / 2 : ℚ) ≤ roundDouble (w * 127) + 1 / 2)
    rwa [roundDouble_half] at this
  · have := roundDouble_mono (by linarith : (0 : ℚ) ≤ roundDouble (w * 127) + 1 / 2)
      (by linarith : roundDouble (w * 127) + 1 / 2 ≤ 255 / 2)
    rwa [roundDouble_255_half] at this

/-- The scaling `norm * 127.0 + 0.5` is monotone in `norm`. -/
theorem scaled_mono {w1 w2 : ℚ} (h0 : 0 ≤ w1) (h : w1 ≤ w2) :
    roundDouble (roundDouble (w1 * 127) + 1 / 2) ≤ roundDouble (roundDouble (w2 * 127) + 1 / 2) := by
  have ht0 : 0 ≤ roundDouble (w1 * 127) := roundDouble_nonneg (by linarith)
  have ht : roundDouble (w1 * 127) ≤ roundDouble (w2 * 127) :=
    roundDouble_mono (by linarith) (by linarith)
  exact roundDouble_mono (by linarith) (by linarith)

/-- The `norm` of the axis branch in terms of the exact quotient of the true
differences. -/
theorem axisNorm_eq (m : ControlMapping) (cur : Int)
    (hmin : InLong m.calibrationMinHid) (hmax : InLong m.calibrationMaxHid)
    (hr : 0 < axisRange m) :
    axisNorm m cur =
      if m.reverseAxis then
        roundDouble (1 - roundDouble
          (((max m.calibrationMinHid (min m.calibrationMaxHid cur)
              - m.calibrationMinHid : Int) : ℚ)
            / ((m.calibrationMaxHid - m.calibrationMinHid : Int) : ℚ)))
      else
        roundDouble
          (((max m.calibrationMinHid (min m.calibrationMaxHid cur)
              - m.calibrationMinHid : Int) : ℚ)
            / ((m.calibrationMaxHid - m.calibrationMinHid : Int) : ℚ)) := by
  unfold axisNorm
  simp only [axis_norm_eq m cur hmin hmax hr]

/-- The `norm` of the axis branch lies in the unit interval. -/
theorem axisNorm_unit (m : ControlMapping) (cur : Int)
    (hmin : InLong m.calibrationMinHid) (hmax : InLong m.calibrationMaxHid)
    (hr : 0 < axisRange m) :
    0 ≤ axisNorm m cur ∧ axisNorm m cur ≤ 1 := by
  obtain ⟨h0, h1⟩ := axis_norm_unit m cur hmin hmax hr
  obtain ⟨ha0, ha1⟩ := roundDouble_unit h0 h1
  rw [axisNorm_eq m cur hmin hmax hr]
  split_ifs
  · exact roundDouble_unit (by linarith) (by linarith)
  · exact ⟨ha0, ha1⟩

/-- The value computed by the axis branch is the floor of the `double` that
is truncated. -/
theorem axisMidiVal_eq_floor (m : ControlMapping) (cur : Int)
    (hmin : InLong m.calibrationMinHid) (hmax : InLong m.calibrationMaxHid)
    (hr : 0 < axisRange m) :
    axisMidiVal m cur = ⌊roundDouble (roundDouble (axisNorm m cur * 127) + 1 / 2)⌋ := by
  obtain ⟨h0, h1⟩ := axisNorm_unit m cur hmin hmax hr
  unfold axisMidiVal
  simp only
  rw [doubleToInt_of_nonneg]
  linarith [(scaled_bounds h0 h1).1]

/-- Scaling a value of the unit interval by 127 and rounding gives a 7-bit
value. -/
theorem floor_scale_bounds (q : ℚ) (h0 : 0 ≤ q) (h1 : q ≤ 1) :
    0 ≤ ⌊127 * q + 1 / 2⌋ ∧ ⌊127 * q + 1 / 2⌋ ≤ 127 := by
  constructor
  · apply Int.floor_nonneg.mpr
    linarith
  · have h : ⌊127 * q + 1 / 2⌋ < 128 := by
      apply Int.floor_lt.mpr
      norm_num
      linarith
    omega

/-- The spec's exact value is a 7-bit value. -/
theorem outValueExact_bounds (m : ControlMapping) (cur : Int)
    (hmin : InLong m.calibrationMinHid) (hmax : InLong m.calibrationMaxHid)
    (hr : 0 < axisRange m) :
    0 ≤ outValueExact m.calibrationMinHid m.calibrationMaxHid m.reverseAxis cur ∧
    outValueExact m.calibrationMinHid m.calibrationMaxHid m.reverseAxis cur ≤ 127 := by
  obtain ⟨h0, h1⟩ := axis_norm_unit m cur hmin hmax hr
  unfold outValueExact
  simp only
  split_ifs
  · exact floor_scale_bounds _ (by linarith) (by linarith)
  · exact floor_scale_bounds _ h0 h1

/-- The value computed by the axis branch is a 7-bit value. -/
theorem axisMidiVal_bounds (m : ControlMapping) (cur : Int)
    (hmin : InLong m.calibrationMinHid) (hmax : InLong m.calibrationMaxHid)
    (hr : 0 < axisRange m) :
    0 ≤ axisMidiVal m cur ∧ axisMidiVal m cur ≤ 127 := by
  obtain ⟨h0, h1⟩ := axisNorm_unit m cur hmin hmax hr
  obtain ⟨hs0, hs1⟩ := scaled_bounds h0 h1
  rw [axisMidiVal_eq_floor m cur hmin hmax hr]
  constructor
  · exact Int.floor_nonneg.mpr (by linarith)
  · have h : ⌊roundDouble (roundDouble (axisNorm m cur * 127) + 1 / 2)⌋ < 128 := by
      apply Int.floor_lt.mpr
      norm_num
      linarith
    omega

/-- The `double` that is truncated to `midiVal` is within `2 ^ (-38)` of the
number the spec's formula rounds down. -/
theorem scaled_near (q : ℚ) (rev : Bool) (h0 : 0 ≤ q) (h1 : q ≤ 1) :
    (127 * (if rev then 1 - q else q) + 1 / 2) - 1 / 2 ^ 38
      ≤ roundDouble (roundDouble
          ((if rev then roundDouble (1 - roundDouble q) else roundDouble q) * 127) + 1 / 2) ∧
    roundDouble (roundDouble
          ((if rev then roundDouble (1 - roundDouble q) else roundDouble q) * 127) + 1 / 2)
      ≤ (127 * (if rev then 1 - q else q) + 1 / 2) + 1 / 2 ^ 38 := by
  obtain ⟨ha0, ha1⟩ := roundDouble_unit h0 h1
  obtain ⟨ha2, ha3⟩ := roundDouble_near h0 (by linarith : q ≤ 128)
  have key : ∀ w n : ℚ, 0 ≤ w → w ≤ 1 → n - 2 / 2 ^ 46 ≤ w → w ≤ n + 2 / 2 ^ 46 →
      (127 * n + 1 / 2) - 1 / 2 ^ 38 ≤ roundDouble (roundDouble (w * 127) + 1 / 2) ∧
      roundDouble (roundDouble (w * 127) + 1 / 2) ≤ (127 * n + 1 / 2) + 1 / 2 ^ 38 := by
    intro w n hw0 hw1 hn1 hn2
    have ht0 : 0 ≤ roundDouble (w * 127) := roundDouble_nonneg (by linarith)
    have ht1 : roundDouble (w * 127) ≤ 127 := by
      have := roundDouble_mono (by linarith : (0 : ℚ) ≤ w * 127) (by linarith : w * 127 ≤ 127)
      rwa [roundDouble_127] at this
    obtain ⟨ht2, ht3⟩ := roundDouble_near (by linarith : (0 : ℚ) ≤ w * 127)
      (by linarith : w * 127 ≤ 128)
    obtain ⟨hu2, hu3⟩ := roundDouble_near (by linarith : (0 : ℚ) ≤ roundDouble (w * 127) + 1 / 2)
      (by linarith : roundDouble (w * 127) + 1 / 2 ≤ 128)
    constructor
    · norm_num at hn1 hn2 ht2 ht3 hu2 hu3 ⊢
      linarith
    · norm_num at hn1 hn2 ht2 ht3 hu2 hu3 ⊢
      linarith
  cases rev with
  | false =>
    simp only [Bool.false_eq_true, if_false]
    exact key (roundDouble q) q ha0 ha1 (by linarith) (by linarith)
  | true =>
    simp only [if_true]
    obtain ⟨hb0, hb1⟩ := roundDouble_unit (by linarith : (0 : ℚ) ≤ 1 - roundDouble q)
      (by linarith : 1 - roundDouble q ≤ 1)
    obtain ⟨hb2, hb3⟩ := roundDouble_near (by linarith : (0 : ℚ) ≤ 1 - roundDouble q)
      (by linarith : 1 - roundDouble q ≤ 128)
    exact key (roundDouble (1 - roundDouble q)) (1 - q) hb0 hb1
      (by norm_num at ha2 ha3 hb2 hb3 ⊢; linarith) (by norm_num at ha2 ha3 hb2 hb3 ⊢; linarith)

/-- A number within `2 ^ (-38)` of a fraction with denominator `2 * r`,
`r < 2 ^ 32`, has the floor of the fraction unless the fraction is a whole
number, and then that number or the one below it. -/
theorem floor_of_near (y u : ℚ) (r N : Int) (hr0 : 0 < r) (hr1 : r < 2 ^ 32)
    (hN : y * (2 * (r : ℚ)) = (N : ℚ))
    (h1 : y - 1 / 2 ^ 38 ≤ u) (h2 : u ≤ y + 1 / 2 ^ 38) :
    (y ≠ (⌊y⌋ : ℚ) → ⌊u⌋ = ⌊y⌋) ∧ (⌊u⌋ = ⌊y⌋ ∨ ⌊u⌋ = ⌊y⌋ - 1) := by
  have hj1 : ((⌊y⌋ : Int) : ℚ) ≤ y := Int.floor_le y
  have hj2 : y < ((⌊y⌋ : Int) : ℚ) + 1 := Int.lt_floor_add_one y
  generalize ⌊y⌋ = j at hj1 hj2 ⊢
  have hR : (0 : ℚ) < 2 * (r : ℚ) := by
    have : (0 : ℚ) < (r : ℚ) := by exact_mod_cast hr0
    linarith
  have hR2 : 2 * (r : ℚ) ≤ 2 ^ 33 := by
    have : (r : ℚ) ≤ 2 ^ 32 := by exact_mod_cast (le_of_lt hr1)
    linarith
  -- the numerator is below the next multiple of the denominator
  have hup : y * (2 * (r : ℚ)) ≤ ((j : ℚ) + 1) * (2 * (r : ℚ)) - 1 := by
    have hlt : (N : ℚ) < (((j + 1) * (2 * r) : Int) : ℚ) := by
      push_cast
      rw [← hN]
      exact mul_lt_mul_of_pos_right hj2 hR
    have hlt2 : N < (j + 1) * (2 * r) := by exact_mod_cast hlt
    have hle : N ≤ (j + 1) * (2 * r) - 1 := by omega
    have hle2 : (N : ℚ) ≤ (((j + 1) * (2 * r) - 1 : Int) : ℚ) := by exact_mod_cast hle
    rw [hN]
    push_cast at hle2
    linarith
  have hu_lt : u < (j : ℚ) + 1 := by
    by_contra hcon
    push_neg at hcon
    have h3 : ((j : ℚ) + 1 - 1 / 2 ^ 38) * (2 * (r : ℚ)) ≤ y * (2 * (r : ℚ)) :=
      mul_le_mul_of_nonneg_right (by linarith) (le_of_lt hR)
    have h4 : 1 / 2 ^ 38 * (2 * (r : ℚ)) ≤ 1 / 2 ^ 38 * 2 ^ 33 :=
      mul_le_mul_of_nonneg_left hR2 (by norm_num)
    norm_num at h4
    nlinarith
  have hu_gt : (j : ℚ) - 1 < u := by
    norm_num at h1 ⊢
    linarith
  constructor
  · intro hne
    have hlow : (j : ℚ) * (2 * (r : ℚ)) + 1 ≤ y * (2 * (r : ℚ)) := by
      have hlt : ((j * (2 * r) : Int) : ℚ) < (N : ℚ) := by
        push_cast
        rw [← hN]
        exact mul_lt_mul_of_pos_right (lt_of_le_of_ne hj1 (Ne.symm hne)) hR
      have hlt2 : j * (2 * r) < N := by exact_mod_cast hlt
      have hle : j * (2 * r) + 1 ≤ N := by omega
      have hle2 : ((j * (2 * r) + 1 : Int) : ℚ) ≤ (N : ℚ) := by exact_mod_cast hle
      rw [hN]
      push_cast at hle2
      linarith
    have hu_ge : (j : ℚ) ≤ u := by
      by_contra hcon
      push_neg at hcon
      have h3 : y * (2 * (r : ℚ)) ≤ ((j : ℚ) + 1 / 2 ^ 38) * (2 * (r : ℚ)) :=
        mul_le_mul_of_nonneg_right (by linarith) (le_of_lt hR)
      have h4 : 1 / 2 ^ 38 * (2 * (r : ℚ)) ≤ 1 / 2 ^ 38 * 2 ^ 33 :=
        mul_le_mul_of_nonneg_left hR2 (by norm_num)
      norm_num at h4
      nlinarith
    exact Int.floor_eq_iff.mpr ⟨hu_ge, hu_lt⟩
  · by_cases hge : (j : ℚ) ≤ u
    · left
      exact Int.floor_eq_iff.mpr ⟨hge, hu_lt⟩
    · right
      push_neg at hge
      apply Int.floor_eq_iff.mpr
      push_cast
      constructor
      · linarith
      · linarith


/-- The exact quotient grows with the raw value. -/
theorem exact_norm_mono (lo hi v1 v2 : Int) (hlt : lo < hi) (hv : v1 ≤ v2) :
    ((max lo (min hi v1) - lo : Int) : ℚ) / ((hi - lo : Int) : ℚ)
      ≤ ((max lo (min hi v2) - lo : Int) : ℚ) / ((hi - lo : Int) : ℚ) := by
  have hd : (0 : ℚ) < ((hi - lo : Int) : ℚ) := by
    exact_mod_cast (by omega : 0 < hi - lo)
  have hnum : ((max lo (min hi v1) - lo : Int) : ℚ) ≤ ((max lo (min hi v2) - lo : Int) : ℚ) := by
    exact_mod_cast (by omega : max lo (min hi v1) - lo ≤ max lo (min hi v2) - lo)
  exact (div_le_div_iff_of_pos_right hd).mpr hnum

/-- Clearing the denominator of `127 * (k / d) + 1/2`. -/
theorem scaled_fraction_eq (k d : ℚ) (hd : d ≠ 0) :
    (127 * (k / d) + 1 / 2) * (2 * d) = 254 * k + d := by
  field_simp
  ring

/-- Clearing the denominator of `127 * (1 - k / d) + 1/2`. -/
theorem scaled_fraction_reversed_eq (k d : ℚ) (hd : d ≠ 0) :
    (127 * (1 - k / d) + 1 / 2) * (2 * d) = 254 * (d - k) + d := by
  field_simp
  ring

/-- The number the spec's formula rounds down is a fraction whose denominator
is twice a positive number below `2 ^ 32`. -/
theorem outValueScaled_fraction (m : ControlMapping) (cur : Int)
    (hmin : InLong m.calibrationMinHid) (hmax : InLong m.calibrationMaxHid)
    (hr : 0 < axisRange m) :
    ∃ r N : Int, 0 < r ∧ r < 2 ^ 32 ∧
      outValueScaled m.calibrationMinHid m.calibrationMaxHid m.reverseAxis cur * (2 * (r : ℚ))
        = (N : ℚ) := by
  rcases axisRange_pos_cases m hmin hmax hr with ⟨hlt, heq⟩ | hgt
  · have hlt2 : m.calibrationMaxHid - m.calibrationMinHid < 2147483648 := by
      unfold axisRange wrapLong at heq
      omega
    have hd : ((m.calibrationMaxHid - m.calibrationMinHid : Int) : ℚ) ≠ 0 := by
      have : (0 : ℚ) < ((m.calibrationMaxHid - m.calibrationMinHid : Int) : ℚ) := by
        exact_mod_cast (by omega : 0 < m.calibrationMaxHid - m.calibrationMinHid)
      exact ne_of_gt this
    cases hrev : m.reverseAxis with
    | false =>
      refine ⟨m.calibrationMaxHid - m.calibrationMinHid,
        254 * (max m.calibrationMinHid (min m.calibrationMaxHid cur) - m.calibrationMinHid)
          + (m.calibrationMaxHid - m.calibrationMinHid), by omega, by omega, ?_⟩
      unfold outValueScaled
      simp only [Bool.false_eq_true, if_false]
      rw [scaled_fraction_eq _ _ hd]
      push_cast
      ring
    | true =>
      refine ⟨m.calibrationMaxHid - m.calibrationMinHid,
        254 * ((m.calibrationMaxHid - m.calibrationMinHid)
            - (max m.calibrationMinHid (min m.calibrationMaxHid cur) - m.calibrationMinHid))
          + (m.calibrationMaxHid - m.calibrationMinHid), by omega, by omega, ?_⟩
      unfold outValueScaled
      simp only [if_true]
      rw [scaled_fraction_reversed_eq _ _ hd]
      push_cast
      ring
  · have hc : max m.calibrationMinHid (min m.calibrationMaxHid cur) = m.calibrationMinHid := by
      omega
    cases hrev : m.reverseAxis with
    | false =>
      refine ⟨1, 1, by decide, by decide, ?_⟩
      unfold outValueScaled
      simp only [hc, sub_self, Int.cast_zero, zero_div, Bool.false_eq_true, if_false]
      norm_num
    | true =>
      refine ⟨1, 255, by decide, by decide, ?_⟩
      unfold outValueScaled
      simp only [hc, sub_self, Int.cast_zero, zero_div, if_true]
      norm_num

/-- The value computed by the axis branch against the spec's exact value: they
agree unless `127 * n + 1/2` is a whole number, and then the computed value is
that number or the one below it. -/
theorem axisMidiVal_exact_cases (m : ControlMapping) (cur : Int)
    (hmin : InLong m.calibrationMinHid) (hmax : InLong m.calibrationMaxHid)
    (hr : 0 < axisRange m) :
    (outValueScaled m.calibrationMinHid m.calibrationMaxHid m.reverseAxis cur
        ≠ (outValueExact m.calibrationMinHid m.calibrationMaxHid m.reverseAxis cur : ℚ) →
      axisMidiVal m cur
        = outValueExact m.calibrationMinHid m.calibrationMaxHid m.reverseAxis cur) ∧
    (axisMidiVal m cur
        = outValueExact m.calibrationMinHid m.calibrationMaxHid m.reverseAxis cur ∨
      axisMidiVal m cur
        = outValueExact m.calibrationMinHid m.calibrationMaxHid m.reverseAxis cur - 1) := by
  obtain ⟨h0, h1⟩ := axis_norm_unit m cur hmin hmax hr
  obtain ⟨r, N, hr0, hr1, hN⟩ := outValueScaled_fraction m cur hmin hmax hr
  have hnear := scaled_near _ m.reverseAxis h0 h1
  rw [axisMidiVal_eq_floor m cur hmin hmax hr, axisNorm_eq m cur hmin hmax hr,
    outValueExact_eq_floor]
  exact floor_of_near _ _ r N hr0 hr1 hN hnear.1 hnear.2

/-- The value computed by the axis branch is monotone in the raw value when the
bounds are in order: increasing without the reverse flag, decreasing with it. -/
theorem axisMidiVal_mono (m : ControlMapping) (v1 v2 : Int)
    (hmin : InLong m.calibrationMinHid) (hmax : InLong m.calibrationMaxHid)
    (hlt : m.calibrationMinHid < m.calibrationMaxHid) (hr : 0 < axisRange m)
    (hv : v1 ≤ v2) :
    (m.reverseAxis = false → axisMidiVal m v1 ≤ axisMidiVal m v2) ∧
    (m.reverseAxis = true → axisMidiVal m v2 ≤ axisMidiVal m v1) := by
  have hq := exact_norm_mono m.calibrationMinHid m.calibrationMaxHid v1 v2 hlt hv
  obtain ⟨h10, h11⟩ := axis_norm_unit m v1 hmin hmax hr
  obtain ⟨h20, h21⟩ := axis_norm_unit m v2 hmin hmax hr
  have ha := roundDouble_mono h10 hq
  obtain ⟨ha10, ha11⟩ := roundDouble_unit h10 h11
  obtain ⟨ha20, ha21⟩ := roundDouble_unit h20 h21
  rw [axisMidiVal_eq_floor m v1 hmin hmax hr, axisMidiVal_eq_floor m v2 hmin hmax hr,
    axisNorm_eq m v1 hmin hmax hr, axisNorm_eq m v2 hmin hmax hr]
  constructor
  · intro hrev
    simp only [hrev, Bool.false_eq_true, if_false]
    exact Int.floor_mono (scaled_mono ha10 ha)
  · intro hrev
    simp only [hrev, if_true]
    have hb := roundDouble_mono (by linarith : (0 : ℚ) ≤ 1 - roundDouble
        (((max m.calibrationMinHid (min m.calibrationMaxHid v2)
              - m.calibrationMinHid : Int) : ℚ)
            / ((m.calibrationMaxHid - m.calibrationMinHid : Int) : ℚ)))
      (by linarith : 1 - roundDouble
        (((max m.calibrationMinHid (min m.calibrationMaxHid v2)
              - m.calibrationMinHid : Int) : ℚ)
            / ((m.calibrationMaxHid - m.calibrationMinHid : Int) : ℚ))
        ≤ 1 - roundDouble
        (((max m.calibrationMinHid (min m.calibrationMaxHid v1)
              - m.calibrationMinHid : Int) : ℚ)
            / ((m.calibrationMaxHid - m.calibrationMinHid : Int) : ℚ)))
    exact Int.floor_mono (scaled_mono (roundDouble_nonneg (by linarith)) hb)

/-- The `double` that is truncated is `0.5` for `norm = 0` and `127.5` for
`norm = 1`. -/
theorem scaled_ends :
    roundDouble (roundDouble ((0 : ℚ) * 127) + 1 / 2) = 1 / 2 ∧
    roundDouble (roundDouble ((1 : ℚ) * 127) + 1 / 2) = 255 / 2 := by
  constructor
  · rw [zero_mul, roundDouble_zero, zero_add, roundDouble_half]
  · rw [one_mul, roundDouble_127]
    norm_num
    exact roundDouble_255_half

/-- The value computed by the axis branch at and below the lower bound, and at
and above the upper bound, when the bounds are in order. -/
theorem axisMidiVal_saturates (m : ControlMapping) (v : Int)
    (hmin : InLong m.calibrationMinHid) (hmax : InLong m.calibrationMaxHid)
    (hlt : m.calibrationMinHid < m.calibrationMaxHid) (hr : 0 < axisRange m) :
    (m.reverseAxis = false →
      (v ≤ m.calibrationMinHid → axisMidiVal m v = 0) ∧
      (m.calibrationMaxHid ≤ v → axisMidiVal m v = 127)) ∧
    (m.reverseAxis = true →
      (v ≤ m.calibrationMinHid → axisMidiVal m v = 127) ∧
      (m.calibrationMaxHid ≤ v → axisMidiVal m v = 0)) := by
  have hd : ((m.calibrationMaxHid - m.calibrationMinHid : Int) : ℚ) ≠ 0 := by
    have : (0 : ℚ) < ((m.calibrationMaxHid - m.calibrationMinHid : Int) : ℚ) := by
      exact_mod_cast (by omega : 0 < m.calibrationMaxHid - m.calibrationMinHid)
    exact ne_of_gt this
  have hlo : v ≤ m.calibrationMinHid →
      max m.calibrationMinHid (min m.calibrationMaxHid v) = m.calibrationMinHid := by
    intro h; omega
  have hhi : m.calibrationMaxHid ≤ v →
      max m.calibrationMinHid (min m.calibrationMaxHid v) = m.calibrationMaxHid := by
    intro h; omega
  have h10 : (1 : ℚ) - 0 = 1 := by norm_num
  have h11 : (1 : ℚ) - 1 = 0 := by norm_num
  have hf0 : ⌊(1 / 2 : ℚ)⌋ = 0 := by norm_num
  have hf1 : ⌊(255 / 2 : ℚ)⌋ = 127 := by
    rw [Int.floor_eq_iff]; norm_num
  rw [axisMidiVal_eq_floor m v hmin hmax hr, axisNorm_eq m v hmin hmax hr]
  refine ⟨fun hrev => ⟨fun h => ?_, fun h => ?_⟩, fun hrev => ⟨fun h => ?_, fun h => ?_⟩⟩
  · simp only [hrev, Bool.false_eq_true, if_false, hlo h, sub_self, Int.cast_zero, zero_div,
      roundDouble_zero, scaled_ends.1, hf0]
  · simp only [hrev, Bool.false_eq_true, if_false, hhi h, div_self hd,
      roundDouble_one, scaled_ends.2, hf1]
  · simp only [hrev, if_true, hlo h, sub_self, Int.cast_zero, zero_div,
      roundDouble_zero, h10, roundDouble_one, scaled_ends.2, hf1]
  · simp only [hrev, if_true, hhi h, div_self hd,
      roundDouble_one, h11, roundDouble_zero, scaled_ends.1, hf0]

/-- Evaluation of the axis branch without the reverse flag, one rounding at a
time. -/
theorem axisMidiVal_eval (m : ControlMapping) (cur : Int) (q a t u : ℚ) (k : Int)
    (hrev : m.reverseAxis = false)
    (hq : ((wrapLong (max m.calibrationMinHid (min m.calibrationMaxHid cur)
        - m.calibrationMinHid) : Int) : ℚ) / ((axisRange m : Int) : ℚ) = q)
    (ha : roundDouble q = a) (ht : roundDouble (a * 127) = t)
    (hu : roundDouble (t + 1 / 2) = u) (hk : doubleToInt u = k) :
    axisMidiVal m cur = k := by
  unfold axisMidiVal axisNorm
  simp only [hrev, Bool.false_eq_true, if_false, hq, ha, ht, hu, hk]

/-- Evaluation of the axis branch with the reverse flag, one rounding at a
time. -/
theorem axisMidiVal_eval_reversed (m : ControlMapping) (cur : Int) (q a w t u : ℚ) (k : Int)
    (hrev : m.reverseAxis = true)
    (hq : ((wrapLong (max m.calibrationMinHid (min m.calibrationMaxHid cur)
        - m.calibrationMinHid) : Int) : ℚ) / ((axisRange m : Int) : ℚ) = q)
    (ha : roundDouble q = a) (hw : roundDouble (1 - a) = w) (ht : roundDouble (w * 127) = t)
    (hu : roundDouble (t + 1 / 2) = u) (hk : doubleToInt u = k) :
    axisMidiVal m cur = k := by
  unfold axisMidiVal axisNorm
  simp only [hrev, if_true, hq, ha, hw, ht, hu, hk]

/-- Evaluation of one rounding: the binade `e` and the integer `N` nearest to
the scaled significand determine the result. -/
theorem roundDouble_eval (x c : ℚ) (e N : Int) (he : -1022 ≤ e)
    (h1 : (2 : ℚ) ^ e ≤ x) (h2 : x < (2 : ℚ) ^ (e + 1))
    (h3 : (N : ℚ) - 1 / 2 < x / 2 ^ (e - 52)) (h4 : x / 2 ^ (e - 52) < (N : ℚ) + 1 / 2)
    (hc : (N : ℚ) * 2 ^ (e - 52) = c) : roundDouble x = c := by
  rw [roundDouble_eq x e N he h1 h2 h3 h4, hc]

/-- Evaluation of one rounding, with the side conditions in one statement. -/
theorem roundDouble_at (x c : ℚ) (e N : Int)
    (h : -1022 ≤ e ∧ (2 : ℚ) ^ e ≤ x ∧ x < (2 : ℚ) ^ (e + 1) ∧
      (N : ℚ) - 1 / 2 < x / 2 ^ (e - 52) ∧ x / 2 ^ (e - 52) < (N : ℚ) + 1 / 2 ∧
      (N : ℚ) * 2 ^ (e - 52) = c) : roundDouble x = c :=
  roundDouble_eval x c e N h.1 h.2.1 h.2.2.1 h.2.2.2.1 h.2.2.2.2.1 h.2.2.2.2.2

/-! ## Evaluations of the axis value -/

/-- On the example axis the raw value 500 gives 64: every operation is exact
(`0.5`, `63.5`, `64.0`). -/
theorem axisMidiVal_axisExample_500 : axisMidiVal axisExample 500 = 64 :=
  axisMidiVal_eval axisExample 500 (1 / 2) (1 / 2) (127 / 2) 64 64 rfl
    (by norm_num [axisExample, axisRange, wrapLong])
    (roundDouble_at _ _ (-1) 4503599627370496 (by norm_num))
    (roundDouble_at _ _ 5 8936830510563328 (by norm_num))
    (roundDouble_at _ _ 6 4503599627370496 (by norm_num))
    (by norm_num [doubleToInt])

/-- On the example axis the raw value 498 gives 63. -/
theorem axisMidiVal_axisExample_498 : axisMidiVal axisExample 498 = 63 :=
  axisMidiVal_eval axisExample 498 (249 / 500) (2242792614430507 / 4503599627370496)
    (8901083188521075 / 140737488355328) (8971451932698739 / 140737488355328) 63 rfl
    (by norm_num [axisExample, axisRange, wrapLong])
    (roundDouble_at _ _ (-2) 8971170457722028 (by norm_num))
    (roundDouble_at _ _ 5 8901083188521075 (by norm_num))
    (roundDouble_at _ _ 5 8971451932698739 (by norm_num))
    (by norm_num [doubleToInt])

/-- On the example axis the raw value 499 gives 63. -/
theorem axisMidiVal_axisExample_499 : axisMidiVal axisExample 499 = 63 :=
  axisMidiVal_eval axisExample 499 (499 / 1000) (4494592428115755 / 9007199254740992)
    (8918956849542201 / 140737488355328) (8989325593719865 / 140737488355328) 63 rfl
    (by norm_num [axisExample, axisRange, wrapLong])
    (roundDouble_at _ _ (-2) 8989184856231510 (by norm_num))
    (roundDouble_at _ _ 5 8918956849542201 (by norm_num))
    (roundDouble_at _ _ 5 8989325593719865 (by norm_num))
    (by norm_num [doubleToInt])

/-- On the example axis the raw value 250 gives 32. -/
theorem axisMidiVal_axisExample_250 : axisMidiVal axisExample 250 = 32 :=
  axisMidiVal_eval axisExample 250 (1 / 4) (1 / 4) (127 / 4) (129 / 4) 32 rfl
    (by norm_num [axisExample, axisRange, wrapLong])
    (roundDouble_at _ _ (-2) 4503599627370496 (by norm_num))
    (roundDouble_at _ _ 4 8936830510563328 (by norm_num))
    (roundDouble_at _ _ 5 4538783999459328 (by norm_num))
    (by norm_num [doubleToInt])

/-- On the example axis the raw value 750 gives 95. -/
theorem axisMidiVal_axisExample_750 : axisMidiVal axisExample 750 = 95 :=
  axisMidiVal_eval axisExample 750 (3 / 4) (3 / 4) (381 / 4) (383 / 4) 95 rfl
    (by norm_num [axisExample, axisRange, wrapLong])
    (roundDouble_at _ _ (-1) 6755399441055744 (by norm_num))
    (roundDouble_at _ _ 6 6702622882922496 (by norm_num))
    (roundDouble_at _ _ 6 6737807255011328 (by norm_num))
    (by norm_num [doubleToInt])

/-- On the reversed axis `[0, 254]` the raw value 252 gives 1. -/
theorem axisMidiVal_reversed254_252 : axisMidiVal reversed254Example 252 = 1 :=
  axisMidiVal_eval_reversed reversed254Example 252 (126 / 127)
    (558517276622719 / 562949953421312) (4432676798593 / 562949953421312)
    (562949953421311 / 562949953421312) (844424930131967 / 562949953421312) 1 rfl
    (by norm_num [reversed254Example, axisRange, wrapLong])
    (roundDouble_at _ _ (-1) 8936276425963504 (by norm_num))
    (roundDouble_at _ _ (-7) 4539061041759232 (by norm_num))
    (roundDouble_at _ _ (-1) 9007199254740976 (by norm_num))
    (roundDouble_at _ _ 0 6755399441055736 (by norm_num))
    (by norm_num [doubleToInt])

/-- On the reversed axis `[0, 254]` the raw value 253 gives 0: the quotient
`253/254` is rounded, and `127 * (1 - norm) + 0.5` falls just below 1. -/
theorem axisMidiVal_reversed254_253 : axisMidiVal reversed254Example 253 = 0 :=
  axisMidiVal_eval_reversed reversed254Example 253 (253 / 254)
    (1121467230044031 / 1125899906842624) (4432676798593 / 1125899906842624)
    (562949953421311 / 1125899906842624) (1125899906842623 / 1125899906842624) 0 rfl
    (by norm_num [reversed254Example, axisRange, wrapLong])
    (roundDouble_at _ _ (-1) 8971737840352248 (by norm_num))
    (roundDouble_at _ _ (-8) 4539061041759232 (by norm_num))
    (roundDouble_at _ _ (-2) 9007199254740976 (by norm_num))
    (roundDouble_at _ _ (-1) 9007199254740984 (by norm_num))
    (by norm_num [doubleToInt])

/-! ## The ties of the exact formula without the reverse flag

When `127 * n + 1/2` is the whole number `j`, the quotient is `(2 * j - 1) / 254`.
The theorems `scaled_tie_1` to `scaled_tie_127` evaluate the scaling at these
quotients, one rounding at a time: each `roundDouble_at` names the exponent of
the binade and the integer nearest to the scaled significand. -/

/-- Evaluation of the scaling of a quotient, one rounding at a time. -/
theorem scaled_eval (q a t u : ℚ) (k : Int) (ha : roundDouble q = a)
    (ht : roundDouble (a * 127) = t) (hu : roundDouble (t + 1 / 2) = u) (hk : ⌊u⌋ = k) :
    ⌊roundDouble (roundDouble (roundDouble q * 127) + 1 / 2)⌋ = k := by
  rw [ha, ht, hu, hk]

theorem scaled_tie_1 (q : ℚ) (hq : q = 1 / 254) :
    ⌊roundDouble (roundDouble (roundDouble q * 127) + 1 / 2)⌋ = 1 := by
  subst hq
  exact scaled_eval _ (567382630219905 / 144115188075855872) (1 / 2) 1 1
    (roundDouble_at _ _ (-8) 4539061041759240 (by norm_num))
    (roundDouble_at _ _ (-2) 9007199254740992 (by norm_num))
    (roundDouble_at _ _ 0 4503599627370496 (by norm_num))
    (by rw [Int.floor_eq_iff]; norm_num)

theorem scaled_tie_2 (q : ℚ) (hq : q = 3 / 254) :
    ⌊roundDouble (roundDouble (roundDouble q * 127) + 1 / 2)⌋ = 2 := by
  subst hq
  exact scaled_eval _ (1702147890659715 / 144115188075855872) (3 / 2) 2 2
    (roundDouble_at _ _ (-7) 6808591562638860 (by norm_num))
    (roundDouble_at _ _ 0 6755399441055744 (by norm_num))
    (roundDouble_at _ _ 1 4503599627370496 (by norm_num))
    (by rw [Int.floor_eq_iff]; norm_num)

theorem scaled_tie_3 (q : ℚ) (hq : q = 5 / 254) :
    ⌊roundDouble (roundDouble (roundDouble q * 127) + 1 / 2)⌋ = 3 := by
  subst hq
  exact scaled_eval _ (2836913151099525 / 144115188075855872) (5 / 2) 3 3
    (roundDouble_at _ _ (-6) 5673826302199050 (by norm_num))
    (roundDouble_at _ _ 1 5629499534213120 (by norm_num))
    (roundDouble_at _ _ 1 6755399441055744 (by norm_num))
    (by rw [Int.floor_eq_iff]; norm_num)

theorem scaled_tie_4 (q : ℚ) (hq : q = 7 / 254) :
    ⌊roundDouble (roundDouble (roundDouble q * 127) + 1 / 2)⌋ = 4 := by
  subst hq
  exact scaled_eval _ (3971678411539335 / 144115188075855872) (7 / 2) 4 4
    (roundDouble_at _ _ (-6) 7943356823078670 (by norm_num))
    (roundDouble_at _ _ 1 7881299347898368 (by norm_num))
    (roundDouble_at _ _ 2 4503599627370496 (by norm_num))
    (by rw [Int.floor_eq_iff]; norm_num)

theorem scaled_tie_5 (q : ℚ) (hq : q = 9 / 254) :
    ⌊roundDouble (roundDouble (roundDouble q * 127) + 1 / 2)⌋ = 5 := by
  subst hq
  exact scaled_eval _ (5106443671979145 / 144115188075855872) (9 / 2) 5 5
    (roundDouble_at _ _ (-5) 5106443671979145 (by norm_num))
    (roundDouble_at _ _ 2 5066549580791808 (by norm_num))
    (roundDouble_at _ _ 2 5629499534213120 (by norm_num))
    (by rw [Int.floor_eq_iff]; norm_num)

theorem scaled_tie_6 (q : ℚ) (hq : q = 11 / 254) :
    ⌊roundDouble (roundDouble (roundDouble q * 127) + 1 / 2)⌋ = 6 := by
  subst hq
  exact scaled_eval _ (6241208932418955 / 144115188075855872) (11 / 2) 6 6
    (roundDouble_at _ _ (-5) 6241208932418955 (by norm_num))
    (roundDouble_at _ _ 2 6192449487634432 (by norm_num))
    (roundDouble_at _ _ 2 6755399441055744 (by norm_num))
    (by rw [Int.floor_eq_iff]; norm_num)

theorem scaled_tie_7 (q : ℚ) (hq : q = 13 / 254) :
    ⌊roundDouble (roundDouble (roundDouble q * 127) + 1 / 2)⌋ = 7 := by
  subst hq
  exact scaled_eval _ (7375974192858765 / 144115188075855872) (13 / 2) 7 7
    (roundDouble_at _ _ (-5) 7375974192858765 (by norm_num))
    (roundDouble_at _ _ 2 7318349394477056 (by norm_num))
    (roundDouble_at _ _ 2 7881299347898368 (by norm_num))
    (by rw [Int.floor_eq_iff]; norm_num)

theorem scaled_tie_8 (q : ℚ) (hq : q = 15 / 254) :
    ⌊roundDouble (roundDouble (roundDouble q * 127) + 1 / 2)⌋ = 8 := by
  subst hq
  exact scaled_eval _ (8510739453298575 / 144115188075855872) (15 / 2) 8 8
    (roundDouble_at _ _ (-5) 8510739453298575 (by norm_num))
    (roundDouble_at _ _ 2 8444249301319680 (by norm_num))
    (roundDouble_at _ _ 3 4503599627370496 (by norm_num))
    (by rw [Int.floor_eq_iff]; norm_num)

theorem scaled_tie_9 (q : ℚ) (hq : q = 17 / 254) :
    ⌊roundDouble (roundDouble (roundDouble q * 127) + 1 / 2)⌋ = 9 := by
  subst hq
  exact scaled_eval _ (4822752356869193 / 72057594037927936) (17 / 2) 9 9
    (roundDouble_at _ _ (-4) 4822752356869193 (by norm_num))
    (roundDouble_at _ _ 3 4785074604081152 (by norm_num))
    (roundDouble_at _ _ 3 5066549580791808 (by norm_num))
    (by rw [Int.floor_eq_iff]; norm_num)

theorem scaled_tie_10 (q : ℚ) (hq : q = 19 / 254) :
    ⌊roundDouble (roundDouble (roundDouble q * 127) + 1 / 2)⌋ = 10 := by
  subst hq
  exact scaled_eval _ (2695067493544549 / 36028797018963968) (19 / 2) 10 10
    (roundDouble_at _ _ (-4) 5390134987089098 (by norm_num))
    (roundDouble_at _ _ 3 5348024557502464 (by norm_num))
    (roundDouble_at _ _ 3 5629499534213120 (by norm_num))
    (by rw [Int.floor_eq_iff]; norm_num)

theorem scaled_tie_11 (q : ℚ) (hq : q = 21 / 254) :
    ⌊roundDouble (roundDouble (roundDouble q * 127) + 1 / 2)⌋ = 11 := by
  subst hq
  exact scaled_eval _ (5957517617309003 / 72057594037927936) (21 / 2) 11 11
    (roundDouble_at _ _ (-4) 5957517617309003 (by norm_num))
    (roundDouble_at _ _ 3 5910974510923776 (by norm_num))
    (roundDouble_at _ _ 3 6192449487634432 (by norm_num))
    (by rw [Int.floor_eq_iff]; norm_num)

theorem scaled_tie_12 (q : ℚ) (hq : q = 23 / 254) :
    ⌊roundDouble (roundDouble (roundDouble q * 127) + 1 / 2)⌋ = 12 := by
  subst hq
  exact scaled_eval _ (1631225061882227 / 18014398509481984) (23 / 2) 12 12
    (roundDouble_at _ _ (-4) 6524900247528908 (by norm_num))
    (roundDouble_at _ _ 3 6473924464345088 (by norm_num))
    (roundDouble_at _ _ 3 6755399441055744 (by norm_num))
    (by rw [Int.floor_eq_iff]; norm_num)

theorem scaled_tie_13 (q : ℚ) (hq : q = 25 / 254) :
    ⌊roundDouble (roundDouble (roundDouble q * 127) + 1 / 2)⌋ = 13 := by
  subst hq
  exact scaled_eval _ (7092282877748813 / 72057594037927936) (25 / 2) 13 13
    (roundDouble_at _ _ (-4) 7092282877748813 (by norm_num))
    (roundDouble_at _ _ 3 7036874417766400 (by norm_num))
    (roundDouble_at _ _ 3 7318349394477056 (by norm_num))
    (by rw [Int.floor_eq_iff]; norm_num)

theorem scaled_tie_14 (q : ℚ) (hq : q = 27 / 254) :
    ⌊roundDouble (roundDouble (roundDouble q * 127) + 1 / 2)⌋ = 14 := by
  subst hq
  exact scaled_eval _ (3829832753984359 / 36028797018963968) (27 / 2) 14 14
    (roundDouble_at _ _ (-4) 7659665507968718 (by norm_num))
    (roundDouble_at _ _ 3 7599824371187712 (by norm_num))
    (roundDouble_at _ _ 3 7881299347898368 (by norm_num))
    (by rw [Int.floor_eq_iff]; norm_num)

theorem scaled_tie_15 (q : ℚ) (hq : q = 29 / 254) :
    ⌊roundDouble (roundDouble (roundDouble q * 127) + 1 / 2)⌋ = 15 := by
  subst hq
  exact scaled_eval _ (8227048138188623 / 72057594037927936) (29 / 2) 15 15
    (roundDouble_at _ _ (-4) 8227048138188623 (by norm_num))
    (roundDouble_at _ _ 3 8162774324609024 (by norm_num))
    (roundDouble_at _ _ 3 8444249301319680 (by norm_num))
    (by rw [Int.floor_eq_iff]; norm_num)

theorem scaled_tie_16 (q : ℚ) (hq : q = 31 / 254) :
    ⌊roundDouble (roundDouble (roundDouble q * 127) + 1 / 2)⌋ = 16 := by
  subst hq
  exact scaled_eval _ (549651923025533 / 4503599627370496) (31 / 2) 16 16
    (roundDouble_at _ _ (-4) 8794430768408528 (by norm_num))
    (roundDouble_at _ _ 3 8725724278030336 (by norm_num))
    (roundDouble_at _ _ 4 4503599627370496 (by norm_num))
    (by rw [Int.floor_eq_iff]; norm_num)

theorem scaled_tie_17 (q : ℚ) (hq : q = 33 / 254) :
    ⌊roundDouble (roundDouble (roundDouble q * 127) + 1 / 2)⌋ = 17 := by
  subst hq
  exact scaled_eval _ (585113337414277 / 4503599627370496) (33 / 2) 17 17
    (roundDouble_at _ _ (-3) 4680906699314216 (by norm_num))
    (roundDouble_at _ _ 4 4644337115725824 (by norm_num))
    (roundDouble_at _ _ 4 4785074604081152 (by norm_num))
    (by rw [Int.floor_eq_iff]; norm_num)

theorem scaled_tie_18 (q : ℚ) (hq : q = 35 / 254) :
    ⌊roundDouble (roundDouble (roundDouble q * 127) + 1 / 2)⌋ = 18 := by
  subst hq
  exact scaled_eval _ (4964598014424169 / 36028797018963968) (35 / 2) 18 18
    (roundDouble_at _ _ (-3) 4964598014424169 (by norm_num))
    (roundDouble_at _ _ 4 4925812092436480 (by norm_num))
    (roundDouble_at _ _ 4 5066549580791808 (by norm_num))
    (by rw [Int.floor_eq_iff]; norm_num)

theorem scaled_tie_19 (q : ℚ) (hq : q = 37 / 254) :
    ⌊roundDouble (roundDouble (roundDouble q * 127) + 1 / 2)⌋ = 19 := by
  subst hq
  exact scaled_eval _ (5248289329534121 / 36028797018963968) (37 / 2) 19 19
    (roundDouble_at _ _ (-3) 5248289329534121 (by norm_num))
    (roundDouble_at _ _ 4 5207287069147136 (by norm_num))
    (roundDouble_at _ _ 4 5348024557502464 (by norm_num))
    (by rw [Int.floor_eq_iff]; norm_num)

theorem scaled_tie_20 (q : ℚ) (hq : q = 39 / 254) :
    ⌊roundDouble (roundDouble (roundDouble q * 127) + 1 / 2)⌋ = 20 := by
  subst hq
  exact scaled_eval _ (2765990322322037 / 18014398509481984) (39 / 2) 20 20
    (roundDouble_at _ _ (-3) 5531980644644074 (by norm_num))
    (roundDouble_at _ _ 4 5488762045857792 (by norm_num))
    (roundDouble_at _ _ 4 5629499534213120 (by norm_num))
    (by rw [Int.floor_eq_iff]; norm_num)

theorem scaled_tie_21 (q : ℚ) (hq : q = 41 / 254) :
    ⌊roundDouble (roundDouble (roundDouble q * 127) + 1 / 2)⌋ = 21 := by
  subst hq
  exact scaled_eval _ (2907835979877013 / 18014398509481984) (41 / 2) 21 21
    (roundDouble_at _ _ (-3) 5815671959754026 (by norm_num))
    (roundDouble_at _ _ 4 5770237022568448 (by norm_num))
    (roundDouble_at _ _ 4 5910974510923776 (by norm_num))
    (by rw [Int.floor_eq_iff]; norm_num)

theorem scaled_tie_22 (q : ℚ) (hq : q = 43 / 254) :
    ⌊roundDouble (roundDouble (roundDouble q * 127) + 1 / 2)⌋ = 22 := by
  subst hq
  exact scaled_eval _ (6099363274863979 / 36028797018963968) (43 / 2) 22 22
    (roundDouble_at _ _ (-3) 6099363274863979 (by norm_num))
    (roundDouble_at _ _ 4 6051711999279104 (by norm_num))
    (roundDouble_at _ _ 4 6192449487634432 (by norm_num))
    (by rw [Int.floor_eq_iff]; norm_num)

theorem scaled_tie_23 (q : ℚ) (hq : q = 45 / 254) :
    ⌊roundDouble (roundDouble (roundDouble q * 127) + 1 / 2)⌋ = 23 := by
  subst hq
  exact scaled_eval _ (6383054589973931 / 36028797018963968) (45 / 2) 23 23
    (roundDouble_at _ _ (-3) 6383054589973931 (by norm_num))
    (roundDouble_at _ _ 4 6333186975989760 (by norm_num))
    (roundDouble_at _ _ 4 6473924464345088 (by norm_num))
    (by rw [Int.floor_eq_iff]; norm_num)

theorem scaled_tie_24 (q : ℚ) (hq : q = 47 / 254) :
    ⌊roundDouble (roundDouble (roundDouble q * 127) + 1 / 2)⌋ = 24 := by
  subst hq
  exact scaled_eval _ (1666686476270971 / 9007199254740992) (47 / 2) 24 24
    (roundDouble_at _ _ (-3) 6666745905083884 (by norm_num))
    (roundDouble_at _ _ 4 6614661952700416 (by norm_num))
    (roundDouble_at _ _ 4 6755399441055744 (by norm_num))
    (by rw [Int.floor_eq_iff]; norm_num)

theorem scaled_tie_25 (q : ℚ) (hq : q = 49 / 254) :
    ⌊roundDouble (roundDouble (roundDouble q * 127) + 1 / 2)⌋ = 25 := by
  subst hq
  exact scaled_eval _ (1737609305048459 / 9007199254740992) (49 / 2) 25 25
    (roundDouble_at _ _ (-3) 6950437220193836 (by norm_num))
    (roundDouble_at _ _ 4 6896136929411072 (by norm_num))
    (roundDouble_at _ _ 4 7036874417766400 (by norm_num))
    (by rw [Int.floor_eq_iff]; norm_num)

theorem scaled_tie_26 (q : ℚ) (hq : q = 51 / 254) :
    ⌊roundDouble (roundDouble (roundDouble q * 127) + 1 / 2)⌋ = 26 := by
  subst hq
  exact scaled_eval _ (7234128535303789 / 36028797018963968) (51 / 2) 26 26
    (roundDouble_at _ _ (-3) 7234128535303789 (by norm_num))
    (roundDouble_at _ _ 4 7177611906121728 (by norm_num))
    (roundDouble_at _ _ 4 7318349394477056 (by norm_num))
    (by rw [Int.floor_eq_iff]; norm_num)

theorem scaled_tie_27 (q : ℚ) (hq : q = 53 / 254) :
    ⌊roundDouble (roundDouble (roundDouble q * 127) + 1 / 2)⌋ = 27 := by
  subst hq
  exact scaled_eval _ (7517819850413741 / 36028797018963968) (53 / 2) 27 27
    (roundDouble_at _ _ (-3) 7517819850413741 (by norm_num))
    (roundDouble_at _ _ 4 7459086882832384 (by norm_num))
    (roundDouble_at _ _ 4 7599824371187712 (by norm_num))
    (by rw [Int.floor_eq_iff]; norm_num)

theorem scaled_tie_28 (q : ℚ) (hq : q = 55 / 254) :
    ⌊roundDouble (roundDouble (roundDouble q * 127) + 1 / 2)⌋ = 28 := by
  subst hq
  exact scaled_eval _ (3900755582761847 / 18014398509481984) (55 / 2) 28 28
    (roundDouble_at _ _ (-3) 7801511165523694 (by norm_num))
    (roundDouble_at _ _ 4 7740561859543040 (by norm_num))
    (roundDouble_at _ _ 4 7881299347898368 (by norm_num))
    (by rw [Int.floor_eq_iff]; norm_num)

theorem scaled_tie_29 (q : ℚ) (hq : q = 57 / 254) :
    ⌊roundDouble (roundDouble (roundDouble q * 127) + 1 / 2)⌋ = 29 := by
  subst hq
  exact scaled_eval _ (4042601240316823 / 18014398509481984) (57 / 2) 29 29
    (roundDouble_at _ _ (-3) 8085202480633646 (by norm_num))
    (roundDouble_at _ _ 4 8022036836253696 (by norm_num))
    (roundDouble_at _ _ 4 8162774324609024 (by norm_num))
    (by rw [Int.floor_eq_iff]; norm_num)

theorem scaled_tie_30 (q : ℚ) (hq : q = 59 / 254) :
    ⌊roundDouble (roundDouble (roundDouble q * 127) + 1 / 2)⌋ = 30 := by
  subst hq
  exact scaled_eval _ (8368893795743599 / 36028797018963968) (59 / 2) 30 30
    (roundDouble_at _ _ (-3) 8368893795743599 (by norm_num))
    (roundDouble_at _ _ 4 8303511812964352 (by norm_num))
    (roundDouble_at _ _ 4 8444249301319680 (by norm_num))
    (by rw [Int.floor_eq_iff]; norm_num)

theorem scaled_tie_31 (q : ℚ) (hq : q = 61 / 254) :
    ⌊roundDouble (roundDouble (roundDouble q * 127) + 1 / 2)⌋ = 31 := by
  subst hq
  exact scaled_eval _ (8652585110853551 / 36028797018963968) (61 / 2) 31 31
    (roundDouble_at _ _ (-3) 8652585110853551 (by norm_num))
    (roundDouble_at _ _ 4 8584986789675008 (by norm_num))
    (roundDouble_at _ _ 4 8725724278030336 (by norm_num))
    (by rw [Int.floor_eq_iff]; norm_num)

theorem scaled_tie_32 (q : ℚ) (hq : q = 63 / 254) :
    ⌊roundDouble (roundDouble (roundDouble q * 127) + 1 / 2)⌋ = 32 := by
  subst hq
  exact scaled_eval _ (558517276622719 / 2251799813685248) (63 / 2) 32 32
    (roundDouble_at _ _ (-3) 8936276425963504 (by norm_num))
    (roundDouble_at _ _ 4 8866461766385664 (by norm_num))
    (roundDouble_at _ _ 5 4503599627370496 (by norm_num))
    (by rw [Int.floor_eq_iff]; norm_num)

theorem scaled_tie_33 (q : ℚ) (hq : q = 65 / 254) :
    ⌊roundDouble (roundDouble (roundDouble q * 127) + 1 / 2)⌋ = 33 := by
  subst hq
  exact scaled_eval _ (576247983817091 / 2251799813685248) (65 / 2) 33 33
    (roundDouble_at _ _ (-2) 4609983870536728 (by norm_num))
    (roundDouble_at _ _ 5 4573968371548160 (by norm_num))
    (roundDouble_at _ _ 5 4644337115725824 (by norm_num))
    (by rw [Int.floor_eq_iff]; norm_num)

theorem scaled_tie_34 (q : ℚ) (hq : q = 67 / 254) :
    ⌊roundDouble (roundDouble (roundDouble q * 127) + 1 / 2)⌋ = 34 := by
  subst hq
  exact scaled_eval _ (593978691011463 / 2251799813685248) (67 / 2) 34 34
    (roundDouble_at _ _ (-2) 4751829528091704 (by norm_num))
    (roundDouble_at _ _ 5 4714705859903488 (by norm_num))
    (roundDouble_at _ _ 5 4785074604081152 (by norm_num))
    (by rw [Int.floor_eq_iff]; norm_num)

theorem scaled_tie_35 (q : ℚ) (hq : q = 69 / 254) :
    ⌊roundDouble (roundDouble (roundDouble q * 127) + 1 / 2)⌋ = 35 := by
  subst hq
  exact scaled_eval _ (4893675185646681 / 18014398509481984) (69 / 2) 35 35
    (roundDouble_at _ _ (-2) 4893675185646681 (by norm_num))
    (roundDouble_at _ _ 5 4855443348258816 (by norm_num))
    (roundDouble_at _ _ 5 4925812092436480 (by norm_num))
    (by rw [Int.floor_eq_iff]; norm_num)

theorem scaled_tie_36 (q : ℚ) (hq : q = 71 / 254) :
    ⌊roundDouble (roundDouble (roundDouble q * 127) + 1 / 2)⌋ = 36 := by
  subst hq
  exact scaled_eval _ (5035520843201657 / 18014398509481984) (71 / 2) 36 36
    (roundDouble_at _ _ (-2) 5035520843201657 (by norm_num))
    (roundDouble_at _ _ 5 4996180836614144 (by norm_num))
    (roundDouble_at _ _ 5 5066549580791808 (by norm_num))
    (by rw [Int.floor_eq_iff]; norm_num)

theorem scaled_tie_37 (q : ℚ) (hq : q = 73 / 254) :
    ⌊roundDouble (roundDouble (roundDouble q * 127) + 1 / 2)⌋ = 37 := by
  subst hq
  exact scaled_eval _ (5177366500756633 / 18014398509481984) (73 / 2) 37 37
    (roundDouble_at _ _ (-2) 5177366500756633 (by norm_num))
    (roundDouble_at _ _ 5 5136918324969472 (by norm_num))
    (roundDouble_at _ _ 5 5207287069147136 (by norm_num))
    (by rw [Int.floor_eq_iff]; norm_num)

theorem scaled_tie_38 (q : ℚ) (hq : q = 75 / 254) :
    ⌊roundDouble (roundDouble (roundDouble q * 127) + 1 / 2)⌋ = 38 := by
  subst hq
  exact scaled_eval _ (5319212158311609 / 18014398509481984) (75 / 2) 38 38
    (roundDouble_at _ _ (-2) 5319212158311609 (by norm_num))
    (roundDouble_at _ _ 5 5277655813324800 (by norm_num))
    (roundDouble_at _ _ 5 5348024557502464 (by norm_num))
    (by rw [Int.floor_eq_iff]; norm_num)

theorem scaled_tie_39 (q : ℚ) (hq : q = 77 / 254) :
    ⌊roundDouble (roundDouble (roundDouble q * 127) + 1 / 2)⌋ = 39 := by
  subst hq
  exact scaled_eval _ (2730528907933293 / 9007199254740992) (77 / 2) 39 39
    (roundDouble_at _ _ (-2) 5461057815866586 (by norm_num))
    (roundDouble_at _ _ 5 5418393301680128 (by norm_num))
    (roundDouble_at _ _ 5 5488762045857792 (by norm_num))
    (by rw [Int.floor_eq_iff]; norm_num)

theorem scaled_tie_40 (q : ℚ) (hq : q = 79 / 254) :
    ⌊roundDouble (roundDouble (roundDouble q * 127) + 1 / 2)⌋ = 40 := by
  subst hq
  exact scaled_eval _ (2801451736710781 / 9007199254740992) (79 / 2) 40 40
    (roundDouble_at _ _ (-2) 5602903473421562 (by norm_num))
    (roundDouble_at _ _ 5 5559130790035456 (by norm_num))
    (roundDouble_at _ _ 5 5629499534213120 (by norm_num))
    (by rw [Int.floor_eq_iff]; norm_num)

theorem scaled_tie_41 (q : ℚ) (hq : q = 81 / 254) :
    ⌊roundDouble (roundDouble (roundDouble q * 127) + 1 / 2)⌋ = 41 := by
  subst hq
  exact scaled_eval _ (2872374565488269 / 9007199254740992) (81 / 2) 41 41
    (roundDouble_at _ _ (-2) 5744749130976538 (by norm_num))
    (roundDouble_at _ _ 5 5699868278390784 (by norm_num))
    (roundDouble_at _ _ 5 5770237022568448 (by norm_num))
    (by rw [Int.floor_eq_iff]; norm_num)

theorem scaled_tie_42 (q : ℚ) (hq : q = 83 / 254) :
    ⌊roundDouble (roundDouble (roundDouble q * 127) + 1 / 2)⌋ = 42 := by
  subst hq
  exact scaled_eval _ (2943297394265757 / 9007199254740992) (83 / 2) 42 42
    (roundDouble_at _ _ (-2) 5886594788531514 (by norm_num))
    (roundDouble_at _ _ 5 5840605766746112 (by norm_num))
    (roundDouble_at _ _ 5 5910974510923776 (by norm_num))
    (by rw [Int.floor_eq_iff]; norm_num)

theorem scaled_tie_43 (q : ℚ) (hq : q = 85 / 254) :
    ⌊roundDouble (roundDouble (roundDouble q * 127) + 1 / 2)⌋ = 43 := by
  subst hq
  exact scaled_eval _ (6028440446086491 / 18014398509481984) (85 / 2) 43 43
    (roundDouble_at _ _ (-2) 6028440446086491 (by norm_num))
    (roundDouble_at _ _ 5 5981343255101440 (by norm_num))
    (roundDouble_at _ _ 5 6051711999279104 (by norm_num))
    (by rw [Int.floor_eq_iff]; norm_num)

theorem scaled_tie_44 (q : ℚ) (hq : q = 87 / 254) :
    ⌊roundDouble (roundDouble (roundDouble q * 127) + 1 / 2)⌋ = 44 := by
  subst hq
  exact scaled_eval _ (6170286103641467 / 18014398509481984) (87 / 2) 44 44
    (roundDouble_at _ _ (-2) 6170286103641467 (by norm_num))
    (roundDouble_at _ _ 5 6122080743456768 (by norm_num))
    (roundDouble_at _ _ 5 6192449487634432 (by norm_num))
    (by rw [Int.floor_eq_iff]; norm_num)

theorem scaled_tie_45 (q : ℚ) (hq : q = 89 / 254) :
    ⌊roundDouble (roundDouble (roundDouble q * 127) + 1 / 2)⌋ = 45 := by
  subst hq
  exact scaled_eval _ (6312131761196443 / 18014398509481984) (89 / 2) 45 45
    (roundDouble_at _ _ (-2) 6312131761196443 (by norm_num))
    (roundDouble_at _ _ 5 6262818231812096 (by norm_num))
    (roundDouble_at _ _ 5 6333186975989760 (by norm_num))
    (by rw [Int.floor_eq_iff]; norm_num)

theorem scaled_tie_46 (q : ℚ) (hq : q = 91 / 254) :
    ⌊roundDouble (roundDouble (roundDouble q * 127) + 1 / 2)⌋ = 46 := by
  subst hq
  exact scaled_eval _ (6453977418751419 / 18014398509481984) (91 / 2) 46 46
    (roundDouble_at _ _ (-2) 6453977418751419 (by norm_num))
    (roundDouble_at _ _ 5 6403555720167424 (by norm_num))
    (roundDouble_at _ _ 5 6473924464345088 (by norm_num))
    (by rw [Int.floor_eq_iff]; norm_num)

theorem scaled_tie_47 (q : ℚ) (hq : q = 93 / 254) :
    ⌊roundDouble (roundDouble (roundDouble q * 127) + 1 / 2)⌋ = 47 := by
  subst hq
  exact scaled_eval _ (1648955769076599 / 4503599627370496) (93 / 2) 47 47
    (roundDouble_at _ _ (-2) 6595823076306396 (by norm_num))
    (roundDouble_at _ _ 5 6544293208522752 (by norm_num))
    (roundDouble_at _ _ 5 6614661952700416 (by norm_num))
    (by rw [Int.floor_eq_iff]; norm_num)

theorem scaled_tie_48 (q : ℚ) (hq : q = 95 / 254) :
    ⌊roundDouble (roundDouble (roundDouble q * 127) + 1 / 2)⌋ = 48 := by
  subst hq
  exact scaled_eval _ (1684417183465343 / 4503599627370496) (95 / 2) 48 48
    (roundDouble_at _ _ (-2) 6737668733861372 (by norm_num))
    (roundDouble_at _ _ 5 6685030696878080 (by norm_num))
    (roundDouble_at _ _ 5 6755399441055744 (by norm_num))
    (by rw [Int.floor_eq_iff]; norm_num)

theorem scaled_tie_49 (q : ℚ) (hq : q = 97 / 254) :
    ⌊roundDouble (roundDouble (roundDouble q * 127) + 1 / 2)⌋ = 49 := by
  subst hq
  exact scaled_eval _ (1719878597854087 / 4503599627370496) (97 / 2) 49 49
    (roundDouble_at _ _ (-2) 6879514391416348 (by norm_num))
    (roundDouble_at _ _ 5 6825768185233408 (by norm_num))
    (roundDouble_at _ _ 5 6896136929411072 (by norm_num))
    (by rw [Int.floor_eq_iff]; norm_num)

theorem scaled_tie_50 (q : ℚ) (hq : q = 99 / 254) :
    ⌊roundDouble (roundDouble (roundDouble q * 127) + 1 / 2)⌋ = 50 := by
  subst hq
  exact scaled_eval _ (1755340012242831 / 4503599627370496) (99 / 2) 50 50
    (roundDouble_at _ _ (-2) 7021360048971324 (by norm_num))
    (roundDouble_at _ _ 5 6966505673588736 (by norm_num))
    (roundDouble_at _ _ 5 7036874417766400 (by norm_num))
    (by rw [Int.floor_eq_iff]; norm_num)

theorem scaled_tie_51 (q : ℚ) (hq : q = 101 / 254) :
    ⌊roundDouble (roundDouble (roundDouble q * 127) + 1 / 2)⌋ = 51 := by
  subst hq
  exact scaled_eval _ (7163205706526301 / 18014398509481984) (101 / 2) 51 51
    (roundDouble_at _ _ (-2) 7163205706526301 (by norm_num))
    (roundDouble_at _ _ 5 7107243161944064 (by norm_num))
    (roundDouble_at _ _ 5 7177611906121728 (by norm_num))
    (by rw [Int.floor_eq_iff]; norm_num)

theorem scaled_tie_52 (q : ℚ) (hq : q = 103 / 254) :
    ⌊roundDouble (roundDouble (roundDouble q * 127) + 1 / 2)⌋ = 52 := by
  subst hq
  exact scaled_eval _ (7305051364081277 / 18014398509481984) (103 / 2) 52 52
    (roundDouble_at _ _ (-2) 7305051364081277 (by norm_num))
    (roundDouble_at _ _ 5 7247980650299392 (by norm_num))
    (roundDouble_at _ _ 5 7318349394477056 (by norm_num))
    (by rw [Int.floor_eq_iff]; norm_num)

theorem scaled_tie_53 (q : ℚ) (hq : q = 105 / 254) :
    ⌊roundDouble (roundDouble (roundDouble q * 127) + 1 / 2)⌋ = 53 := by
  subst hq
  exact scaled_eval _ (7446897021636253 / 18014398509481984) (105 / 2) 53 53
    (roundDouble_at _ _ (-2) 7446897021636253 (by norm_num))
    (roundDouble_at _ _ 5 7388718138654720 (by norm_num))
    (roundDouble_at _ _ 5 7459086882832384 (by norm_num))
    (by rw [Int.floor_eq_iff]; norm_num)

theorem scaled_tie_54 (q : ℚ) (hq : q = 107 / 254) :
    ⌊roundDouble (roundDouble (roundDouble q * 127) + 1 / 2)⌋ = 54 := by
  subst hq
  exact scaled_eval _ (7588742679191229 / 18014398509481984) (107 / 2) 54 54
    (roundDouble_at _ _ (-2) 7588742679191229 (by norm_num))
    (roundDouble_at _ _ 5 7529455627010048 (by norm_num))
    (roundDouble_at _ _ 5 7599824371187712 (by norm_num))
    (by rw [Int.floor_eq_iff]; norm_num)

theorem scaled_tie_55 (q : ℚ) (hq : q = 109 / 254) :
    ⌊roundDouble (roundDouble (roundDouble q * 127) + 1 / 2)⌋ = 55 := by
  subst hq
  exact scaled_eval _ (3865294168373103 / 9007199254740992) (109 / 2) 55 55
    (roundDouble_at _ _ (-2) 7730588336746206 (by norm_num))
    (roundDouble_at _ _ 5 7670193115365376 (by norm_num))
    (roundDouble_at _ _ 5 7740561859543040 (by norm_num))
    (by rw [Int.floor_eq_iff]; norm_num)

theorem scaled_tie_56 (q : ℚ) (hq : q = 111 / 254) :
    ⌊roundDouble (roundDouble (roundDouble q * 127) + 1 / 2)⌋ = 56 := by
  subst hq
  exact scaled_eval _ (3936216997150591 / 9007199254740992) (111 / 2) 56 56
    (roundDouble_at _ _ (-2) 7872433994301182 (by norm_num))
    (roundDouble_at _ _ 5 7810930603720704 (by norm_num))
    (roundDouble_at _ _ 5 7881299347898368 (by norm_num))
    (by rw [Int.floor_eq_iff]; norm_num)

theorem scaled_tie_57 (q : ℚ) (hq : q = 113 / 254) :
    ⌊roundDouble (roundDouble (roundDouble q * 127) + 1 / 2)⌋ = 57 := by
  subst hq
  exact scaled_eval _ (4007139825928079 / 9007199254740992) (113 / 2) 57 57
    (roundDouble_at _ _ (-2) 8014279651856158 (by norm_num))
    (roundDouble_at _ _ 5 7951668092076032 (by norm_num))
    (roundDouble_at _ _ 5 8022036836253696 (by norm_num))
    (by rw [Int.floor_eq_iff]; norm_num)

theorem scaled_tie_58 (q : ℚ) (hq : q = 115 / 254) :
    ⌊roundDouble (roundDouble (roundDouble q * 127) + 1 / 2)⌋ = 58 := by
  subst hq
  exact scaled_eval _ (4078062654705567 / 9007199254740992) (115 / 2) 58 58
    (roundDouble_at _ _ (-2) 8156125309411134 (by norm_num))
    (roundDouble_at _ _ 5 8092405580431360 (by norm_num))
    (roundDouble_at _ _ 5 8162774324609024 (by norm_num))
    (by rw [Int.floor_eq_iff]; norm_num)

theorem scaled_tie_59 (q : ℚ) (hq : q = 117 / 254) :
    ⌊roundDouble (roundDouble (roundDouble q * 127) + 1 / 2)⌋ = 59 := by
  subst hq
  exact scaled_eval _ (8297970966966111 / 18014398509481984) (117 / 2) 59 59
    (roundDouble_at _ _ (-2) 8297970966966111 (by norm_num))
    (roundDouble_at _ _ 5 8233143068786688 (by norm_num))
    (roundDouble_at _ _ 5 8303511812964352 (by norm_num))
    (by rw [Int.floor_eq_iff]; norm_num)

theorem scaled_tie_60 (q : ℚ) (hq : q = 119 / 254) :
    ⌊roundDouble (roundDouble (roundDouble q * 127) + 1 / 2)⌋ = 60 := by
  subst hq
  exact scaled_eval _ (8439816624521087 / 18014398509481984) (119 / 2) 60 60
    (roundDouble_at _ _ (-2) 8439816624521087 (by norm_num))
    (roundDouble_at _ _ 5 8373880557142016 (by norm_num))
    (roundDouble_at _ _ 5 8444249301319680 (by norm_num))
    (by rw [Int.floor_eq_iff]; norm_num)

theorem scaled_tie_61 (q : ℚ) (hq : q = 121 / 254) :
    ⌊roundDouble (roundDouble (roundDouble q * 127) + 1 / 2)⌋ = 61 := by
  subst hq
  exact scaled_eval _ (8581662282076063 / 18014398509481984) (121 / 2) 61 61
    (roundDouble_at _ _ (-2) 8581662282076063 (by norm_num))
    (roundDouble_at _ _ 5 8514618045497344 (by norm_num))
    (roundDouble_at _ _ 5 8584986789675008 (by norm_num))
    (by rw [Int.floor_eq_iff]; norm_num)

theorem scaled_tie_62 (q : ℚ) (hq : q = 123 / 254) :
    ⌊roundDouble (roundDouble (roundDouble q * 127) + 1 / 2)⌋ = 62 := by
  subst hq
  exact scaled_eval _ (8723507939631039 / 18014398509481984) (123 / 2) 62 62
    (roundDouble_at _ _ (-2) 8723507939631039 (by norm_num))
    (roundDouble_at _ _ 5 8655355533852672 (by norm_num))
    (roundDouble_at _ _ 5 8725724278030336 (by norm_num))
    (by rw [Int.floor_eq_iff]; norm_num)

theorem scaled_tie_63 (q : ℚ) (hq : q = 125 / 254) :
    ⌊roundDouble (roundDouble (roundDouble q * 127) + 1 / 2)⌋ = 63 := by
  subst hq
  exact scaled_eval _ (277042299912063 / 562949953421312) (125 / 2) 63 63
    (roundDouble_at _ _ (-2) 8865353597186016 (by norm_num))
    (roundDouble_at _ _ 5 8796093022208000 (by norm_num))
    (roundDouble_at _ _ 5 8866461766385664 (by norm_num))
    (by rw [Int.floor_eq_iff]; norm_num)

theorem scaled_tie_64 (q : ℚ) (hq : q = 1 / 2) :
    ⌊roundDouble (roundDouble (roundDouble q * 127) + 1 / 2)⌋ = 64 := by
  subst hq
  exact scaled_eval _ (1 / 2) (127 / 2) 64 64
    (roundDouble_at _ _ (-1) 4503599627370496 (by norm_num))
    (roundDouble_at _ _ 5 8936830510563328 (by norm_num))
    (roundDouble_at _ _ 6 4503599627370496 (by norm_num))
    (by rw [Int.floor_eq_iff]; norm_num)

theorem scaled_tie_65 (q : ℚ) (hq : q = 129 / 254) :
    ⌊roundDouble (roundDouble (roundDouble q * 127) + 1 / 2)⌋ = 65 := by
  subst hq
  exact scaled_eval _ (285907653509249 / 562949953421312) (129 / 2) 65 65
    (roundDouble_at _ _ (-1) 4574522456147984 (by norm_num))
    (roundDouble_at _ _ 6 4538783999459328 (by norm_num))
    (roundDouble_at _ _ 6 4573968371548160 (by norm_num))
    (by rw [Int.floor_eq_iff]; norm_num)

theorem scaled_tie_66 (q : ℚ) (hq : q = 131 / 254) :
    ⌊roundDouble (roundDouble (roundDouble q * 127) + 1 / 2)⌋ = 66 := by
  subst hq
  exact scaled_eval _ (145170165153921 / 281474976710656) (131 / 2) 66 66
    (roundDouble_at _ _ (-1) 4645445284925472 (by norm_num))
    (roundDouble_at _ _ 6 4609152743636992 (by norm_num))
    (roundDouble_at _ _ 6 4644337115725824 (by norm_num))
    (by rw [Int.floor_eq_iff]; norm_num)

theorem scaled_tie_67 (q : ℚ) (hq : q = 133 / 254) :
    ⌊roundDouble (roundDouble (roundDouble q * 127) + 1 / 2)⌋ = 67 := by
  subst hq
  exact scaled_eval _ (294773007106435 / 562949953421312) (133 / 2) 67 67
    (roundDouble_at _ _ (-1) 4716368113702960 (by norm_num))
    (roundDouble_at _ _ 6 4679521487814656 (by norm_num))
    (roundDouble_at _ _ 6 4714705859903488 (by norm_num))
    (by rw [Int.floor_eq_iff]; norm_num)

theorem scaled_tie_68 (q : ℚ) (hq : q = 135 / 254) :
    ⌊roundDouble (roundDouble (roundDouble q * 127) + 1 / 2)⌋ = 68 := by
  subst hq
  exact scaled_eval _ (4787290942480449 / 9007199254740992) (135 / 2) 68 68
    (roundDouble_at _ _ (-1) 4787290942480449 (by norm_num))
    (roundDouble_at _ _ 6 4749890231992320 (by norm_num))
    (roundDouble_at _ _ 6 4785074604081152 (by norm_num))
    (by rw [Int.floor_eq_iff]; norm_num)

theorem scaled_tie_69 (q : ℚ) (hq : q = 137 / 254) :
    ⌊roundDouble (roundDouble (roundDouble q * 127) + 1 / 2)⌋ = 69 := by
  subst hq
  exact scaled_eval _ (4858213771257937 / 9007199254740992) (137 / 2) 69 69
    (roundDouble_at _ _ (-1) 4858213771257937 (by norm_num))
    (roundDouble_at _ _ 6 4820258976169984 (by norm_num))
    (roundDouble_at _ _ 6 4855443348258816 (by norm_num))
    (by rw [Int.floor_eq_iff]; norm_num)

theorem scaled_tie_70 (q : ℚ) (hq : q = 139 / 254) :
    ⌊roundDouble (roundDouble (roundDouble q * 127) + 1 / 2)⌋ = 70 := by
  subst hq
  exact scaled_eval _ (4929136600035425 / 9007199254740992) (139 / 2) 70 70
    (roundDouble_at _ _ (-1) 4929136600035425 (by norm_num))
    (roundDouble_at _ _ 6 4890627720347648 (by norm_num))
    (roundDouble_at _ _ 6 4925812092436480 (by norm_num))
    (by rw [Int.floor_eq_iff]; norm_num)

theorem scaled_tie_71 (q : ℚ) (hq : q = 141 / 254) :
    ⌊roundDouble (roundDouble (roundDouble q * 127) + 1 / 2)⌋ = 71 := by
  subst hq
  exact scaled_eval _ (5000059428812913 / 9007199254740992) (141 / 2) 71 71
    (roundDouble_at _ _ (-1) 5000059428812913 (by norm_num))
    (roundDouble_at _ _ 6 4960996464525312 (by norm_num))
    (roundDouble_at _ _ 6 4996180836614144 (by norm_num))
    (by rw [Int.floor_eq_iff]; norm_num)

theorem scaled_tie_72 (q : ℚ) (hq : q = 143 / 254) :
    ⌊roundDouble (roundDouble (roundDouble q * 127) + 1 / 2)⌋ = 72 := by
  subst hq
  exact scaled_eval _ (5070982257590401 / 9007199254740992) (143 / 2) 72 72
    (roundDouble_at _ _ (-1) 5070982257590401 (by norm_num))
    (roundDouble_at _ _ 6 5031365208702976 (by norm_num))
    (roundDouble_at _ _ 6 5066549580791808 (by norm_num))
    (by rw [Int.floor_eq_iff]; norm_num)

theorem scaled_tie_73 (q : ℚ) (hq : q = 145 / 254) :
    ⌊roundDouble (roundDouble (roundDouble q * 127) + 1 / 2)⌋ = 73 := by
  subst hq
  exact scaled_eval _ (5141905086367889 / 9007199254740992) (145 / 2) 73 73
    (roundDouble_at _ _ (-1) 5141905086367889 (by norm_num))
    (roundDouble_at _ _ 6 5101733952880640 (by norm_num))
    (roundDouble_at _ _ 6 5136918324969472 (by norm_num))
    (by rw [Int.floor_eq_iff]; norm_num)

theorem scaled_tie_74 (q : ℚ) (hq : q = 147 / 254) :
    ⌊roundDouble (roundDouble (roundDouble q * 127) + 1 / 2)⌋ = 74 := by
  subst hq
  exact scaled_eval _ (5212827915145377 / 9007199254740992) (147 / 2) 74 74
    (roundDouble_at _ _ (-1) 5212827915145377 (by norm_num))
    (roundDouble_at _ _ 6 5172102697058304 (by norm_num))
    (roundDouble_at _ _ 6 5207287069147136 (by norm_num))
    (by rw [Int.floor_eq_iff]; norm_num)

theorem scaled_tie_75 (q : ℚ) (hq : q = 149 / 254) :
    ⌊roundDouble (roundDouble (roundDouble q * 127) + 1 / 2)⌋ = 75 := by
  subst hq
  exact scaled_eval _ (5283750743922865 / 9007199254740992) (149 / 2) 75 75
    (roundDouble_at _ _ (-1) 5283750743922865 (by norm_num))
    (roundDouble_at _ _ 6 5242471441235968 (by norm_num))
    (roundDouble_at _ _ 6 5277655813324800 (by norm_num))
    (by rw [Int.floor_eq_iff]; norm_num)

theorem scaled_tie_76 (q : ℚ) (hq : q = 151 / 254) :
    ⌊roundDouble (roundDouble (roundDouble q * 127) + 1 / 2)⌋ = 76 := by
  subst hq
  exact scaled_eval _ (2677336786350177 / 4503599627370496) (151 / 2) 76 76
    (roundDouble_at _ _ (-1) 5354673572700354 (by norm_num))
    (roundDouble_at _ _ 6 5312840185413632 (by norm_num))
    (roundDouble_at _ _ 6 5348024557502464 (by norm_num))
    (by rw [Int.floor_eq_iff]; norm_num)

theorem scaled_tie_77 (q : ℚ) (hq : q = 153 / 254) :
    ⌊roundDouble (roundDouble (roundDouble q * 127) + 1 / 2)⌋ = 77 := by
  subst hq
  exact scaled_eval _ (2712798200738921 / 4503599627370496) (153 / 2) 77 77
    (roundDouble_at _ _ (-1) 5425596401477842 (by norm_num))
    (roundDouble_at _ _ 6 5383208929591296 (by norm_num))
    (roundDouble_at _ _ 6 5418393301680128 (by norm_num))
    (by rw [Int.floor_eq_iff]; norm_num)

theorem scaled_tie_78 (q : ℚ) (hq : q = 155 / 254) :
    ⌊roundDouble (roundDouble (roundDouble q * 127) + 1 / 2)⌋ = 78 := by
  subst hq
  exact scaled_eval _ (2748259615127665 / 4503599627370496) (155 / 2) 78 78
    (roundDouble_at _ _ (-1) 5496519230255330 (by norm_num))
    (roundDouble_at _ _ 6 5453577673768960 (by norm_num))
    (roundDouble_at _ _ 6 5488762045857792 (by norm_num))
    (by rw [Int.floor_eq_iff]; norm_num)

theorem scaled_tie_79 (q : ℚ) (hq : q = 157 / 254) :
    ⌊roundDouble (roundDouble (roundDouble q * 127) + 1 / 2)⌋ = 79 := by
  subst hq
  exact scaled_eval _ (2783721029516409 / 4503599627370496) (157 / 2) 79 79
    (roundDouble_at _ _ (-1) 5567442059032818 (by norm_num))
    (roundDouble_at _ _ 6 5523946417946624 (by norm_num))
    (roundDouble_at _ _ 6 5559130790035456 (by norm_num))
    (by rw [Int.floor_eq_iff]; norm_num)

theorem scaled_tie_80 (q : ℚ) (hq : q = 159 / 254) :
    ⌊roundDouble (roundDouble (roundDouble q * 127) + 1 / 2)⌋ = 80 := by
  subst hq
  exact scaled_eval _ (2819182443905153 / 4503599627370496) (159 / 2) 80 80
    (roundDouble_at _ _ (-1) 5638364887810306 (by norm_num))
    (roundDouble_at _ _ 6 5594315162124288 (by norm_num))
    (roundDouble_at _ _ 6 5629499534213120 (by norm_num))
    (by rw [Int.floor_eq_iff]; norm_num)

theorem scaled_tie_81 (q : ℚ) (hq : q = 161 / 254) :
    ⌊roundDouble (roundDouble (roundDouble q * 127) + 1 / 2)⌋ = 81 := by
  subst hq
  exact scaled_eval _ (2854643858293897 / 4503599627370496) (161 / 2) 81 81
    (roundDouble_at _ _ (-1) 5709287716587794 (by norm_num))
    (roundDouble_at _ _ 6 5664683906301952 (by norm_num))
    (roundDouble_at _ _ 6 5699868278390784 (by norm_num))
    (by rw [Int.floor_eq_iff]; norm_num)

theorem scaled_tie_82 (q : ℚ) (hq : q = 163 / 254) :
    ⌊roundDouble (roundDouble (roundDouble q * 127) + 1 / 2)⌋ = 82 := by
  subst hq
  exact scaled_eval _ (2890105272682641 / 4503599627370496) (163 / 2) 82 82
    (roundDouble_at _ _ (-1) 5780210545365282 (by norm_num))
    (roundDouble_at _ _ 6 5735052650479616 (by norm_num))
    (roundDouble_at _ _ 6 5770237022568448 (by norm_num))
    (by rw [Int.floor_eq_iff]; norm_num)

theorem scaled_tie_83 (q : ℚ) (hq : q = 165 / 254) :
    ⌊roundDouble (roundDouble (roundDouble q * 127) + 1 / 2)⌋ = 83 := by
  subst hq
  exact scaled_eval _ (2925566687071385 / 4503599627370496) (165 / 2) 83 83
    (roundDouble_at _ _ (-1) 5851133374142770 (by norm_num))
    (roundDouble_at _ _ 6 5805421394657280 (by norm_num))
    (roundDouble_at _ _ 6 5840605766746112 (by norm_num))
    (by rw [Int.floor_eq_iff]; norm_num)

theorem scaled_tie_84 (q : ℚ) (hq : q = 167 / 254) :
    ⌊roundDouble (roundDouble (roundDouble q * 127) + 1 / 2)⌋ = 84 := by
  subst hq
  exact scaled_eval _ (5922056202920259 / 9007199254740992) (167 / 2) 84 84
    (roundDouble_at _ _ (-1) 5922056202920259 (by norm_num))
    (roundDouble_at _ _ 6 5875790138834944 (by norm_num))
    (roundDouble_at _ _ 6 5910974510923776 (by norm_num))
    (by rw [Int.floor_eq_iff]; norm_num)

theorem scaled_tie_85 (q : ℚ) (hq : q = 169 / 254) :
    ⌊roundDouble (roundDouble (roundDouble q * 127) + 1 / 2)⌋ = 85 := by
  subst hq
  exact scaled_eval _ (5992979031697747 / 9007199254740992) (169 / 2) 85 85
    (roundDouble_at _ _ (-1) 5992979031697747 (by norm_num))
    (roundDouble_at _ _ 6 5946158883012608 (by norm_num))
    (roundDouble_at _ _ 6 5981343255101440 (by norm_num))
    (by rw [Int.floor_eq_iff]; norm_num)

theorem scaled_tie_86 (q : ℚ) (hq : q = 171 / 254) :
    ⌊roundDouble (roundDouble (roundDouble q * 127) + 1 / 2)⌋ = 86 := by
  subst hq
  exact scaled_eval _ (6063901860475235 / 9007199254740992) (171 / 2) 86 86
    (roundDouble_at _ _ (-1) 6063901860475235 (by norm_num))
    (roundDouble_at _ _ 6 6016527627190272 (by norm_num))
    (roundDouble_at _ _ 6 6051711999279104 (by norm_num))
    (by rw [Int.floor_eq_iff]; norm_num)

theorem scaled_tie_87 (q : ℚ) (hq : q = 173 / 254) :
    ⌊roundDouble (roundDouble (roundDouble q * 127) + 1 / 2)⌋ = 87 := by
  subst hq
  exact scaled_eval _ (6134824689252723 / 9007199254740992) (173 / 2) 87 87
    (roundDouble_at _ _ (-1) 6134824689252723 (by norm_num))
    (roundDouble_at _ _ 6 6086896371367936 (by norm_num))
    (roundDouble_at _ _ 6 6122080743456768 (by norm_num))
    (by rw [Int.floor_eq_iff]; norm_num)

theorem scaled_tie_88 (q : ℚ) (hq : q = 175 / 254) :
    ⌊roundDouble (roundDouble (roundDouble q * 127) + 1 / 2)⌋ = 88 := by
  subst hq
  exact scaled_eval _ (6205747518030211 / 9007199254740992) (175 / 2) 88 88
    (roundDouble_at _ _ (-1) 6205747518030211 (by norm_num))
    (roundDouble_at _ _ 6 6157265115545600 (by norm_num))
    (roundDouble_at _ _ 6 6192449487634432 (by norm_num))
    (by rw [Int.floor_eq_iff]; norm_num)

theorem scaled_tie_89 (q : ℚ) (hq : q = 177 / 254) :
    ⌊roundDouble (roundDouble (roundDouble q * 127) + 1 / 2)⌋ = 89 := by
  subst hq
  exact scaled_eval _ (6276670346807699 / 9007199254740992) (177 / 2) 89 89
    (roundDouble_at _ _ (-1) 6276670346807699 (by norm_num))
    (roundDouble_at _ _ 6 6227633859723264 (by norm_num))
    (roundDouble_at _ _ 6 6262818231812096 (by norm_num))
    (by rw [Int.floor_eq_iff]; norm_num)

theorem scaled_tie_90 (q : ℚ) (hq : q = 179 / 254) :
    ⌊roundDouble (roundDouble (roundDouble q * 127) + 1 / 2)⌋ = 90 := by
  subst hq
  exact scaled_eval _ (6347593175585187 / 9007199254740992) (179 / 2) 90 90
    (roundDouble_at _ _ (-1) 6347593175585187 (by norm_num))
    (roundDouble_at _ _ 6 6298002603900928 (by norm_num))
    (roundDouble_at _ _ 6 6333186975989760 (by norm_num))
    (by rw [Int.floor_eq_iff]; norm_num)

theorem scaled_tie_91 (q : ℚ) (hq : q = 181 / 254) :
    ⌊roundDouble (roundDouble (roundDouble q * 127) + 1 / 2)⌋ = 91 := by
  subst hq
  exact scaled_eval _ (6418516004362675 / 9007199254740992) (181 / 2) 91 91
    (roundDouble_at _ _ (-1) 6418516004362675 (by norm_num))
    (roundDouble_at _ _ 6 6368371348078592 (by norm_num))
    (roundDouble_at _ _ 6 6403555720167424 (by norm_num))
    (by rw [Int.floor_eq_iff]; norm_num)

theorem scaled_tie_92 (q : ℚ) (hq : q = 183 / 254) :
    ⌊roundDouble (roundDouble (roundDouble q * 127) + 1 / 2)⌋ = 92 := by
  subst hq
  exact scaled_eval _ (1622359708285041 / 2251799813685248) (183 / 2) 92 92
    (roundDouble_at _ _ (-1) 6489438833140164 (by norm_num))
    (roundDouble_at _ _ 6 6438740092256256 (by norm_num))
    (roundDouble_at _ _ 6 6473924464345088 (by norm_num))
    (by rw [Int.floor_eq_iff]; norm_num)

theorem scaled_tie_93 (q : ℚ) (hq : q = 185 / 254) :
    ⌊roundDouble (roundDouble (roundDouble q * 127) + 1 / 2)⌋ = 93 := by
  subst hq
  exact scaled_eval _ (1640090415479413 / 2251799813685248) (185 / 2) 93 93
    (roundDouble_at _ _ (-1) 6560361661917652 (by norm_num))
    (roundDouble_at _ _ 6 6509108836433920 (by norm_num))
    (roundDouble_at _ _ 6 6544293208522752 (by norm_num))
    (by rw [Int.floor_eq_iff]; norm_num)

theorem scaled_tie_94 (q : ℚ) (hq : q = 187 / 254) :
    ⌊roundDouble (roundDouble (roundDouble q * 127) + 1 / 2)⌋ = 94 := by
  subst hq
  exact scaled_eval _ (1657821122673785 / 2251799813685248) (187 / 2) 94 94
    (roundDouble_at _ _ (-1) 6631284490695140 (by norm_num))
    (roundDouble_at _ _ 6 6579477580611584 (by norm_num))
    (roundDouble_at _ _ 6 6614661952700416 (by norm_num))
    (by rw [Int.floor_eq_iff]; norm_num)

theorem scaled_tie_95 (q : ℚ) (hq : q = 189 / 254) :
    ⌊roundDouble (roundDouble (roundDouble q * 127) + 1 / 2)⌋ = 95 := by
  subst hq
  exact scaled_eval _ (1675551829868157 / 2251799813685248) (189 / 2) 95 95
    (roundDouble_at _ _ (-1) 6702207319472628 (by norm_num))
    (roundDouble_at _ _ 6 6649846324789248 (by norm_num))
    (roundDouble_at _ _ 6 6685030696878080 (by norm_num))
    (by rw [Int.floor_eq_iff]; norm_num)

theorem scaled_tie_96 (q : ℚ) (hq : q = 191 / 254) :
    ⌊roundDouble (roundDouble (roundDouble q * 127) + 1 / 2)⌋ = 96 := by
  subst hq
  exact scaled_eval _ (1693282537062529 / 2251799813685248) (191 / 2) 96 96
    (roundDouble_at _ _ (-1) 6773130148250116 (by norm_num))
    (roundDouble_at _ _ 6 6720215068966912 (by norm_num))
    (roundDouble_at _ _ 6 6755399441055744 (by norm_num))
    (by rw [Int.floor_eq_iff]; norm_num)

theorem scaled_tie_97 (q : ℚ) (hq : q = 193 / 254) :
    ⌊roundDouble (roundDouble (roundDouble q * 127) + 1 / 2)⌋ = 97 := by
  subst hq
  exact scaled_eval _ (1711013244256901 / 2251799813685248) (193 / 2) 97 97
    (roundDouble_at _ _ (-1) 6844052977027604 (by norm_num))
    (roundDouble_at _ _ 6 6790583813144576 (by norm_num))
    (roundDouble_at _ _ 6 6825768185233408 (by norm_num))
    (by rw [Int.floor_eq_iff]; norm_num)

theorem scaled_tie_98 (q : ℚ) (hq : q = 195 / 254) :
    ⌊roundDouble (roundDouble (roundDouble q * 127) + 1 / 2)⌋ = 98 := by
  subst hq
  exact scaled_eval _ (1728743951451273 / 2251799813685248) (195 / 2) 98 98
    (roundDouble_at _ _ (-1) 6914975805805092 (by norm_num))
    (roundDouble_at _ _ 6 6860952557322240 (by norm_num))
    (roundDouble_at _ _ 6 6896136929411072 (by norm_num))
    (by rw [Int.floor_eq_iff]; norm_num)

theorem scaled_tie_99 (q : ℚ) (hq : q = 197 / 254) :
    ⌊roundDouble (roundDouble (roundDouble q * 127) + 1 / 2)⌋ = 99 := by
  subst hq
  exact scaled_eval _ (1746474658645645 / 2251799813685248) (197 / 2) 99 99
    (roundDouble_at _ _ (-1) 6985898634582580 (by norm_num))
    (roundDouble_at _ _ 6 6931321301499904 (by norm_num))
    (roundDouble_at _ _ 6 6966505673588736 (by norm_num))
    (by rw [Int.floor_eq_iff]; norm_num)

theorem scaled_tie_100 (q : ℚ) (hq : q = 199 / 254) :
    ⌊roundDouble (roundDouble (roundDouble q * 127) + 1 / 2)⌋ = 100 := by
  subst hq
  exact scaled_eval _ (7056821463360069 / 9007199254740992) (199 / 2) 100 100
    (roundDouble_at _ _ (-1) 7056821463360069 (by norm_num))
    (roundDouble_at _ _ 6 7001690045677568 (by norm_num))
    (roundDouble_at _ _ 6 7036874417766400 (by norm_num))
    (by rw [Int.floor_eq_iff]; norm_num)

theorem scaled_tie_101 (q : ℚ) (hq : q = 201 / 254) :
    ⌊roundDouble (roundDouble (roundDouble q * 127) + 1 / 2)⌋ = 101 := by
  subst hq
  exact scaled_eval _ (7127744292137557 / 9007199254740992) (201 / 2) 101 101
    (roundDouble_at _ _ (-1) 7127744292137557 (by norm_num))
    (roundDouble_at _ _ 6 7072058789855232 (by norm_num))
    (roundDouble_at _ _ 6 7107243161944064 (by norm_num))
    (by rw [Int.floor_eq_iff]; norm_num)

theorem scaled_tie_102 (q : ℚ) (hq : q = 203 / 254) :
    ⌊roundDouble (roundDouble (roundDouble q * 127) + 1 / 2)⌋ = 102 := by
  subst hq
  exact scaled_eval _ (7198667120915045 / 9007199254740992) (203 / 2) 102 102
    (roundDouble_at _ _ (-1) 7198667120915045 (by norm_num))
    (roundDouble_at _ _ 6 7142427534032896 (by norm_num))
    (roundDouble_at _ _ 6 7177611906121728 (by norm_num))
    (by rw [Int.floor_eq_iff]; norm_num)

theorem scaled_tie_103 (q : ℚ) (hq : q = 205 / 254) :
    ⌊roundDouble (roundDouble (roundDouble q * 127) + 1 / 2)⌋ = 103 := by
  subst hq
  exact scaled_eval _ (7269589949692533 / 9007199254740992) (205 / 2) 103 103
    (roundDouble_at _ _ (-1) 7269589949692533 (by norm_num))
    (roundDouble_at _ _ 6 7212796278210560 (by norm_num))
    (roundDouble_at _ _ 6 7247980650299392 (by norm_num))
    (by rw [Int.floor_eq_iff]; norm_num)

theorem scaled_tie_104 (q : ℚ) (hq : q = 207 / 254) :
    ⌊roundDouble (roundDouble (roundDouble q * 127) + 1 / 2)⌋ = 104 := by
  subst hq
  exact scaled_eval _ (7340512778470021 / 9007199254740992) (207 / 2) 104 104
    (roundDouble_at _ _ (-1) 7340512778470021 (by norm_num))
    (roundDouble_at _ _ 6 7283165022388224 (by norm_num))
    (roundDouble_at _ _ 6 7318349394477056 (by norm_num))
    (by rw [Int.floor_eq_iff]; norm_num)

theorem scaled_tie_105 (q : ℚ) (hq : q = 209 / 254) :
    ⌊roundDouble (roundDouble (roundDouble q * 127) + 1 / 2)⌋ = 105 := by
  subst hq
  exact scaled_eval _ (7411435607247509 / 9007199254740992) (209 / 2) 105 105
    (roundDouble_at _ _ (-1) 7411435607247509 (by norm_num))
    (roundDouble_at _ _ 6 7353533766565888 (by norm_num))
    (roundDouble_at _ _ 6 7388718138654720 (by norm_num))
    (by rw [Int.floor_eq_iff]; norm_num)

theorem scaled_tie_106 (q : ℚ) (hq : q = 211 / 254) :
    ⌊roundDouble (roundDouble (roundDouble q * 127) + 1 / 2)⌋ = 106 := by
  subst hq
  exact scaled_eval _ (7482358436024997 / 9007199254740992) (211 / 2) 106 106
    (roundDouble_at _ _ (-1) 7482358436024997 (by norm_num))
    (roundDouble_at _ _ 6 7423902510743552 (by norm_num))
    (roundDouble_at _ _ 6 7459086882832384 (by norm_num))
    (by rw [Int.floor_eq_iff]; norm_num)

theorem scaled_tie_107 (q : ℚ) (hq : q = 213 / 254) :
    ⌊roundDouble (roundDouble (roundDouble q * 127) + 1 / 2)⌋ = 107 := by
  subst hq
  exact scaled_eval _ (7553281264802485 / 9007199254740992) (213 / 2) 107 107
    (roundDouble_at _ _ (-1) 7553281264802485 (by norm_num))
    (roundDouble_at _ _ 6 7494271254921216 (by norm_num))
    (roundDouble_at _ _ 6 7529455627010048 (by norm_num))
    (by rw [Int.floor_eq_iff]; norm_num)

theorem scaled_tie_108 (q : ℚ) (hq : q = 215 / 254) :
    ⌊roundDouble (roundDouble (roundDouble q * 127) + 1 / 2)⌋ = 108 := by
  subst hq
  exact scaled_eval _ (3812102046789987 / 4503599627370496) (215 / 2) 108 108
    (roundDouble_at _ _ (-1) 7624204093579974 (by norm_num))
    (roundDouble_at _ _ 6 7564639999098880 (by norm_num))
    (roundDouble_at _ _ 6 7599824371187712 (by norm_num))
    (by rw [Int.floor_eq_iff]; norm_num)

theorem scaled_tie_109 (q : ℚ) (hq : q = 217 / 254) :
    ⌊roundDouble (roundDouble (roundDouble q * 127) + 1 / 2)⌋ = 109 := by
  subst hq
  exact scaled_eval _ (3847563461178731 / 4503599627370496) (217 / 2) 109 109
    (roundDouble_at _ _ (-1) 7695126922357462 (by norm_num))
    (roundDouble_at _ _ 6 7635008743276544 (by norm_num))
    (roundDouble_at _ _ 6 7670193115365376 (by norm_num))
    (by rw [Int.floor_eq_iff]; norm_num)

theorem scaled_tie_110 (q : ℚ) (hq : q = 219 / 254) :
    ⌊roundDouble (roundDouble (roundDouble q * 127) + 1 / 2)⌋ = 110 := by
  subst hq
  exact scaled_eval _ (3883024875567475 / 4503599627370496) (219 / 2) 110 110
    (roundDouble_at _ _ (-1) 7766049751134950 (by norm_num))
    (roundDouble_at _ _ 6 7705377487454208 (by norm_num))
    (roundDouble_at _ _ 6 7740561859543040 (by norm_num))
    (by rw [Int.floor_eq_iff]; norm_num)

theorem scaled_tie_111 (q : ℚ) (hq : q = 221 / 254) :
    ⌊roundDouble (roundDouble (roundDouble q * 127) + 1 / 2)⌋ = 111 := by
  subst hq
  exact scaled_eval _ (3918486289956219 / 4503599627370496) (221 / 2) 111 111
    (roundDouble_at _ _ (-1) 7836972579912438 (by norm_num))
    (roundDouble_at _ _ 6 7775746231631872 (by norm_num))
    (roundDouble_at _ _ 6 7810930603720704 (by norm_num))
    (by rw [Int.floor_eq_iff]; norm_num)

theorem scaled_tie_112 (q : ℚ) (hq : q = 223 / 254) :
    ⌊roundDouble (roundDouble (roundDouble q * 127) + 1 / 2)⌋ = 112 := by
  subst hq
  exact scaled_eval _ (3953947704344963 / 4503599627370496) (223 / 2) 112 112
    (roundDouble_at _ _ (-1) 7907895408689926 (by norm_num))
    (roundDouble_at _ _ 6 7846114975809536 (by norm_num))
    (roundDouble_at _ _ 6 7881299347898368 (by norm_num))
    (by rw [Int.floor_eq_iff]; norm_num)

theorem scaled_tie_113 (q : ℚ) (hq : q = 225 / 254) :
    ⌊roundDouble (roundDouble (roundDouble q * 127) + 1 / 2)⌋ = 113 := by
  subst hq
  exact scaled_eval _ (3989409118733707 / 4503599627370496) (225 / 2) 113 113
    (roundDouble_at _ _ (-1) 7978818237467414 (by norm_num))
    (roundDouble_at _ _ 6 7916483719987200 (by norm_num))
    (roundDouble_at _ _ 6 7951668092076032 (by norm_num))
    (by rw [Int.floor_eq_iff]; norm_num)

theorem scaled_tie_114 (q : ℚ) (hq : q = 227 / 254) :
    ⌊roundDouble (roundDouble (roundDouble q * 127) + 1 / 2)⌋ = 114 := by
  subst hq
  exact scaled_eval _ (4024870533122451 / 4503599627370496) (227 / 2) 114 114
    (roundDouble_at _ _ (-1) 8049741066244902 (by norm_num))
    (roundDouble_at _ _ 6 7986852464164864 (by norm_num))
    (roundDouble_at _ _ 6 8022036836253696 (by norm_num))
    (by rw [Int.floor_eq_iff]; norm_num)

theorem scaled_tie_115 (q : ℚ) (hq : q = 229 / 254) :
    ⌊roundDouble (roundDouble (roundDouble q * 127) + 1 / 2)⌋ = 115 := by
  subst hq
  exact scaled_eval _ (4060331947511195 / 4503599627370496) (229 / 2) 115 115
    (roundDouble_at _ _ (-1) 8120663895022390 (by norm_num))
    (roundDouble_at _ _ 6 8057221208342528 (by norm_num))
    (roundDouble_at _ _ 6 8092405580431360 (by norm_num))
    (by rw [Int.floor_eq_iff]; norm_num)

theorem scaled_tie_116 (q : ℚ) (hq : q = 231 / 254) :
    ⌊roundDouble (roundDouble (roundDouble q * 127) + 1 / 2)⌋ = 116 := by
  subst hq
  exact scaled_eval _ (8191586723799879 / 9007199254740992) (231 / 2) 116 116
    (roundDouble_at _ _ (-1) 8191586723799879 (by norm_num))
    (roundDouble_at _ _ 6 8127589952520192 (by norm_num))
    (roundDouble_at _ _ 6 8162774324609024 (by norm_num))
    (by rw [Int.floor_eq_iff]; norm_num)

theorem scaled_tie_117 (q : ℚ) (hq : q = 233 / 254) :
    ⌊roundDouble (roundDouble (roundDouble q * 127) + 1 / 2)⌋ = 117 := by
  subst hq
  exact scaled_eval _ (8262509552577367 / 9007199254740992) (233 / 2) 117 117
    (roundDouble_at _ _ (-1) 8262509552577367 (by norm_num))
    (roundDouble_at _ _ 6 8197958696697856 (by norm_num))
    (roundDouble_at _ _ 6 8233143068786688 (by norm_num))
    (by rw [Int.floor_eq_iff]; norm_num)

theorem scaled_tie_118 (q : ℚ) (hq : q = 235 / 254) :
    ⌊roundDouble (roundDouble (roundDouble q * 127) + 1 / 2)⌋ = 118 := by
  subst hq
  exact scaled_eval _ (8333432381354855 / 9007199254740992) (235 / 2) 118 118
    (roundDouble_at _ _ (-1) 8333432381354855 (by norm_num))
    (roundDouble_at _ _ 6 8268327440875520 (by norm_num))
    (roundDouble_at _ _ 6 8303511812964352 (by norm_num))
    (by rw [Int.floor_eq_iff]; norm_num)

theorem scaled_tie_119 (q : ℚ) (hq : q = 237 / 254) :
    ⌊roundDouble (roundDouble (roundDouble q * 127) + 1 / 2)⌋ = 119 := by
  subst hq
  exact scaled_eval _ (8404355210132343 / 9007199254740992) (237 / 2) 119 119
    (roundDouble_at _ _ (-1) 8404355210132343 (by norm_num))
    (roundDouble_at _ _ 6 8338696185053184 (by norm_num))
    (roundDouble_at _ _ 6 8373880557142016 (by norm_num))
    (by rw [Int.floor_eq_iff]; norm_num)

theorem scaled_tie_120 (q : ℚ) (hq : q = 239 / 254) :
    ⌊roundDouble (roundDouble (roundDouble q * 127) + 1 / 2)⌋ = 120 := by
  subst hq
  exact scaled_eval _ (8475278038909831 / 9007199254740992) (239 / 2) 120 120
    (roundDouble_at _ _ (-1) 8475278038909831 (by norm_num))
    (roundDouble_at _ _ 6 8409064929230848 (by norm_num))
    (roundDouble_at _ _ 6 8444249301319680 (by norm_num))
    (by rw [Int.floor_eq_iff]; norm_num)

theorem scaled_tie_121 (q : ℚ) (hq : q = 241 / 254) :
    ⌊roundDouble (roundDouble (roundDouble q * 127) + 1 / 2)⌋ = 121 := by
  subst hq
  exact scaled_eval _ (8546200867687319 / 9007199254740992) (241 / 2) 121 121
    (roundDouble_at _ _ (-1) 8546200867687319 (by norm_num))
    (roundDouble_at _ _ 6 8479433673408512 (by norm_num))
    (roundDouble_at _ _ 6 8514618045497344 (by norm_num))
    (by rw [Int.floor_eq_iff]; norm_num)

theorem scaled_tie_122 (q : ℚ) (hq : q = 243 / 254) :
    ⌊roundDouble (roundDouble (roundDouble q * 127) + 1 / 2)⌋ = 122 := by
  subst hq
  exact scaled_eval _ (8617123696464807 / 9007199254740992) (243 / 2) 122 122
    (roundDouble_at _ _ (-1) 8617123696464807 (by norm_num))
    (roundDouble_at _ _ 6 8549802417586176 (by norm_num))
    (roundDouble_at _ _ 6 8584986789675008 (by norm_num))
    (by rw [Int.floor_eq_iff]; norm_num)

theorem scaled_tie_123 (q : ℚ) (hq : q = 245 / 254) :
    ⌊roundDouble (roundDouble (roundDouble q * 127) + 1 / 2)⌋ = 123 := by
  subst hq
  exact scaled_eval _ (8688046525242295 / 9007199254740992) (245 / 2) 123 123
    (roundDouble_at _ _ (-1) 8688046525242295 (by norm_num))
    (roundDouble_at _ _ 6 8620171161763840 (by norm_num))
    (roundDouble_at _ _ 6 8655355533852672 (by norm_num))
    (by rw [Int.floor_eq_iff]; norm_num)

theorem scaled_tie_124 (q : ℚ) (hq : q = 247 / 254) :
    ⌊roundDouble (roundDouble (roundDouble q * 127) + 1 / 2)⌋ = 124 := by
  subst hq
  exact scaled_eval _ (1094871169252473 / 1125899906842624) (247 / 2) 124 124
    (roundDouble_at _ _ (-1) 8758969354019784 (by norm_num))
    (roundDouble_at _ _ 6 8690539905941504 (by norm_num))
    (roundDouble_at _ _ 6 8725724278030336 (by norm_num))
    (by rw [Int.floor_eq_iff]; norm_num)

theorem scaled_tie_125 (q : ℚ) (hq : q = 249 / 254) :
    ⌊roundDouble (roundDouble (roundDouble q * 127) + 1 / 2)⌋ = 125 := by
  subst hq
  exact scaled_eval _ (1103736522849659 / 1125899906842624) (249 / 2) 125 125
    (roundDouble_at _ _ (-1) 8829892182797272 (by norm_num))
    (roundDouble_at _ _ 6 8760908650119168 (by norm_num))
    (roundDouble_at _ _ 6 8796093022208000 (by norm_num))
    (by rw [Int.floor_eq_iff]; norm_num)

theorem scaled_tie_126 (q : ℚ) (hq : q = 251 / 254) :
    ⌊roundDouble (roundDouble (roundDouble q * 127) + 1 / 2)⌋ = 126 := by
  subst hq
  exact scaled_eval _ (1112601876446845 / 1125899906842624) (251 / 2) 126 126
    (roundDouble_at _ _ (-1) 8900815011574760 (by norm_num))
    (roundDouble_at _ _ 6 8831277394296832 (by norm_num))
    (roundDouble_at _ _ 6 8866461766385664 (by norm_num))
    (by rw [Int.floor_eq_iff]; norm_num)

theorem scaled_tie_127 (q : ℚ) (hq : q = 253 / 254) :
    ⌊roundDouble (roundDouble (roundDouble q * 127) + 1 / 2)⌋ = 127 := by
  subst hq
  exact scaled_eval _ (1121467230044031 / 1125899906842624) (253 / 2) 127 127
    (roundDouble_at _ _ (-1) 8971737840352248 (by norm_num))
    (roundDouble_at _ _ 6 8901646138474496 (by norm_num))
    (roundDouble_at _ _ 6 8936830510563328 (by norm_num))
    (by rw [Int.floor_eq_iff]; norm_num)

/-- Without the reverse flag the step computes the value of the exact formula
at each of the 127 quotients `(2 * j - 1) / 254` for which `127 * n + 1/2` is
the whole number `j`. -/
theorem scaled_tie (j : Int) (h1 : 1 ≤ j) (h2 : j ≤ 127) (q : ℚ)
    (hq : q = ((2 * j - 1 : Int) : ℚ) / 254) :
    ⌊roundDouble (roundDouble (roundDouble q * 127) + 1 / 2)⌋ = j := by
  interval_cases j
  · exact scaled_tie_1 q (by rw [hq]; norm_num)
  · exact scaled_tie_2 q (by rw [hq]; norm_num)
  · exact scaled_tie_3 q (by rw [hq]; norm_num)
  · exact scaled_tie_4 q (by rw [hq]; norm_num)
  · exact scaled_tie_5 q (by rw [hq]; norm_num)
  · exact scaled_tie_6 q (by rw [hq]; norm_num)
  · exact scaled_tie_7 q (by rw [hq]; norm_num)
  · exact scaled_tie_8 q (by rw [hq]; norm_num)
  · exact scaled_tie_9 q (by rw [hq]; norm_num)
  · exact scaled_tie_10 q (by rw [hq]; norm_num)
  · exact scaled_tie_11 q (by rw [hq]; norm_num)
  · exact scaled_tie_12 q (by rw [hq]; norm_num)
  · exact scaled_tie_13 q (by rw [hq]; norm_num)
  · exact scaled_tie_14 q (by rw [hq]; norm_num)
  · exact scaled_tie_15 q (by rw [hq]; norm_num)
  · exact scaled_tie_16 q (by rw [hq]; norm_num)
  · exact scaled_tie_17 q (by rw [hq]; norm_num)
  · exact scaled_tie_18 q (by rw [hq]; norm_num)
  · exact scaled_tie_19 q (by rw [hq]; norm_num)
  · exact scaled_tie_20 q (by rw [hq]; norm_num)
  · exact scaled_tie_21 q (by rw [hq]; norm_num)
  · exact scaled_tie_22 q (by rw [hq]; norm_num)
  · exact scaled_tie_23 q (by rw [hq]; norm_num)
  · exact scaled_tie_24 q (by rw [hq]; norm_num)
  · exact scaled_tie_25 q (by rw [hq]; norm_num)
  · exact scaled_tie_26 q (by rw [hq]; norm_num)
  · exact scaled_tie_27 q (by rw [hq]; norm_num)
  · exact scaled_tie_28 q (by rw [hq]; norm_num)
  · exact scaled_tie_29 q (by rw [hq]; norm_num)
  · exact scaled_tie_30 q (by rw [hq]; norm_num)
  · exact scaled_tie_31 q (by rw [hq]; norm_num)
  · exact scaled_tie_32 q (by rw [hq]; norm_num)
  · exact scaled_tie_33 q (by rw [hq]; norm_num)
  · exact scaled_tie_34 q (by rw [hq]; norm_num)
  · exact scaled_tie_35 q (by rw [hq]; norm_num)
  · exact scaled_tie_36 q (by rw [hq]; norm_num)
  · exact scaled_tie_37 q (by rw [hq]; norm_num)
  · exact scaled_tie_38 q (by rw [hq]; norm_num)
  · exact scaled_tie_39 q (by rw [hq]; norm_num)
  · exact scaled_tie_40 q (by rw [hq]; norm_num)
  · exact scaled_tie_41 q (by rw [hq]; norm_num)
  · exact scaled_tie_42 q (by rw [hq]; norm_num)
  · exact scaled_tie_43 q (by rw [hq]; norm_num)
  · exact scaled_tie_44 q (by rw [hq]; norm_num)
  · exact scaled_tie_45 q (by rw [hq]; norm_num)
  · exact scaled_tie_46 q (by rw [hq]; norm_num)
  · exact scaled_tie_47 q (by rw [hq]; norm_num)
  · exact scaled_tie_48 q (by rw [hq]; norm_num)
  · exact scaled_tie_49 q (by rw [hq]; norm_num)
  · exact scaled_tie_50 q (by rw [hq]; norm_num)
  · exact scaled_tie_51 q (by rw [hq]; norm_num)
  · exact scaled_tie_52 q (by rw [hq]; norm_num)
  · exact scaled_tie_53 q (by rw [hq]; norm_num)
  · exact scaled_tie_54 q (by rw [hq]; norm_num)
  · exact scaled_tie_55 q (by rw [hq]; norm_num)
  · exact scaled_tie_56 q (by rw [hq]; norm_num)
  · exact scaled_tie_57 q (by rw [hq]; norm_num)
  · exact scaled_tie_58 q (by rw [hq]; norm_num)
  · exact scaled_tie_59 q (by rw [hq]; norm_num)
  · exact scaled_tie_60 q (by rw [hq]; norm_num)
  · exact scaled_tie_61 q (by rw [hq]; norm_num)
  · exact scaled_tie_62 q (by rw [hq]; norm_num)
  · exact scaled_tie_63 q (by rw [hq]; norm_num)
  · exact scaled_tie_64 q (by rw [hq]; norm_num)
  · exact scaled_tie_65 q (by rw [hq]; norm_num)
  · exact scaled_tie_66 q (by rw [hq]; norm_num)
  · exact scaled_tie_67 q (by rw [hq]; norm_num)
  · exact scaled_tie_68 q (by rw [hq]; norm_num)
  · exact scaled_tie_69 q (by rw [hq]; norm_num)
  · exact scaled_tie_70 q (by rw [hq]; norm_num)
  · exact scaled_tie_71 q (by rw [hq]; norm_num)
  · exact scaled_tie_72 q (by rw [hq]; norm_num)
  · exact scaled_tie_73 q (by rw [hq]; norm_num)
  · exact scaled_tie_74 q (by rw [hq]; norm_num)
  · exact scaled_tie_75 q (by rw [hq]; norm_num)
  · exact scaled_tie_76 q (by rw [hq]; norm_num)
  · exact scaled_tie_77 q (by rw [hq]; norm_num)
  · exact scaled_tie_78 q (by rw [hq]; norm_num)
  · exact scaled_tie_79 q (by rw [hq]; norm_num)
  · exact scaled_tie_80 q (by rw [hq]; norm_num)
  · exact scaled_tie_81 q (by rw [hq]; norm_num)
  · exact scaled_tie_82 q (by rw [hq]; norm_num)
  · exact scaled_tie_83 q (by rw [hq]; norm_num)
  · exact scaled_tie_84 q (by rw [hq]; norm_num)
  · exact scaled_tie_85 q (by rw [hq]; norm_num)
  · exact scaled_tie_86 q (by rw [hq]; norm_num)
  · exact scaled_tie_87 q (by rw [hq]; norm_num)
  · exact scaled_tie_88 q (by rw [hq]; norm_num)
  · exact scaled_tie_89 q (by rw [hq]; norm_num)
  · exact scaled_tie_90 q (by rw [hq]; norm_num)
  · exact scaled_tie_91 q (by rw [hq]; norm_num)
  · exact scaled_tie_92 q (by rw [hq]; norm_num)
  · exact scaled_tie_93 q (by rw [hq]; norm_num)
  · exact scaled_tie_94 q (by rw [hq]; norm_num)
  · exact scaled_tie_95 q (by rw [hq]; norm_num)
  · exact scaled_tie_96 q (by rw [hq]; norm_num)
  · exact scaled_tie_97 q (by rw [hq]; norm_num)
  · exact scaled_tie_98 q (by rw [hq]; norm_num)
  · exact scaled_tie_99 q (by rw [hq]; norm_num)
  · exact scaled_tie_100 q (by rw [hq]; norm_num)
  · exact scaled_tie_101 q (by rw [hq]; norm_num)
  · exact scaled_tie_102 q (by rw [hq]; norm_num)
  · exact scaled_tie_103 q (by rw [hq]; norm_num)
  · exact scaled_tie_104 q (by rw [hq]; norm_num)
  · exact scaled_tie_105 q (by rw [hq]; norm_num)
  · exact scaled_tie_106 q (by rw [hq]; norm_num)
  · exact scaled_tie_107 q (by rw [hq]; norm_num)
  · exact scaled_tie_108 q (by rw [hq]; norm_num)
  · exact scaled_tie_109 q (by rw [hq]; norm_num)
  · exact scaled_tie_110 q (by rw [hq]; norm_num)
  · exact scaled_tie_111 q (by rw [hq]; norm_num)
  · exact scaled_tie_112 q (by rw [hq]; norm_num)
  · exact scaled_tie_113 q (by rw [hq]; norm_num)
  · exact scaled_tie_114 q (by rw [hq]; norm_num)
  · exact scaled_tie_115 q (by rw [hq]; norm_num)
  · exact scaled_tie_116 q (by rw [hq]; norm_num)
  · exact scaled_tie_117 q (by rw [hq]; norm_num)
  · exact scaled_tie_118 q (by rw [hq]; norm_num)
  · exact scaled_tie_119 q (by rw [hq]; norm_num)
  · exact scaled_tie_120 q (by rw [hq]; norm_num)
  · exact scaled_tie_121 q (by rw [hq]; norm_num)
  · exact scaled_tie_122 q (by rw [hq]; norm_num)
  · exact scaled_tie_123 q (by rw [hq]; norm_num)
  · exact scaled_tie_124 q (by rw [hq]; norm_num)
  · exact scaled_tie_125 q (by rw [hq]; norm_num)
  · exact scaled_tie_126 q (by rw [hq]; norm_num)
  · exact scaled_tie_127 q (by rw [hq]; norm_num)

/-- Without the reverse flag the value computed by the axis branch is the
value of the exact formula. -/
theorem axisMidiVal_eq_exact_forward (m : ControlMapping) (cur : Int)
    (hmin : InLong m.calibrationMinHid) (hmax : InLong m.calibrationMaxHid)
    (hr : 0 < axisRange m) (hrev : m.reverseAxis = false) :
    axisMidiVal m cur
      = outValueExact m.calibrationMinHid m.calibrationMaxHid m.reverseAxis cur := by
  by_cases htie :
      outValueScaled m.calibrationMinHid m.calibrationMaxHid m.reverseAxis cur
        ≠ (outValueExact m.calibrationMinHid m.calibrationMaxHid m.reverseAxis cur : ℚ)
  · exact (axisMidiVal_exact_cases m cur hmin hmax hr).1 htie
  · push_neg at htie
    obtain ⟨h0, h1⟩ := axis_norm_unit m cur hmin hmax hr
    rw [axisMidiVal_eq_floor m cur hmin hmax hr, axisNorm_eq m cur hmin hmax hr]
    rw [hrev] at htie ⊢
    simp only [Bool.false_eq_true, if_false]
    have hy : outValueScaled m.calibrationMinHid m.calibrationMaxHid false cur
        = 127 * (((max m.calibrationMinHid (min m.calibrationMaxHid cur)
              - m.calibrationMinHid : Int) : ℚ)
            / ((m.calibrationMaxHid - m.calibrationMinHid : Int) : ℚ)) + 1 / 2 := by
      unfold outValueScaled
      simp only [Bool.false_eq_true, if_false]
    rw [hy] at htie
    generalize outValueExact m.calibrationMinHid m.calibrationMaxHid false cur = j at htie ⊢
    generalize ((max m.calibrationMinHid (min m.calibrationMaxHid cur)
              - m.calibrationMinHid : Int) : ℚ)
            / ((m.calibrationMaxHid - m.calibrationMinHid : Int) : ℚ) = q at h0 h1 htie ⊢
    have hj1 : 1 ≤ j := by
      have : (0 : ℚ) < (j : ℚ) := by linarith
      have : 0 < j := by exact_mod_cast this
      omega
    have hj2 : j ≤ 127 := by
      have : (j : ℚ) < ((128 : Int) : ℚ) := by push_cast; linarith
      have : j < 128 := by exact_mod_cast this
      omega
    exact scaled_tie j hj1 hj2 q (by push_cast; linarith)

/-! ## The dispatch step on axes and buttons -/

/-- The dispatch step on a dirty entry of a calibrated axis with positive
range, in terms of the value computed by the axis branch. -/
theorem dispatchEntry_axis (m : ControlMapping) (dc : Int) (s : MappingState)
    (haxis : m.control.isButton = false) (hcal : m.calibrationDone = true)
    (hr : 0 < axisRange m) (hdirty : s.valueChanged = true) :
    dispatchEntry m dc s =
      if axisMidiVal m s.currentValue ≠ s.lastSentMidiValue then
        ({ s with valueChanged := false, previousValue := s.currentValue,
                  lastSentMidiValue := axisMidiVal m s.currentValue },
          [axisMessage m (GetEffectiveChannel m dc) (axisMidiVal m s.currentValue)])
      else
        ({ s with valueChanged := false, previousValue := s.currentValue }, []) := by
  simp only [dispatchEntry, exchangeValueChanged, hdirty, haxis, hcal, hr]
  by_cases h : axisMidiVal m s.currentValue = s.lastSentMidiValue
  · simp [h]
  · simp [h]

/-- A 7-bit value is unchanged by the conversion to `unsigned char`. -/
theorem toUChar_of_bounds {x : Int} (h0 : 0 ≤ x) (h1 : x ≤ 127) : toUChar x = x.toNat := by
  unfold toUChar
  congr 1
  omega

/-- The dispatch step on a dirty entry of a calibrated axis with positive
range, byte by byte: the computed value is a 7-bit value, and the step sends
the controller message and records the value exactly when it differs from the
last value sent. -/
theorem dispatchEntry_axis_bytes (m : ControlMapping) (dc : Int) (s : MappingState)
    (hmin : InLong m.calibrationMinHid) (hmax : InLong m.calibrationMaxHid)
    (haxis : m.control.isButton = false) (hcal : m.calibrationDone = true)
    (hr : 0 < axisRange m) (hdirty : s.valueChanged = true) :
    0 ≤ axisMidiVal m s.currentValue ∧ axisMidiVal m s.currentValue ≤ 127 ∧
    (axisMidiVal m s.currentValue ≠ s.lastSentMidiValue →
      dispatchEntry m dc s =
        ({ s with valueChanged := false, previousValue := s.currentValue,
                  lastSentMidiValue := axisMidiVal m s.currentValue },
          [[toUChar (Int.lor 0xB0 (GetEffectiveChannel m dc)),
            toUChar m.midiNoteOrCCNumber,
            (axisMidiVal m s.currentValue).toNat]])) ∧
    (axisMidiVal m s.currentValue = s.lastSentMidiValue →
      dispatchEntry m dc s =
        ({ s with valueChanged := false, previousValue := s.currentValue }, [])) := by
  have hb := axisMidiVal_bounds m s.currentValue hmin hmax hr
  have hd := dispatchEntry_axis m dc s haxis hcal hr hdirty
  refine ⟨hb.1, hb.2, ?_, ?_⟩
  · intro hne
    rw [hd, if_pos hne, axisMessage, toUChar_of_bounds hb.1 hb.2]
  · intro heq
    rw [hd, if_neg (not_not.mpr heq)]

/-- C1 (counterexample): with `calMin = 0`, `calMax = 254`, calibrated and
reversed, a dirty `currentValue = 253` has `127 * n + 1/2 = 1`, so the value of
the exact formula is 1; the step computes 0, records 0 and sends
`[0xB0, 0, 0]`: the quotient `253/254` is rounded to a `double`, and the sum
falls just below 1. -/
theorem reversed_254_not_exact :
    outValueExact 0 254 true 253 = 1 ∧
    axisMidiVal reversed254Example 253 = 0 ∧
    ¬ (axisMidiVal reversed254Example 253
        = outValueExact reversed254Example.calibrationMinHid
            reversed254Example.calibrationMaxHid reversed254Example.reverseAxis 253) ∧
    dispatchEntry reversed254Example 0 (MappingState.mk 253 true (-1) (-1))
      = (MappingState.mk 253 false 253 0, [[176, 0, 0]]) := by
  have hv := axisMidiVal_reversed254_253
  have he : outValueExact 0 254 true 253 = 1 := by norm_num [outValueExact]
  have hd := dispatchEntry_axis reversed254Example 0 (MappingState.mk 253 true (-1) (-1))
    rfl rfl (by decide) rfl
  have hc : (MappingState.mk 253 true (-1) (-1)).currentValue = 253 := rfl
  rw [hc, hv] at hd
  refine ⟨he, hv, ?_, ?_⟩
  · show ¬ (axisMidiVal reversed254Example 253 = outValueExact 0 254 true 253)
    rw [hv, he]
    decide
  · rw [hd]
    decide

/-- C1 (amended): for a calibrated axis mapping whose range is positive, the
dispatch step on a dirty entry computes `outValue` in `double` arithmetic
(`axisMidiVal`); the value lies in `0..127`; it is `floor (127 * n + 1/2)` of
the exact formula whenever the axis is not reversed or `127 * n + 1/2` is not a
whole number, and on a reversed axis with `127 * n + 1/2` a whole number it is
that number or the one below it; when it differs from `lastSentMidiValue` the
step sends exactly the three bytes `[0xB0 | channel, number, outValue]` and
records the value, whatever the message kind, and otherwise it sends nothing. -/
theorem axis_dispatch_double (m : ControlMapping) (dc : Int) (s : MappingState)
    (hmin : InLong m.calibrationMinHid) (hmax : InLong m.calibrationMaxHid)
    (haxis : m.control.isButton = false) (hcal : m.calibrationDone = true)
    (hr : 0 < axisRange m) (hdirty : s.valueChanged = true) :
    0 ≤ axisMidiVal m s.currentValue ∧ axisMidiVal m s.currentValue ≤ 127 ∧
    (m.reverseAxis = false ∨
      outValueScaled m.calibrationMinHid m.calibrationMaxHid m.reverseAxis s.currentValue
        ≠ (outValueExact m.calibrationMinHid m.calibrationMaxHid m.reverseAxis
            s.currentValue : ℚ) →
      axisMidiVal m s.currentValue
        = outValueExact m.calibrationMinHid m.calibrationMaxHid m.reverseAxis s.currentValue) ∧
    (axisMidiVal m s.currentValue
        = outValueExact m.calibrationMinHid m.calibrationMaxHid m.reverseAxis s.currentValue ∨
      axisMidiVal m s.currentValue
        = outValueExact m.calibrationMinHid m.calibrationMaxHid m.reverseAxis s.currentValue
          - 1) ∧
    (axisMidiVal m s.currentValue ≠ s.lastSentMidiValue →
      dispatchEntry m dc s =
        ({ s with valueChanged := false, previousValue := s.currentValue,
                  lastSentMidiValue := axisMidiVal m s.currentValue },
          [[toUChar (Int.lor 0xB0 (GetEffectiveChannel m dc)),
            toUChar m.midiNoteOrCCNumber,
            (axisMidiVal m s.currentValue).toNat]])) ∧
    (axisMidiVal m s.currentValue = s.lastSentMidiValue →
      dispatchEntry m dc s =
        ({ s with valueChanged := false, previousValue := s.currentValue }, [])) := by
  obtain ⟨h0, h1, hsend, hkeep⟩ := dispatchEntry_axis_bytes m dc s hmin hmax haxis hcal hr hdirty
  obtain ⟨hex, hcases⟩ := axisMidiVal_exact_cases m s.currentValue hmin hmax hr
  refine ⟨h0, h1, ?_, hcases, hsend, hkeep⟩
  rintro (hrev | htie)
  · exact axisMidiVal_eq_exact_forward m s.currentValue hmin hmax hr hrev
  · exact hex htie

/-- C1 (amended, witness): `calMin = 0`, `calMax = 1000`, not reversed, a dirty
`currentValue = 500` on a fresh entry: `outValue = 64`, the value of the exact
formula, and the message is `[0xB0, 0, 64]`. -/
theorem axis_dispatch_double_witness :
    axisMidiVal axisExample 500 = 64 ∧
    outValueExact 0 1000 false 500 = 64 ∧
    dispatchEntry axisExample 0 (MappingState.mk 500 true (-1) (-1))
      = (MappingState.mk 500 false 500 64, [[176, 0, 64]]) := by
  have h := axis_dispatch_double axisExample 0 (MappingState.mk 500 true (-1) (-1))
    (by decide) (by decide) rfl rfl (by decide) rfl
  have h4 := h.2.2.2.2.1
  have hc : (MappingState.mk 500 true (-1) (-1)).currentValue = 500 := rfl
  rw [hc, axisMidiVal_axisExample_500] at h4
  refine ⟨axisMidiVal_axisExample_500, by norm_num [outValueExact], ?_⟩
  rw [h4 (by decide)]
  decide

/-- The reversed example yields 64 for the raw value 500: every operation is
exact (`0.5`, `1.0 - 0.5`, `63.5`, `64.0`). -/
theorem axisMidiVal_reversed_500 (m : ControlMapping) (h1 : m.calibrationMinHid = 0)
    (h2 : m.calibrationMaxHid = 1000) (h3 : m.reverseAxis = true) :
    axisMidiVal m 500 = 64 :=
  axisMidiVal_eval_reversed m 500 (1 / 2) (1 / 2) (1 / 2) (127 / 2) 64 64 h3
    (by norm_num [axisRange, wrapLong, h1, h2])
    (roundDouble_at _ _ (-1) 4503599627370496 (by norm_num))
    (roundDouble_at _ _ (-1) 4503599627370496 (by norm_num))
    (roundDouble_at _ _ 5 8936830510563328 (by norm_num))
    (roundDouble_at _ _ 6 4503599627370496 (by norm_num))
    (by norm_num [doubleToInt])

/-- C2 (counterexample): with `calMin = 0`, `calMax = 1000`, calibrated and
reversed, a dirty `currentValue = 500` is not translated to 63: the computed
value, the recorded `lastSentMidiValue` and the message sent do not carry 63. -/
theorem reverse_500_not_63 :
    ¬ (axisMidiVal reversedAxisExample 500 = 63) ∧
    ¬ ((dispatchEntry reversedAxisExample 0 dirty500).1.lastSentMidiValue = 63) ∧
    ¬ ((dispatchEntry reversedAxisExample 0 dirty500).2 = [[176, 0, 63]]) := by
  have hv : axisMidiVal reversedAxisExample 500 = 64 :=
    axisMidiVal_reversed_500 reversedAxisExample rfl rfl rfl
  have hd := dispatchEntry_axis reversedAxisExample 0 dirty500 rfl rfl (by decide) rfl
  have hc : dirty500.currentValue = 500 := rfl
  rw [hc, hv] at hd
  rw [hd, hv]
  refine ⟨by decide, by decide, by decide⟩

/-- C2 (amended): for every axis mapping with `calMin = 0`, `calMax = 1000`,
calibrated and reversed, a dirty `currentValue = 500` is translated to
`outValue = 64`: that value is recorded as `lastSentMidiValue`, and unless it
was already the last value sent the message `[0xB0 | channel, number, 64]` is
sent. -/
theorem reverse_500_gives_64 (m : ControlMapping) (dc : Int) (s : MappingState)
    (haxis : m.control.isButton = false) (hcal : m.calibrationDone = true)
    (hmin : m.calibrationMinHid = 0) (hmax : m.calibrationMaxHid = 1000)
    (hrev : m.reverseAxis = true)
    (hcur : s.currentValue = 500) (hdirty : s.valueChanged = true) :
    axisMidiVal m s.currentValue = 64 ∧
    (dispatchEntry m dc s).1.lastSentMidiValue = 64 ∧
    (dispatchEntry m dc s).2
      = if s.lastSentMidiValue = 64 then []
        else [[toUChar (Int.lor 0xB0 (GetEffectiveChannel m dc)),
               toUChar m.midiNoteOrCCNumber, 64]] := by
  have hv : axisMidiVal m s.currentValue = 64 := by
    rw [hcur]; exact axisMidiVal_reversed_500 m hmin hmax hrev
  have hr : 0 < axisRange m := by
    simp [axisRange, wrapLong, hmin, hmax]
  have hd := dispatchEntry_axis m dc s haxis hcal hr hdirty
  rw [hv] at hd
  rw [hd]
  refine ⟨hv, ?_, ?_⟩
  · by_cases h : s.lastSentMidiValue = 64
    · simp [h]
    · simp [Ne.symm h]
  · by_cases h : s.lastSentMidiValue = 64
    · simp [h]
    · have h' : (64 : Int) ≠ s.lastSentMidiValue := Ne.symm h
      simp [h, h', axisMessage]
      decide

/-- C2 (amended, witness): the reversed example mapping on the dirty entry
holding 500. -/
theorem reverse_500_gives_64_witness :
    axisMidiVal reversedAxisExample dirty500.currentValue = 64 ∧
    (dispatchEntry reversedAxisExample 0 dirty500).1.lastSentMidiValue = 64 ∧
    (dispatchEntry reversedAxisExample 0 dirty500).2 = [[176, 0, 64]] := by
  have h := reverse_500_gives_64 reversedAxisExample 0 dirty500 rfl rfl rfl rfl rfl rfl rfl
  refine ⟨h.1, h.2.1, ?_⟩
  rw [h.2.2]
  decide

/-- C3 (behaviour of the code): from a fresh entry, a button mapping of kind
`NOTE_ON_OFF` with channel 2, note 60, velocity 100 and the raw values
`0,0,1,1,0`, each followed by a dispatch pass, sends one message only, the
Note-Off `[0x82, 60, 0]`: the press is not an edge against the initial
`previousValue = -1`. -/
theorem button_sequence_sends_only_note_off (dc : Int) :
    (runSamples noteButtonExample dc {} [0, 0, 1, 1, 0]).2 = [[0x82, 60, 0]] ∧
    (runSamples noteButtonExample dc {} [0, 0, 1]).2 = [] := by
  constructor
  · simp [runSamples, observeThenDispatch, observe, dispatchEntry, exchangeValueChanged,
      buttonMessage, GetEffectiveChannel, noteButtonExample]
    decide
  · simp [runSamples, observeThenDispatch, observe, dispatchEntry, exchangeValueChanged,
      buttonMessage, GetEffectiveChannel, noteButtonExample]

/-- The two outcomes of the test `x != 0`. -/
theorem bne_zero_cases (x : Int) :
    (x = 0 ∧ (x != 0) = false) ∨ (x ≠ 0 ∧ (x != 0) = true) := by
  by_cases h : x = 0
  · left; exact ⟨h, by simp [h]⟩
  · right; exact ⟨h, by simp [h]⟩

/-- The dispatch step on a dirty entry of a button mapping. -/
theorem dispatchEntry_button (m : ControlMapping) (dc : Int) (s : MappingState)
    (hbutton : m.control.isButton = true) (hdirty : s.valueChanged = true) :
    dispatchEntry m dc s =
      ({ s with valueChanged := false, previousValue := s.currentValue },
        if (s.currentValue != 0) != (s.previousValue != 0) then
          [buttonMessage m (GetEffectiveChannel m dc) (s.currentValue != 0)]
        else []) := by
  simp only [dispatchEntry, exchangeValueChanged, hdirty, hbutton]
  by_cases h : ((s.currentValue != 0) != (s.previousValue != 0)) = true
  · simp only [h, if_true]
    have hne : (buttonMessage m (GetEffectiveChannel m dc) (s.currentValue != 0)).isEmpty
        = false := by
      unfold buttonMessage
      split_ifs <;> rfl
    simp [hne]
  · simp [h]

/-- C4: for every button mapping and every dirty entry, the dispatch step sends
a message if and only if `currentValue != 0` differs from `previousValue != 0`;
and it sends at most one. In particular a change between two non-zero raw
values sends nothing. -/
theorem button_sends_iff_edge (m : ControlMapping) (dc : Int) (s : MappingState)
    (hbutton : m.control.isButton = true) (hdirty : s.valueChanged = true) :
    ((dispatchEntry m dc s).2 ≠ [] ↔ ¬ (s.currentValue ≠ 0 ↔ s.previousValue ≠ 0)) ∧
    (dispatchEntry m dc s).2.length ≤ 1 ∧
    (s.currentValue ≠ 0 → s.previousValue ≠ 0 → (dispatchEntry m dc s).2 = []) := by
  rw [dispatchEntry_button m dc s hbutton hdirty]
  rcases bne_zero_cases s.currentValue with ⟨hc, hcb⟩ | ⟨hc, hcb⟩ <;>
    rcases bne_zero_cases s.previousValue with ⟨hp, hpb⟩ | ⟨hp, hpb⟩ <;>
    simp [hc, hp, hcb, hpb]

/-- C4 (witness): a button entry going from raw value 1 to raw value 2 sends
nothing, and one going from 0 to 2 sends a message. -/
theorem button_sends_iff_edge_witness :
    (dispatchEntry noteButtonExample 0
        { currentValue := 2, valueChanged := true, previousValue := 1 }).2 = [] ∧
    (dispatchEntry noteButtonExample 0
        { currentValue := 2, valueChanged := true, previousValue := 0 }).2 ≠ [] := by
  have h1 := button_sends_iff_edge noteButtonExample 0
    { currentValue := 2, valueChanged := true, previousValue := 1 } rfl rfl
  have h2 := button_sends_iff_edge noteButtonExample 0
    { currentValue := 2, valueChanged := true, previousValue := 0 } rfl rfl
  exact ⟨h1.2.2 (by decide) (by decide), h2.1.mpr (by decide)⟩

/-- C5: on a button edge the dispatch step sends exactly one message of three
bytes, each the `int` value reduced modulo 256, with the effective channel:
for `NOTE_ON_OFF`, `[0x90 | channel, number, velocity]` on a rising edge and
`[0x80 | channel, number, 0]` on a falling edge; for `CC`,
`[0xB0 | channel, number, onValue]` on a rising edge and
`[0xB0 | channel, number, offValue]` on a falling edge. -/
theorem button_edge_message (m : ControlMapping) (dc : Int) (s : MappingState)
    (hbutton : m.control.isButton = true) (hdirty : s.valueChanged = true)
    (hedge : ¬ (s.currentValue ≠ 0 ↔ s.previousValue ≠ 0)) :
    (m.midiMessageType = MidiMessageType.NOTE_ON_OFF → s.currentValue ≠ 0 →
      (dispatchEntry m dc s).2 =
        [[(Int.lor 0x90 (GetEffectiveChannel m dc) % 256).toNat,
          (m.midiNoteOrCCNumber % 256).toNat,
          (m.midiValueNoteOnVelocity % 256).toNat]]) ∧
    (m.midiMessageType = MidiMessageType.NOTE_ON_OFF → s.currentValue = 0 →
      (dispatchEntry m dc s).2 =
        [[(Int.lor 0x80 (GetEffectiveChannel m dc) % 256).toNat,
          (m.midiNoteOrCCNumber % 256).toNat,
          0]]) ∧
    (m.midiMessageType = MidiMessageType.CC → s.currentValue ≠ 0 →
      (dispatchEntry m dc s).2 =
        [[(Int.lor 0xB0 (GetEffectiveChannel m dc) % 256).toNat,
          (m.midiNoteOrCCNumber % 256).toNat,
          (m.midiValueCCOn % 256).toNat]]) ∧
    (m.midiMessageType = MidiMessageType.CC → s.currentValue = 0 →
      (dispatchEntry m dc s).2 =
        [[(Int.lor 0xB0 (GetEffectiveChannel m dc) % 256).toNat,
          (m.midiNoteOrCCNumber % 256).toNat,
          (m.midiValueCCOff % 256).toNat]]) := by
  rw [dispatchEntry_button m dc s hbutton hdirty]
  have hb : ((s.currentValue != 0) != (s.previousValue != 0)) = true := by
    rcases bne_zero_cases s.currentValue with ⟨hc, hcb⟩ | ⟨hc, hcb⟩ <;>
      rcases bne_zero_cases s.previousValue with ⟨hp, hpb⟩ | ⟨hp, hpb⟩ <;>
      simp [hc, hp, hcb, hpb] at hedge ⊢
  rw [if_pos hb]
  refine ⟨?_, ?_, ?_, ?_⟩
  · intro hk hc
    simp [buttonMessage, hk, hc, toUChar]
  · intro hk hc
    simp [buttonMessage, hk, hc, toUChar]
  · intro hk hc
    simp [buttonMessage, hk, hc, toUChar]
  · intro hk hc
    simp [buttonMessage, hk, hc, toUChar]

/-- C5 (witness): the four messages on concrete mappings: Note-On and Note-Off
on channel 2 for note 60 with velocity 100, and controller 7 on channel 0 with
values 127 and 0. -/
theorem button_edge_message_witness :
    (dispatchEntry noteButtonExample 0
        { currentValue := 1, valueChanged := true, previousValue := 0 }).2
      = [[0x92, 60, 100]] ∧
    (dispatchEntry noteButtonExample 0
        { currentValue := 0, valueChanged := true, previousValue := 1 }).2
      = [[0x82, 60, 0]] ∧
    (dispatchEntry ccButtonExample 0
        { currentValue := 1, valueChanged := true, previousValue := 0 }).2
      = [[0xB0, 7, 127]] ∧
    (dispatchEntry ccButtonExample 0
        { currentValue := 0, valueChanged := true, previousValue := 1 }).2
      = [[0xB0, 7, 0]] := by
  have h1 := (button_edge_message noteButtonExample 0
    { currentValue := 1, valueChanged := true, previousValue := 0 } rfl rfl (by decide)).1
    rfl (by decide)
  have h2 := (button_edge_message noteButtonExample 0
    { currentValue := 0, valueChanged := true, previousValue := 1 } rfl rfl (by decide)).2.1
    rfl rfl
  have h3 := (button_edge_message ccButtonExample 0
    { currentValue := 1, valueChanged := true, previousValue := 0 } rfl rfl (by decide)).2.2.1
    rfl (by decide)
  have h4 := (button_edge_message ccButtonExample 0
    { currentValue := 0, valueChanged := true, previousValue := 1 } rfl rfl (by decide)).2.2.2
    rfl rfl
  refine ⟨?_, ?_, ?_, ?_⟩
  · rw [h1]; decide
  · rw [h2]; decide
  · rw [h3]; decide
  · rw [h4]; decide

/-- After `observe` the entry holds the raw value. -/
theorem observe_currentValue (s : MappingState) (v : Int) :
    (observe s v).currentValue = v := by
  unfold observe
  split_ifs with h
  · rfl
  · exact (not_not.mp h).symm

/-- Function `observe` never touches `previousValue`. -/
theorem observe_previousValue (s : MappingState) (v : Int) :
    (observe s v).previousValue = s.previousValue := by
  unfold observe
  split_ifs <;> rfl

/-- Function `observe` never touches `lastSentMidiValue`. -/
theorem observe_lastSentMidiValue (s : MappingState) (v : Int) :
    (observe s v).lastSentMidiValue = s.lastSentMidiValue := by
  unfold observe
  split_ifs <;> rfl

/-- The flag after `observe`. -/
theorem observe_valueChanged (s : MappingState) (v : Int) :
    (observe s v).valueChanged = (s.valueChanged || (v != s.currentValue)) := by
  unfold observe
  split_ifs with h
  · simp [h]
  · have h' : v = s.currentValue := not_not.mp h
    simp [h']

/-- The flag after a sequence of `observe` calls: set when it was set before
or when some value differs from the value stored before the sequence. -/
theorem observeAll_valueChanged (vs : List Int) (s : MappingState) :
    (observeAll s vs).valueChanged
      = (s.valueChanged || vs.any (fun v => v != s.currentValue)) := by
  induction vs generalizing s with
  | nil => simp [observeAll]
  | cons v vs ih =>
    have hstep : observeAll s (v :: vs) = observeAll (observe s v) vs := rfl
    rw [hstep, ih, observe_valueChanged, observe_currentValue]
    by_cases h : v = s.currentValue
    · subst h
      simp
    · have hb : (v != s.currentValue) = true := by simp [h]
      simp [hb]

/-- The value stored after a non-empty sequence of `observe` calls is the last
one. -/
theorem observeAll_append_currentValue (s : MappingState) (vs : List Int) (vn : Int) :
    (observeAll s (vs ++ [vn])).currentValue = vn := by
  unfold observeAll
  rw [List.foldl_append]
  exact observe_currentValue _ _

/-- C6 (counterexample): on a fresh entry, `observe` of the single value 0
followed by `takeIfDirty` returns no value, not the value 0. -/
theorem observe_same_value_take_none :
    (takeIfDirty (observeAll {} [0])).2 = none ∧
    ¬ ((takeIfDirty (observeAll {} [0])).2 = some 0) := by
  decide

/-- C6 (amended): for every entry and every non-empty sequence `v1..vn` of
`observe` calls, the following `takeIfDirty` returns `vn` when the entry was
dirty before the sequence or some `vi` differs from the value stored before
the sequence; when the entry was clean and every `vi` equals the stored value
it returns no value. In both cases the entry holds `vn` and is clean
afterwards. -/
theorem observeAll_takeIfDirty (s : MappingState) (vs : List Int) (vn : Int) :
    (takeIfDirty (observeAll s (vs ++ [vn]))).2
      = (if s.valueChanged = true ∨ ∃ v ∈ vs ++ [vn], v ≠ s.currentValue
          then some vn else none) ∧
    (takeIfDirty (observeAll s (vs ++ [vn]))).1.currentValue = vn ∧
    (takeIfDirty (observeAll s (vs ++ [vn]))).1.valueChanged = false := by
  have hcur := observeAll_append_currentValue s vs vn
  have hflag := observeAll_valueChanged (vs ++ [vn]) s
  refine ⟨?_, ?_, ?_⟩
  · by_cases hd : s.valueChanged = true ∨ ∃ v ∈ vs ++ [vn], v ≠ s.currentValue
    · have ht : (observeAll s (vs ++ [vn])).valueChanged = true := by
        rw [hflag]
        rcases hd with hd | ⟨v, hv, hne⟩
        · simp [hd]
        · rw [Bool.or_eq_true]
          right
          rw [List.any_eq_true]
          exact ⟨v, hv, by simp [hne]⟩
      rw [if_pos hd]
      simp [takeIfDirty, exchangeValueChanged, ht, hcur]
    · have hf : (observeAll s (vs ++ [vn])).valueChanged = false := by
        rw [hflag]
        push_neg at hd
        obtain ⟨hd1, hd2⟩ := hd
        rw [Bool.or_eq_false_iff]
        refine ⟨by simpa using hd1, ?_⟩
        rw [List.any_eq_false]
        intro v hv
        simp [hd2 v hv]
      rw [if_neg hd]
      simp [takeIfDirty, exchangeValueChanged, hf]
  · by_cases ht : (observeAll s (vs ++ [vn])).valueChanged = true
    · simp [takeIfDirty, exchangeValueChanged, ht, hcur]
    · simp [takeIfDirty, exchangeValueChanged, ht, hcur]
  · by_cases ht : (observeAll s (vs ++ [vn])).valueChanged = true
    · simp [takeIfDirty, exchangeValueChanged, ht]
    · simp [takeIfDirty, exchangeValueChanged, ht]

/-- C7: `observe` with a raw value that differs from `currentValue` stores the
value and sets the flag, leaving `previousValue` and `lastSentMidiValue`
alone; with a raw value equal to `currentValue` it leaves the entry exactly as
it was; in both cases `currentValue` is the raw value afterwards. -/
theorem observe_spec (s : MappingState) (v : Int) :
    (v ≠ s.currentValue →
      observe s v = { s with currentValue := v, valueChanged := true }) ∧
    (v = s.currentValue → observe s v = s) ∧
    (observe s v).currentValue = v ∧
    (observe s v).previousValue = s.previousValue ∧
    (observe s v).lastSentMidiValue = s.lastSentMidiValue := by
  refine ⟨?_, ?_, observe_currentValue s v, observe_previousValue s v,
    observe_lastSentMidiValue s v⟩
  · intro h
    simp [observe, h]
  · intro h
    simp [observe, h]

/-- C7 (witness): on a fresh entry, `observe` of 5 stores 5 and sets the flag,
and `observe` of 0 changes nothing. -/
theorem observe_spec_witness :
    observe {} 5 = { currentValue := 5, valueChanged := true } ∧
    observe {} 0 = {} := by
  have h5 := (observe_spec {} 5).1 (by decide)
  have h0 := (observe_spec {} 0).2.1 rfl
  exact ⟨h5, h0⟩

/-- C8: after one dispatch step on an entry the flag is clear, so a second
step on the same entry with no `observe` in between takes no value, sends no
message and leaves the entry unchanged. -/
theorem dispatch_twice (m : ControlMapping) (dc : Int) (s : MappingState) :
    (dispatchEntry m dc s).1.valueChanged = false ∧
    (takeIfDirty (dispatchEntry m dc s).1).2 = none ∧
    dispatchEntry m dc (dispatchEntry m dc s).1 = ((dispatchEntry m dc s).1, []) := by
  have hclear : (dispatchEntry m dc s).1.valueChanged = false := by
    unfold dispatchEntry exchangeValueChanged
    simp only
    split_ifs <;> simp_all
  refine ⟨hclear, ?_, ?_⟩
  · simp [takeIfDirty, exchangeValueChanged, hclear]
  · generalize (dispatchEntry m dc s).1 = s1 at hclear
    cases s1
    simp only at hclear
    simp [dispatchEntry, exchangeValueChanged, hclear]

/-- C9: from a fresh entry of a calibrated axis mapping with positive range,
two `observe` calls with values `a` then `b`, at least one of which changes the
stored value (the fresh entry stores 0 and stores `a` after the first call, so
`a ≠ 0` or `b ≠ a`), followed by one dispatch step send exactly one message,
whose value byte is the value computed from `b`, a value in `0..127`; nothing
in the message or in the entry left behind depends on `a`. -/
theorem coalesced_axis_message (m : ControlMapping) (dc : Int) (a b : Int)
    (hmin : InLong m.calibrationMinHid) (hmax : InLong m.calibrationMaxHid)
    (haxis : m.control.isButton = false) (hcal : m.calibrationDone = true)
    (hr : 0 < axisRange m)
    (hchange : a ≠ 0 ∨ b ≠ a) :
    (dispatchEntry m dc (observe (observe {} a) b)).2 =
      [[toUChar (Int.lor 0xB0 (GetEffectiveChannel m dc)),
        toUChar m.midiNoteOrCCNumber,
        (axisMidiVal m b).toNat]] ∧
    (dispatchEntry m dc (observe (observe {} a) b)).1 =
      { currentValue := b, valueChanged := false, previousValue := b,
        lastSentMidiValue := axisMidiVal m b } ∧
    0 ≤ axisMidiVal m b ∧ axisMidiVal m b ≤ 127 := by
  have hcur : (observe (observe {} a) b).currentValue = b := observe_currentValue _ _
  have hlast : (observe (observe {} a) b).lastSentMidiValue = -1 := by
    rw [observe_lastSentMidiValue, observe_lastSentMidiValue]
  have hprev : (observe (observe {} a) b).previousValue = -1 := by
    rw [observe_previousValue, observe_previousValue]
  have hdirty : (observe (observe {} a) b).valueChanged = true := by
    rw [observe_valueChanged, observe_valueChanged, observe_currentValue]
    rcases hchange with h | h
    · have hb : (a != ({} : MappingState).currentValue) = true := by
        simpa using h
      simp [hb]
    · have hb : (b != a) = true := by simp [h]
      simp [hb]
  have h := dispatchEntry_axis_bytes m dc (observe (observe {} a) b) hmin hmax haxis hcal hr
    hdirty
  rw [hcur, hlast] at h
  obtain ⟨h0, h1, hsend, _⟩ := h
  have hne : axisMidiVal m b ≠ -1 := by
    omega
  rw [hsend hne]
  refine ⟨rfl, ?_, h0, h1⟩
  generalize observe (observe {} a) b = s2 at hcur hlast hprev hdirty
  cases s2
  simp only at hcur hlast hprev hdirty
  simp [hcur]

/-- C9 (witness): on the example axis, `observe 300` then `observe 500` and one
dispatch step send the single message `[0xB0, 0, 64]`, the message of 500. -/
theorem coalesced_axis_message_witness :
    (dispatchEntry axisExample 0 (observe (observe {} 300) 500)).2 = [[176, 0, 64]] := by
  have h := (coalesced_axis_message axisExample 0 300 500 (by decide) (by decide) rfl rfl
    (by decide) (Or.inl (by decide))).1
  rw [h, axisMidiVal_axisExample_500]
  decide

/-- C10: for a calibrated axis with positive range, the dispatch step on a
dirty entry sends a message if and only if the computed value differs from
`lastSentMidiValue`; `lastSentMidiValue` becomes the computed value when a
message is sent and is unchanged otherwise. Consequently, from a fresh entry,
two consecutive dirty updates `a` then `b`, each followed by a dispatch step,
whose computed values agree send exactly one message. -/
theorem axis_dedup (m : ControlMapping) (dc : Int)
    (hmin : InLong m.calibrationMinHid) (hmax : InLong m.calibrationMaxHid)
    (haxis : m.control.isButton = false) (hcal : m.calibrationDone = true)
    (hr : 0 < axisRange m) :
    (∀ s : MappingState, s.valueChanged = true →
      ((dispatchEntry m dc s).2 ≠ [] ↔ axisMidiVal m s.currentValue ≠ s.lastSentMidiValue) ∧
      ((dispatchEntry m dc s).2 ≠ [] →
        (dispatchEntry m dc s).1.lastSentMidiValue = axisMidiVal m s.currentValue) ∧
      ((dispatchEntry m dc s).2 = [] →
        (dispatchEntry m dc s).1.lastSentMidiValue = s.lastSentMidiValue) ∧
      (dispatchEntry m dc s).2.length ≤ 1) ∧
    (∀ a b : Int, a ≠ 0 → b ≠ a → axisMidiVal m a = axisMidiVal m b →
      (runSamples m dc {} [a, b]).2 =
        [axisMessage m (GetEffectiveChannel m dc) (axisMidiVal m a)]) := by
  have hstep : ∀ s : MappingState, s.valueChanged = true →
      ((dispatchEntry m dc s).2 ≠ [] ↔ axisMidiVal m s.currentValue ≠ s.lastSentMidiValue) ∧
      ((dispatchEntry m dc s).2 ≠ [] →
        (dispatchEntry m dc s).1.lastSentMidiValue = axisMidiVal m s.currentValue) ∧
      ((dispatchEntry m dc s).2 = [] →
        (dispatchEntry m dc s).1.lastSentMidiValue = s.lastSentMidiValue) ∧
      (dispatchEntry m dc s).2.length ≤ 1 := by
    intro s hdirty
    rw [dispatchEntry_axis m dc s haxis hcal hr hdirty]
    by_cases h : axisMidiVal m s.currentValue = s.lastSentMidiValue
    · simp [h]
    · simp [h]
  refine ⟨hstep, ?_⟩
  intro a b ha hb hsame
  have hba := axisMidiVal_bounds m a hmin hmax hr
  have hs1 : observe ({} : MappingState) a = MappingState.mk a true (-1) (-1) := by
    simp [observe, ha]
  have hd1 := dispatchEntry_axis m dc (MappingState.mk a true (-1) (-1)) haxis hcal hr rfl
  have hne1 : axisMidiVal m a ≠ -1 := by omega
  simp only [if_pos hne1] at hd1
  have hs2 : observe (MappingState.mk a false a (axisMidiVal m a)) b
      = MappingState.mk b true a (axisMidiVal m a) := by
    simp [observe, hb]
  have hd2 := dispatchEntry_axis m dc (MappingState.mk b true a (axisMidiVal m a))
    haxis hcal hr rfl
  have hnn : ¬ (axisMidiVal m b ≠ axisMidiVal m a) := by
    rw [hsame]; exact fun h => h rfl
  simp only [if_neg hnn] at hd2
  simp only [runSamples, List.foldl, observeThenDispatch]
  rw [hs1, hd1]
  simp only
  rw [hs2, hd2]
  simp

/-- C10 (witness): on the example axis the raw values 498 and 499 both give 63,
and the two updates send the single message `[0xB0, 0, 63]`. -/
theorem axis_dedup_witness :
    (runSamples axisExample 0 {} [498, 499]).2 = [[176, 0, 63]] := by
  have h := (axis_dedup axisExample 0 (by decide) (by decide) rfl rfl (by decide)).2
    498 499 (by decide) (by decide)
    (by rw [axisMidiVal_axisExample_498, axisMidiVal_axisExample_499])
  rw [h, axisMidiVal_axisExample_498]
  decide

/-- The dedup compares the values the step computes: on the reversed axis
`[0, 254]` the raw values 252 and 253 have the same value 1 of the exact
formula, but the step computes 1 and then 0 and sends two messages. -/
theorem reversed_254_sends_twice :
    outValueExact 0 254 true 252 = outValueExact 0 254 true 253 ∧
    (runSamples reversed254Example 0 {} [252, 253]).2 = [[176, 0, 1], [176, 0, 0]] := by
  constructor
  · norm_num [outValueExact]
  · have hs1 : observe ({} : MappingState) 252 = MappingState.mk 252 true (-1) (-1) := by
      decide
    have hd1 := dispatchEntry_axis reversed254Example 0 (MappingState.mk 252 true (-1) (-1))
      rfl rfl (by decide) rfl
    have hc1 : (MappingState.mk 252 true (-1) (-1)).currentValue = 252 := rfl
    rw [hc1, axisMidiVal_reversed254_252, if_pos (by decide)] at hd1
    have hs2 : observe (MappingState.mk 252 false 252 1) 253
        = MappingState.mk 253 true 252 1 := by
      decide
    have hd2 := dispatchEntry_axis reversed254Example 0 (MappingState.mk 253 true 252 1)
      rfl rfl (by decide) rfl
    have hc2 : (MappingState.mk 253 true 252 1).currentValue = 253 := rfl
    rw [hc2, axisMidiVal_reversed254_253, if_pos (by decide)] at hd2
    simp only [runSamples, List.foldl, observeThenDispatch]
    rw [hs1, hd1]
    simp only
    rw [hs2, hd2]
    decide

/-! ## Axes that never send -/

/-- The dispatch step sends nothing and keeps `lastSentMidiValue` for an axis
that is not calibrated or whose computed range is not positive. -/
theorem dispatchEntry_axis_silent (m : ControlMapping) (dc : Int) (s : MappingState)
    (haxis : m.control.isButton = false)
    (h : m.calibrationDone = false ∨ axisRange m ≤ 0) :
    (dispatchEntry m dc s).2 = [] ∧
    (dispatchEntry m dc s).1.lastSentMidiValue = s.lastSentMidiValue := by
  unfold dispatchEntry exchangeValueChanged
  cases hd : s.valueChanged
  · simp
  · rcases h with h | h
    · simp [haxis, h]
    · have hr : ¬ (axisRange m > 0) := not_lt.mpr h
      simp only [haxis, hr]
      cases m.calibrationDone <;> simp

/-- No sequence of steps on an entry of such an axis sends a message or changes
`lastSentMidiValue`. -/
theorem foldl_applyEntryOp_silent (m : ControlMapping)
    (haxis : m.control.isButton = false)
    (h : m.calibrationDone = false ∨ axisRange m ≤ 0) (ops : List EntryOp) :
    ∀ (s : MappingState) (sent : List Message),
      (ops.foldl (applyEntryOp m) (s, sent)).2 = sent ∧
      (ops.foldl (applyEntryOp m) (s, sent)).1.lastSentMidiValue = s.lastSentMidiValue := by
  induction ops with
  | nil => intro s sent; exact ⟨rfl, rfl⟩
  | cons op ops ih =>
    intro s sent
    cases op with
    | observe v =>
      have hstep := ih (observe s v) sent
      simp only [List.foldl, applyEntryOp]
      exact ⟨hstep.1, hstep.2.trans (observe_lastSentMidiValue s v)⟩
    | dispatch dc =>
      obtain ⟨h1, h2⟩ := dispatchEntry_axis_silent m dc s haxis h
      have hstep := ih (dispatchEntry m dc s).1 (sent ++ (dispatchEntry m dc s).2)
      simp only [List.foldl, applyEntryOp]
      rw [h1, List.append_nil] at hstep
      rw [h1, List.append_nil]
      exact ⟨hstep.1, hstep.2.trans h2⟩

/-- Equal calibration bounds give the range zero. -/
theorem axisRange_of_eq (m : ControlMapping)
    (h : m.calibrationMinHid = m.calibrationMaxHid) : axisRange m = 0 := by
  unfold axisRange wrapLong
  rw [h]
  simp

/-- C11: for an axis mapping with `calMin = calMax`, and more generally whenever
the range `calMax - calMin` is not positive (as the 32-bit value the code
computes, or as the true difference when that is representable), no sequence
of `observe` and dispatch steps, from any entry state, with any input values
and any default channels, sends a message, and `lastSentMidiValue` keeps its
value. -/
theorem degenerate_axis_never_sends (m : ControlMapping) (s : MappingState)
    (ops : List EntryOp) (haxis : m.control.isButton = false)
    (hdeg : m.calibrationMinHid = m.calibrationMaxHid ∨ axisRange m ≤ 0 ∨
      (InLong (m.calibrationMaxHid - m.calibrationMinHid) ∧
        m.calibrationMaxHid - m.calibrationMinHid ≤ 0)) :
    (runEntryOps m s ops).2 = [] ∧
    (runEntryOps m s ops).1.lastSentMidiValue = s.lastSentMidiValue ∧
    (∀ dc : Int, (dispatchEntry m dc s).2 = [] ∧
      (dispatchEntry m dc s).1.lastSentMidiValue = s.lastSentMidiValue) := by
  have hr : axisRange m ≤ 0 := by
    rcases hdeg with h | h | ⟨h1, h2⟩
    · exact le_of_eq (axisRange_of_eq m h)
    · exact h
    · unfold axisRange
      rw [wrapLong_of_inLong h1]
      exact h2
  exact ⟨(foldl_applyEntryOp_silent m haxis (Or.inr hr) ops s []).1,
    (foldl_applyEntryOp_silent m haxis (Or.inr hr) ops s []).2,
    fun dc => dispatchEntry_axis_silent m dc s haxis (Or.inr hr)⟩

/-- C11 (witness): with `calMin = calMax = 5` on a fresh entry, the values 3 and
9, each followed by a dispatch pass, send nothing and leave
`lastSentMidiValue = -1`. -/
theorem degenerate_axis_never_sends_witness :
    (runEntryOps degenerateAxisExample {}
      [EntryOp.observe 3, EntryOp.dispatch 0, EntryOp.observe 9, EntryOp.dispatch 0]).2 = [] ∧
    (runEntryOps degenerateAxisExample {}
      [EntryOp.observe 3, EntryOp.dispatch 0, EntryOp.observe 9,
        EntryOp.dispatch 0]).1.lastSentMidiValue = -1 := by
  have h := degenerate_axis_never_sends degenerateAxisExample {}
    [EntryOp.observe 3, EntryOp.dispatch 0, EntryOp.observe 9, EntryOp.dispatch 0]
    rfl (Or.inl rfl)
  exact ⟨h.1, h.2.1⟩

/-- C12: for an axis mapping with `calibrationDone = false`, whatever its
bounds, reverse flag and the input values, no sequence of `observe` and
dispatch steps sends a message, and `lastSentMidiValue` keeps its value. -/
theorem uncalibrated_axis_never_sends (m : ControlMapping) (s : MappingState)
    (ops : List EntryOp) (haxis : m.control.isButton = false)
    (hcal : m.calibrationDone = false) :
    (∀ dc : Int, (dispatchEntry m dc s).2 = [] ∧
      (dispatchEntry m dc s).1.lastSentMidiValue = s.lastSentMidiValue) ∧
    (runEntryOps m s ops).2 = [] ∧
    (runEntryOps m s ops).1.lastSentMidiValue = s.lastSentMidiValue :=
  ⟨fun dc => dispatchEntry_axis_silent m dc s haxis (Or.inl hcal),
    foldl_applyEntryOp_silent m haxis (Or.inl hcal) ops s []⟩

/-- C12 (witness): bounds `[0, 1000]` but not calibrated: the value 500 followed
by a dispatch pass sends nothing. -/
theorem uncalibrated_axis_never_sends_witness :
    (runEntryOps uncalibratedAxisExample {}
      [EntryOp.observe 500, EntryOp.dispatch 0]).2 = [] ∧
    (runEntryOps uncalibratedAxisExample {}
      [EntryOp.observe 500, EntryOp.dispatch 0]).1.lastSentMidiValue = -1 :=
  (uncalibrated_axis_never_sends uncalibratedAxisExample {}
    [EntryOp.observe 500, EntryOp.dispatch 0] rfl rfl).2

/-! ## Calibration -/

/-- The running minimum is below the seed and below every sample, and is the
seed or one of the samples. -/
theorem foldl_min_spec (samples : List Int) :
    ∀ seed : Int,
      samples.foldl (fun e c => min e c) seed ≤ seed ∧
      (∀ s ∈ samples, samples.foldl (fun e c => min e c) seed ≤ s) ∧
      (samples.foldl (fun e c => min e c) seed = seed ∨
        samples.foldl (fun e c => min e c) seed ∈ samples) := by
  induction samples with
  | nil => intro seed; simp
  | cons x xs ih =>
    intro seed
    obtain ⟨h1, h2, h3⟩ := ih (min seed x)
    simp only [List.foldl]
    refine ⟨le_trans h1 (min_le_left _ _), ?_, ?_⟩
    · intro s hs
      rcases List.mem_cons.mp hs with rfl | hs
      · exact le_trans h1 (min_le_right _ _)
      · exact h2 s hs
    · rcases h3 with h3 | h3
      · rcases min_choice seed x with hm | hm
        · left; rw [h3, hm]
        · right; rw [h3, hm]; exact List.mem_cons_self _ _
      · right; exact List.mem_cons_of_mem _ h3

/-- The running maximum is above the seed and above every sample, and is the
seed or one of the samples. -/
theorem foldl_max_spec (samples : List Int) :
    ∀ seed : Int,
      seed ≤ samples.foldl (fun e c => max e c) seed ∧
      (∀ s ∈ samples, s ≤ samples.foldl (fun e c => max e c) seed) ∧
      (samples.foldl (fun e c => max e c) seed = seed ∨
        samples.foldl (fun e c => max e c) seed ∈ samples) := by
  induction samples with
  | nil => intro seed; simp
  | cons x xs ih =>
    intro seed
    obtain ⟨h1, h2, h3⟩ := ih (max seed x)
    simp only [List.foldl]
    refine ⟨le_trans (le_max_left _ _) h1, ?_, ?_⟩
    · intro s hs
      rcases List.mem_cons.mp hs with rfl | hs
      · exact le_trans (le_max_right _ _) h1
      · exact h2 s hs
    · rcases h3 with h3 | h3
      · rcases max_choice seed x with hm | hm
        · left; rw [h3, hm]
        · right; rw [h3, hm]; exact List.mem_cons_self _ _
      · right; exact List.mem_cons_of_mem _ h3

/-- The minimum capture is the running minimum seeded with the largest
`LONG`. -/
theorem capture_hold_value_min (samples : List Int) :
    capture_hold_value true samples = samples.foldl (fun e c => min e c) 2147483647 := by
  simp [capture_hold_value]

/-- The maximum capture is the running maximum seeded with the smallest
`LONG`. -/
theorem capture_hold_value_max (samples : List Int) :
    capture_hold_value false samples = samples.foldl (fun e c => max e c) (-2147483648) := by
  simp [capture_hold_value]

/-- What `PerformCalibration` does for an axis mapping at a valid index. -/
theorem PerformCalibration_axis (g : Globals) (i : Nat) (minSamples maxSamples : List Int)
    (mapping : ControlMapping) (hs : i < g.g_mappingStates.length)
    (hget : g.g_currentConfig.mappings.get? i = some mapping)
    (haxis : mapping.control.isButton = false) :
    PerformCalibration g i minSamples maxSamples =
      (true, withMappings g (g.g_currentConfig.mappings.set i
        { mapping with
          calibrationMinHid :=
            min (capture_hold_value true minSamples) (capture_hold_value false maxSamples),
          calibrationMaxHid :=
            max (capture_hold_value true minSamples) (capture_hold_value false maxSamples),
          calibrationDone := true })) := by
  have hi : i < g.g_currentConfig.mappings.length := by
    rcases Nat.lt_or_ge i g.g_currentConfig.mappings.length with h | h
    · exact h
    · rw [List.get?_eq_none.mpr h] at hget
      exact absurd hget (by simp)
  have hguard : ¬ (i ≥ g.g_currentConfig.mappings.length ∨ i ≥ g.g_mappingStates.length) := by
    omega
  unfold PerformCalibration
  rw [if_neg hguard, hget]
  simp only [haxis]
  by_cases hgt : capture_hold_value true minSamples > capture_hold_value false maxSamples
  · have h1 : min (capture_hold_value true minSamples) (capture_hold_value false maxSamples)
        = capture_hold_value false maxSamples := min_eq_right (le_of_lt hgt)
    have h2 : max (capture_hold_value true minSamples) (capture_hold_value false maxSamples)
        = capture_hold_value true minSamples := max_eq_left (le_of_lt hgt)
    simp [hgt, h1, h2]
  · have hle : capture_hold_value true minSamples ≤ capture_hold_value false maxSamples :=
      not_lt.mp hgt
    have h1 : min (capture_hold_value true minSamples) (capture_hold_value false maxSamples)
        = capture_hold_value true minSamples := min_eq_left hle
    have h2 : max (capture_hold_value true minSamples) (capture_hold_value false maxSamples)
        = capture_hold_value false maxSamples := max_eq_right hle
    simp [hgt, h1, h2]

/-- C13: for an axis mapping at a valid index, if the minimum capture yields
`m` and the maximum capture yields `M`, `PerformCalibration` returns success
and leaves the mapping with `calMin = min m M`, `calMax = max m M` and
`calibrationDone = true`, every other field and everything else unchanged. -/
theorem calibration_orders_bounds (g : Globals) (i : Nat) (minSamples maxSamples : List Int)
    (mapping : ControlMapping) (hs : i < g.g_mappingStates.length)
    (hget : g.g_currentConfig.mappings.get? i = some mapping)
    (haxis : mapping.control.isButton = false) :
    (PerformCalibration g i minSamples maxSamples).1 = true ∧
    (PerformCalibration g i minSamples maxSamples).2.g_currentConfig.mappings.get? i =
      some { mapping with
        calibrationMinHid :=
          min (capture_hold_value true minSamples) (capture_hold_value false maxSamples),
        calibrationMaxHid :=
          max (capture_hold_value true minSamples) (capture_hold_value false maxSamples),
        calibrationDone := true } := by
  rw [PerformCalibration_axis g i minSamples maxSamples mapping hs hget haxis]
  refine ⟨rfl, ?_⟩
  have hi : i < g.g_currentConfig.mappings.length := by
    rcases Nat.lt_or_ge i g.g_currentConfig.mappings.length with h | h
    · exact h
    · rw [List.get?_eq_none.mpr h] at hget
      exact absurd hget (by simp)
  simp [withMappings, hi]

/-- C13 (witness): a minimum capture of 80 and a maximum capture of 20 give
`calMin = 20`, `calMax = 80`, `calibrationDone = true`. -/
theorem calibration_orders_bounds_witness :
    capture_hold_value true [80] = 80 ∧ capture_hold_value false [20] = 20 ∧
    (PerformCalibration oneAxisGlobals 0 [80] [20]).1 = true ∧
    (PerformCalibration oneAxisGlobals 0 [80] [20]).2.g_currentConfig.mappings =
      [{ midiMessageType := MidiMessageType.CC, calibrationMinHid := 20,
         calibrationMaxHid := 80, calibrationDone := true }] := by
  have h := calibration_orders_bounds oneAxisGlobals 0 [80] [20]
    { midiMessageType := MidiMessageType.CC } (by decide) rfl rfl
  exact ⟨by decide, by decide, h.1, by decide⟩

/-- C15: for every non-empty list of `LONG` samples read during a capture
window, the minimum capture (a running `min` seeded with the largest `LONG`)
returns the least sample and the maximum capture (a running `max` seeded with
the smallest `LONG`) returns the greatest sample; each is one of the samples. -/
theorem capture_returns_extreme_sample (samples : List Int) (hne : samples ≠ [])
    (hlong : ∀ s ∈ samples, InLong s) :
    capture_hold_value true samples ∈ samples ∧
    (∀ s ∈ samples, capture_hold_value true samples ≤ s) ∧
    capture_hold_value false samples ∈ samples ∧
    (∀ s ∈ samples, s ≤ capture_hold_value false samples) ∧
    capture_hold_value true samples = samples.foldl (fun e c => min e c) 2147483647 ∧
    capture_hold_value false samples = samples.foldl (fun e c => max e c) (-2147483648) := by
  obtain ⟨x, hx⟩ := List.exists_mem_of_ne_nil samples hne
  have hxl := hlong x hx
  unfold InLong at hxl
  have hmin := capture_hold_value_min samples
  have hmax := capture_hold_value_max samples
  obtain ⟨_, a2, a3⟩ := foldl_min_spec samples 2147483647
  obtain ⟨_, b2, b3⟩ := foldl_max_spec samples (-2147483648)
  rw [← hmin] at a2 a3
  rw [← hmax] at b2 b3
  refine ⟨?_, a2, ?_, b2, hmin, hmax⟩
  · rcases a3 with h | h
    · have hle := a2 x hx
      have hxe : x = capture_hold_value true samples := by omega
      rw [← hxe]
      exact hx
    · exact h
  · rcases b3 with h | h
    · have hle := b2 x hx
      have hxe : x = capture_hold_value false samples := by omega
      rw [← hxe]
      exact hx
    · exact h

/-- C15 (witness): the samples 40, 12, 77 give the minimum 12 and the maximum
77. -/
theorem capture_returns_extreme_sample_witness :
    capture_hold_value true [40, 12, 77] = 12 ∧ capture_hold_value false [40, 12, 77] = 77 ∧
    capture_hold_value true [40, 12, 77] ∈ [40, 12, 77] ∧
    capture_hold_value false [40, 12, 77] ∈ [40, 12, 77] := by
  have h := capture_returns_extreme_sample [40, 12, 77] (by decide) (by decide)
  exact ⟨by decide, by decide, h.1, h.2.2.1⟩

/-! ## Invariants of the interactive operations -/

/-- The outcomes of `PerformCalibration`: the globals are unchanged, or the
mapping at the index is an axis whose bounds are replaced by the ordered
captures. -/
theorem PerformCalibration_cases (g : Globals) (i : Nat) (minSamples maxSamples : List Int) :
    (PerformCalibration g i minSamples maxSamples).2 = g ∨
    ∃ mapping, g.g_currentConfig.mappings.get? i = some mapping ∧
      mapping.control.isButton = false ∧
      (PerformCalibration g i minSamples maxSamples).2 =
        withMappings g (g.g_currentConfig.mappings.set i
          { mapping with
            calibrationMinHid :=
              min (capture_hold_value true minSamples) (capture_hold_value false maxSamples),
            calibrationMaxHid :=
              max (capture_hold_value true minSamples) (capture_hold_value false maxSamples),
            calibrationDone := true }) := by
  by_cases hguard : i ≥ g.g_currentConfig.mappings.length ∨ i ≥ g.g_mappingStates.length
  · left
    unfold PerformCalibration
    rw [if_pos hguard]
  · have hs : i < g.g_mappingStates.length := by omega
    cases hget : g.g_currentConfig.mappings.get? i with
    | none =>
      left
      unfold PerformCalibration
      rw [if_neg hguard, hget]
    | some mapping =>
      cases hb : mapping.control.isButton with
      | true =>
        left
        unfold PerformCalibration
        rw [if_neg hguard, hget]
        simp [hb]
      | false =>
        right
        exact ⟨mapping, rfl, hb, by
          rw [PerformCalibration_axis g i minSamples maxSamples mapping hs hget hb]⟩

/-- Replacing one mapping by an ordered one keeps all mappings ordered. -/
theorem ordered_set (l : List ControlMapping) (i : Nat) (m : ControlMapping)
    (hl : ∀ x ∈ l, MappingOrdered x) (hm : MappingOrdered m) :
    ∀ x ∈ l.set i m, MappingOrdered x := by
  intro x hx
  rcases List.mem_or_eq_of_mem_set hx with h | h
  · exact hl x h
  · rw [h]; exact hm

/-- Function `ConfigureMappingMidi` leaves the control and the calibration fields
alone. -/
theorem ConfigureMappingMidi_frame (m : ControlMapping) (console : Console) :
    (ConfigureMappingMidi m console).1.control = m.control ∧
    (ConfigureMappingMidi m console).1.calibrationMinHid = m.calibrationMinHid ∧
    (ConfigureMappingMidi m console).1.calibrationMaxHid = m.calibrationMaxHid ∧
    (ConfigureMappingMidi m console).1.calibrationDone = m.calibrationDone := by
  unfold ConfigureMappingMidi
  simp only
  split_ifs <;> exact ⟨rfl, rfl, rfl, rfl⟩

/-- Function `ConfigureMappingMidi` keeps a mapping ordered. -/
theorem ConfigureMappingMidi_ordered (m : ControlMapping) (console : Console)
    (hm : MappingOrdered m) : MappingOrdered (ConfigureMappingMidi m console).1 := by
  obtain ⟨h1, h2, h3, h4⟩ := ConfigureMappingMidi_frame m console
  unfold MappingOrdered at *
  rw [h1, h2, h3, h4]
  exact hm

/-- Function `PerformCalibration` keeps the invariant of calibrated axes. -/
theorem PerformCalibration_ordered (g : Globals) (i : Nat) (minSamples maxSamples : List Int)
    (hg : CalibrationOrdered g.g_currentConfig) :
    CalibrationOrdered (PerformCalibration g i minSamples maxSamples).2.g_currentConfig := by
  rcases PerformCalibration_cases g i minSamples maxSamples with h | ⟨mapping, _, _, h⟩
  · rw [h]; exact hg
  · rw [h]
    exact ordered_set _ _ _ hg (fun _ _ => min_le_max)

/-- Function `PerformCalibration` changes neither the state vector nor the number
of mappings. -/
theorem PerformCalibration_sizes (g : Globals) (i : Nat) (minSamples maxSamples : List Int) :
    (PerformCalibration g i minSamples maxSamples).2.g_mappingStates = g.g_mappingStates ∧
    (PerformCalibration g i minSamples maxSamples).2.g_currentConfig.mappings.length
      = g.g_currentConfig.mappings.length := by
  rcases PerformCalibration_cases g i minSamples maxSamples with h | ⟨mapping, _, _, h⟩
  · rw [h]; exact ⟨rfl, rfl⟩
  · rw [h]
    exact ⟨rfl, by simp [withMappings]⟩

/-- After `InitializeMappingStates` the vectors are aligned. -/
theorem InitializeMappingStates_length (config : MidiMappingConfig) :
    (InitializeMappingStates config).length = config.mappings.length := by
  simp [InitializeMappingStates]

/-- The steps that add a mapping leave the vectors aligned, with one mapping
more, and keep the invariant of calibrated axes. -/
theorem pushAndConfigure_spec (control : ControlInfo) (g : Globals) (console : Console)
    (minSamples maxSamples : List Int) :
    IndexAligned (pushAndConfigure control g console minSamples maxSamples).1 ∧
    (pushAndConfigure control g console minSamples maxSamples).1.g_currentConfig.mappings.length
      = g.g_currentConfig.mappings.length + 1 ∧
    (CalibrationOrdered g.g_currentConfig →
      CalibrationOrdered
        (pushAndConfigure control g console minSamples maxSamples).1.g_currentConfig) := by
  have hnew : MappingOrdered ({ control := control } : ControlMapping) := by
    intro _ h
    exact absurd h Bool.false_ne_true
  have hpush : CalibrationOrdered g.g_currentConfig →
      ∀ x ∈ g.g_currentConfig.mappings ++ [({ control := control } : ControlMapping)],
        MappingOrdered x := by
    intro hg x hx
    rcases List.mem_append.mp hx with h | h
    · exact hg x h
    · rw [List.mem_singleton.mp h]; exact hnew
  unfold pushAndConfigure
  simp only
  split
  · rename_i hget
    simp [withMappings] at hget
  · rename_i mapping hget
    have hmem : mapping ∈
        g.g_currentConfig.mappings ++ [({ control := control } : ControlMapping)] := by
      simp only [withMappings] at hget
      exact List.get?_mem hget
    split_ifs
    · obtain ⟨hs, hl⟩ := PerformCalibration_sizes
        (withMappings
          { withMappings g (g.g_currentConfig.mappings ++ [{ control := control }]) with
            g_mappingStates := InitializeMappingStates
              (withMappings g
                (g.g_currentConfig.mappings ++ [{ control := control }])).g_currentConfig }
          ((withMappings g
            (g.g_currentConfig.mappings ++ [{ control := control }])).g_currentConfig.mappings.set
              ((withMappings g
                (g.g_currentConfig.mappings ++
                  [{ control := control }])).g_currentConfig.mappings.length - 1)
              (ConfigureMappingMidi mapping console).1))
        ((withMappings g
          (g.g_currentConfig.mappings ++ [{ control := control }])).g_currentConfig.mappings.length
            - 1) minSamples maxSamples
      refine ⟨?_, ?_, ?_⟩
      · unfold IndexAligned
        rw [hs, hl]
        simp [withMappings, InitializeMappingStates]
      · rw [hl]
        simp [withMappings]
      · intro hg
        apply PerformCalibration_ordered
        exact ordered_set _ _ _ (hpush hg)
          (ConfigureMappingMidi_ordered _ _ (hpush hg mapping hmem))
    · refine ⟨?_, ?_, ?_⟩
      · simp [IndexAligned, withMappings, InitializeMappingStates]
      · simp [withMappings]
      · intro hg
        exact ordered_set _ _ _ (hpush hg)
          (ConfigureMappingMidi_ordered _ _ (hpush hg mapping hmem))

/-- The reading loop returns a choice within the valid range. -/
theorem readSelection_range (maxValidChoice minValidChoice : Int) (lines : List Int) :
    ∀ choice rest, readSelection maxValidChoice minValidChoice lines = some (choice, rest) →
      minValidChoice ≤ choice ∧ choice ≤ maxValidChoice := by
  induction lines with
  | nil => intro choice rest h; simp [readSelection] at h
  | cons x xs ih =>
    intro choice rest h
    unfold readSelection at h
    split_ifs at h with hx
    · simp only [Option.some.injEq, Prod.mk.injEq] at h
      rw [← h.1]
      exact hx
    · exact ih choice rest h

/-- Function `GetUserSelection` returns a choice within the valid range unless it
sets `g_quitFlag`. -/
theorem GetUserSelection_range (maxValidChoice minValidChoice : Int) (console : Console)
    (hq : (GetUserSelection maxValidChoice minValidChoice console).2.g_quitFlag = false) :
    minValidChoice ≤ (GetUserSelection maxValidChoice minValidChoice console).1 ∧
    (GetUserSelection maxValidChoice minValidChoice console).1 ≤ maxValidChoice := by
  unfold GetUserSelection at hq ⊢
  cases hr : readSelection maxValidChoice minValidChoice console.lines with
  | none => rw [hr] at hq; simp at hq
  | some p =>
    obtain ⟨choice, rest⟩ := p
    exact readSelection_range maxValidChoice minValidChoice console.lines choice rest hr

/-- The `case 1` of `EditConfiguration` changes nothing, or leaves the vectors
aligned with one mapping more; it keeps the invariant of calibrated axes. -/
theorem EditConfiguration_add_spec (controls : List ControlInfo) (g : Globals)
    (console : Console) (minSamples maxSamples : List Int) :
    ((EditConfiguration_add controls g console minSamples maxSamples).1 = g ∨
      (IndexAligned (EditConfiguration_add controls g console minSamples maxSamples).1 ∧
        (EditConfiguration_add controls g console minSamples
            maxSamples).1.g_currentConfig.mappings.length
          = g.g_currentConfig.mappings.length + 1)) ∧
    (CalibrationOrdered g.g_currentConfig →
      CalibrationOrdered
        (EditConfiguration_add controls g console minSamples maxSamples).1.g_currentConfig) := by
  unfold EditConfiguration_add
  simp only
  split_ifs
  · exact ⟨Or.inl rfl, id⟩
  · exact ⟨Or.inl rfl, id⟩
  · split
    · exact ⟨Or.inl rfl, id⟩
    · rename_i control _
      obtain ⟨h1, h2, h3⟩ := pushAndConfigure_spec control g
        (GetUserSelection (↑controls.length) 0 console).2 minSamples maxSamples
      exact ⟨Or.inr ⟨h1, h2⟩, h3⟩
  · exact ⟨Or.inl rfl, id⟩

/-- The `case 2` of `EditConfiguration` changes nothing, or leaves the vectors
aligned with one mapping fewer; it keeps the invariant of calibrated axes. -/
theorem EditConfiguration_remove_spec (g : Globals) (console : Console) :
    ((EditConfiguration_remove g console).1 = g ∨
      (IndexAligned (EditConfiguration_remove g console).1 ∧
        (EditConfiguration_remove g console).1.g_currentConfig.mappings.length + 1
          = g.g_currentConfig.mappings.length)) ∧
    (CalibrationOrdered g.g_currentConfig →
      CalibrationOrdered (EditConfiguration_remove g console).1.g_currentConfig) := by
  unfold EditConfiguration_remove
  simp only
  split_ifs with h1 h2 h3 h4
  · exact ⟨Or.inl rfl, id⟩
  · exact ⟨Or.inl rfl, id⟩
  · have hq : (GetUserSelection (↑g.g_currentConfig.mappings.length) 0 console).2.g_quitFlag
        = false := by simpa using h2
    have hrange := GetUserSelection_range (↑g.g_currentConfig.mappings.length) 0 console hq
    have hlt : (GetUserSelection (↑g.g_currentConfig.mappings.length) 0 console).1.toNat
        < g.g_currentConfig.mappings.length := by
      omega
    refine ⟨Or.inr ⟨?_, ?_⟩, ?_⟩
    · simp [IndexAligned, withMappings, InitializeMappingStates]
    · simp only [withMappings]
      rw [List.length_eraseIdx_of_lt hlt]
      omega
    · intro hg x hx
      exact hg x (List.mem_of_mem_eraseIdx hx)
  · exact ⟨Or.inl rfl, id⟩
  · exact ⟨Or.inl rfl, id⟩

/-- The outcomes of the `case 3` of `EditConfiguration`: a property that holds
of the unchanged globals, of the globals with one mapping reconfigured, of the
globals after a calibration and of the globals with one reverse flag toggled
holds of the result. -/
theorem EditConfiguration_edit_cases (g : Globals) (console : Console)
    (minSamples maxSamples : List Int) (P : Globals → Prop) (h0 : P g)
    (h1 : ∀ i mapping c, g.g_currentConfig.mappings.get? i = some mapping →
      P (withMappings g (g.g_currentConfig.mappings.set i (ConfigureMappingMidi mapping c).1)))
    (h2 : ∀ i, P (PerformCalibration g i minSamples maxSamples).2)
    (h3 : ∀ i mapping, g.g_currentConfig.mappings.get? i = some mapping →
      P (withMappings g (g.g_currentConfig.mappings.set i
        { mapping with reverseAxis := !mapping.reverseAxis }))) :
    P (EditConfiguration_edit g console minSamples maxSamples).1 := by
  unfold EditConfiguration_edit
  dsimp only
  split_ifs
  · exact h0
  · exact h0
  · split
    · exact h0
    · rename_i mapping hget
      split_ifs <;>
        first
        | exact h0
        | exact h1 _ mapping _ hget
        | exact h2 _
        | exact h3 _ mapping hget
  · exact h0

/-- The `case 3` of `EditConfiguration` changes neither the state vector nor the
number of mappings, and keeps the invariant of calibrated axes. -/
theorem EditConfiguration_edit_spec (g : Globals) (console : Console)
    (minSamples maxSamples : List Int) :
    (EditConfiguration_edit g console minSamples maxSamples).1.g_mappingStates
      = g.g_mappingStates ∧
    (EditConfiguration_edit g console minSamples maxSamples).1.g_currentConfig.mappings.length
      = g.g_currentConfig.mappings.length ∧
    (CalibrationOrdered g.g_currentConfig →
      CalibrationOrdered
        (EditConfiguration_edit g console minSamples maxSamples).1.g_currentConfig) := by
  apply EditConfiguration_edit_cases g console minSamples maxSamples
    (fun r => r.g_mappingStates = g.g_mappingStates ∧
      r.g_currentConfig.mappings.length = g.g_currentConfig.mappings.length ∧
      (CalibrationOrdered g.g_currentConfig → CalibrationOrdered r.g_currentConfig))
  · exact ⟨rfl, rfl, id⟩
  · intro i mapping c hget
    refine ⟨rfl, by simp [withMappings], ?_⟩
    intro hg
    exact ordered_set _ _ _ hg (ConfigureMappingMidi_ordered _ _ (hg mapping (List.get?_mem hget)))
  · intro i
    obtain ⟨hs, hl⟩ := PerformCalibration_sizes g i minSamples maxSamples
    exact ⟨hs, hl, PerformCalibration_ordered g i minSamples maxSamples⟩
  · intro i mapping hget
    refine ⟨rfl, by simp [withMappings], ?_⟩
    intro hg
    exact ordered_set _ _ _ hg (hg mapping (List.get?_mem hget))

/-- The `case 4` of `EditConfiguration` changes neither the state vector nor the
mappings. -/
theorem EditConfiguration_defaultChannel_spec (g : Globals) (console : Console) :
    (EditConfiguration_defaultChannel g console).1.g_mappingStates = g.g_mappingStates ∧
    (EditConfiguration_defaultChannel g console).1.g_currentConfig.mappings
      = g.g_currentConfig.mappings := by
  unfold EditConfiguration_defaultChannel
  simp only
  split_ifs <;> exact ⟨rfl, rfl⟩

/-- Every operation keeps the invariant of calibrated axes. -/
theorem applyConfigOp_ordered (g : Globals) (op : ConfigOp)
    (hg : CalibrationOrdered g.g_currentConfig) :
    CalibrationOrdered (applyConfigOp g op).g_currentConfig := by
  cases op with
  | add controls lines minSamples maxSamples =>
    exact (EditConfiguration_add_spec controls g _ minSamples maxSamples).2 hg
  | remove lines => exact (EditConfiguration_remove_spec g _).2 hg
  | edit lines minSamples maxSamples =>
    exact (EditConfiguration_edit_spec g _ minSamples maxSamples).2.2 hg
  | defaultChannel lines =>
    unfold CalibrationOrdered at *
    simp only [applyConfigOp]
    rw [(EditConfiguration_defaultChannel_spec g _).2]
    exact hg
  | calibrate i minSamples maxSamples =>
    exact PerformCalibration_ordered g i minSamples maxSamples hg

/-- Every operation keeps the vectors aligned. -/
theorem applyConfigOp_aligned (g : Globals) (op : ConfigOp) (hg : IndexAligned g) :
    IndexAligned (applyConfigOp g op) := by
  cases op with
  | add controls lines minSamples maxSamples =>
    rcases (EditConfiguration_add_spec controls g { lines := lines } minSamples maxSamples).1
      with h | h
    · simp only [applyConfigOp]; rw [h]; exact hg
    · exact h.1
  | remove lines =>
    rcases (EditConfiguration_remove_spec g { lines := lines }).1 with h | h
    · simp only [applyConfigOp]; rw [h]; exact hg
    · exact h.1
  | edit lines minSamples maxSamples =>
    obtain ⟨h1, h2, _⟩ := EditConfiguration_edit_spec g { lines := lines } minSamples maxSamples
    unfold IndexAligned at *
    simp only [applyConfigOp]
    rw [h1, h2]; exact hg
  | defaultChannel lines =>
    obtain ⟨h1, h2⟩ := EditConfiguration_defaultChannel_spec g { lines := lines }
    unfold IndexAligned at *
    simp only [applyConfigOp]
    rw [h1, h2]; exact hg
  | calibrate i minSamples maxSamples =>
    obtain ⟨h1, h2⟩ := PerformCalibration_sizes g i minSamples maxSamples
    unfold IndexAligned at *
    simp only [applyConfigOp]
    rw [h1, h2]; exact hg

/-- C14 (counterexample): loading a file whose axis mapping is marked
calibrated with `calibrationMinHid = 10` and `calibrationMaxHid = 5` succeeds
and gives a configuration with a calibrated axis whose bounds are not
ordered. -/
theorem loaded_config_not_ordered :
    (LoadConfiguration invertedFile {}).1 = true ∧
    ¬ CalibrationOrdered (LoadConfiguration invertedFile {}).2 := by
  refine ⟨by decide, ?_⟩
  intro h
  have hm := h { control := { isButton := false, logicalMin := 0, logicalMax := 255,
                              name := "Axis 0" },
                 midiMessageType := MidiMessageType.CC, midiNoteOrCCNumber := 7,
                 calibrationMinHid := 10, calibrationMaxHid := 5, calibrationDone := true }
    (by decide) rfl rfl
  exact absurd hm (by decide)

/-- C14 (amended): in every configuration reached, from one in which every
calibrated axis mapping has `calMin ≤ calMax` (such as the empty initial
configuration), through calibration and the interactive operations on
mappings (add, remove, edit, change of default channel), every axis mapping
with `calibrationDone = true` has `calMin ≤ calMax`. -/
theorem edits_keep_calibration_ordered (g : Globals) (ops : List ConfigOp)
    (hg : CalibrationOrdered g.g_currentConfig) :
    CalibrationOrdered (runConfigOps g ops).g_currentConfig := by
  unfold runConfigOps
  induction ops generalizing g with
  | nil => exact hg
  | cons op ops ih => exact ih (applyConfigOp g op) (applyConfigOp_ordered g op hg)

/-- C14 (amended, witness): from the empty globals, the example session leaves
a configuration whose calibrated axes are ordered. -/
theorem edits_keep_calibration_ordered_witness :
    CalibrationOrdered (runConfigOps {} editSessionExample).g_currentConfig ∧
    CalibrationOrdered
      (runConfigOps {}
        [ConfigOp.add availableExample [0, 1, 0, 7, 0] [80] [20]]).g_currentConfig ∧
    (runConfigOps {}
        [ConfigOp.add availableExample [0, 1, 0, 7, 0] [80] [20]]).g_currentConfig.mappings.map
      (fun m => (m.calibrationMinHid, m.calibrationMaxHid, m.calibrationDone))
      = [(20, 80, true)] := by
  have hempty : CalibrationOrdered ({} : Globals).g_currentConfig := by
    intro m hm
    exact absurd hm (List.not_mem_nil m)
  exact ⟨edits_keep_calibration_ordered {} editSessionExample hempty,
    edits_keep_calibration_ordered {} _ hempty, by decide⟩

/-! ## Channel resolution and the dispatch step -/

/-- The dispatch step on a clean entry does nothing. -/
theorem dispatchEntry_clean (m : ControlMapping) (dc : Int) (s : MappingState)
    (hclean : s.valueChanged = false) : dispatchEntry m dc s = (s, []) := by
  cases s
  simp only at hclean
  simp [dispatchEntry, exchangeValueChanged, hclean]

/-- Every message the dispatch step sends is the button message or the axis
message built with the effective channel. -/
theorem dispatchEntry_sent_cases (m : ControlMapping) (dc : Int) (s : MappingState) :
    ∀ msg ∈ (dispatchEntry m dc s).2,
      (∃ pressed, msg = buttonMessage m (GetEffectiveChannel m dc) pressed) ∨
      (∃ midiVal, msg = axisMessage m (GetEffectiveChannel m dc) midiVal) := by
  intro msg hmsg
  cases hd : s.valueChanged with
  | false =>
    rw [dispatchEntry_clean m dc s hd] at hmsg
    exact absurd hmsg (List.not_mem_nil msg)
  | true =>
    cases hb : m.control.isButton with
    | true =>
      rw [dispatchEntry_button m dc s hb hd] at hmsg
      simp only at hmsg
      split_ifs at hmsg
      · left
        exact ⟨_, List.mem_singleton.mp hmsg⟩
      · exact absurd hmsg (List.not_mem_nil msg)
    | false =>
      by_cases hsil : m.calibrationDone = false ∨ axisRange m ≤ 0
      · rw [(dispatchEntry_axis_silent m dc s hb hsil).1] at hmsg
        exact absurd hmsg (List.not_mem_nil msg)
      · push_neg at hsil
        have hcal : m.calibrationDone = true := by simpa using hsil.1
        rw [dispatchEntry_axis m dc s hb hcal hsil.2 hd] at hmsg
        split_ifs at hmsg
        · right
          exact ⟨_, List.mem_singleton.mp hmsg⟩
        · exact absurd hmsg (List.not_mem_nil msg)

/-- The low four bits of a status byte built from a channel in `0..15` are the
channel. -/
theorem status_low_nibble (base dc : Int) (hbase : base = 0x80 ∨ base = 0x90 ∨ base = 0xB0)
    (h0 : 0 ≤ dc) (h15 : dc ≤ 15) : toUChar (Int.lor base dc) % 16 = dc.toNat := by
  rcases hbase with rfl | rfl | rfl <;> interval_cases dc <;> decide

/-- The first byte of every message sent is a status `0x80`, `0x90` or `0xB0`
combined with the effective channel. -/
theorem dispatchEntry_status (m : ControlMapping) (dc : Int) (s : MappingState) :
    ∀ msg ∈ (dispatchEntry m dc s).2,
      ∃ base : Int, (base = 0x80 ∨ base = 0x90 ∨ base = 0xB0) ∧
        msg.head? = some (toUChar (Int.lor base (GetEffectiveChannel m dc))) := by
  intro msg hmsg
  rcases dispatchEntry_sent_cases m dc s msg hmsg with ⟨pressed, h⟩ | ⟨midiVal, h⟩
  · rw [h]
    by_cases hk : m.midiMessageType = MidiMessageType.NOTE_ON_OFF
    · cases pressed
      · exact ⟨0x80, Or.inl rfl, by simp [buttonMessage, hk]⟩
      · exact ⟨0x90, Or.inr (Or.inl rfl), by simp [buttonMessage, hk]⟩
    · exact ⟨0xB0, Or.inr (Or.inr rfl), by simp [buttonMessage, hk]⟩
  · rw [h]
    exact ⟨0xB0, Or.inr (Or.inr rfl), by simp [axisMessage]⟩

/-- C16: `GetEffectiveChannel` returns the mapping's explicit channel when it is
`≥ 0` and the default channel otherwise. The dispatch step takes the channel
from the default channel passed to that step (the entry state stores none):
the status byte of every message is `0x80`, `0x90` or `0xB0` or-ed with the
effective channel; for a mapping with no explicit channel and a default
channel in `0..15` its low four bits are that default channel; for a mapping
with an explicit channel the step does not depend on the default channel. -/
theorem effective_channel_resolution (m : ControlMapping) (dc dc2 : Int) (s : MappingState) :
    (m.midiChannel ≥ 0 → GetEffectiveChannel m dc = m.midiChannel) ∧
    (m.midiChannel < 0 → GetEffectiveChannel m dc = dc) ∧
    (∀ msg ∈ (dispatchEntry m dc s).2,
      ∃ base : Int, (base = 0x80 ∨ base = 0x90 ∨ base = 0xB0) ∧
        msg.head? = some (toUChar (Int.lor base (GetEffectiveChannel m dc)))) ∧
    (m.midiChannel < 0 → 0 ≤ dc → dc ≤ 15 →
      ∀ msg ∈ (dispatchEntry m dc s).2,
        ∃ status, msg.head? = some status ∧ status % 16 = dc.toNat) ∧
    (m.midiChannel ≥ 0 → dispatchEntry m dc s = dispatchEntry m dc2 s) := by
  have hexp : ∀ d : Int, m.midiChannel ≥ 0 → GetEffectiveChannel m d = m.midiChannel := by
    intro d h
    simp [GetEffectiveChannel, h]
  have hdef : m.midiChannel < 0 → GetEffectiveChannel m dc = dc := by
    intro h
    have h2 : ¬ (m.midiChannel ≥ 0) := not_le.mpr h
    simp [GetEffectiveChannel, h2]
  refine ⟨hexp dc, hdef, dispatchEntry_status m dc s, ?_, ?_⟩
  · intro hneg h0 h15 msg hmsg
    obtain ⟨base, hbase, hhead⟩ := dispatchEntry_status m dc s msg hmsg
    rw [hdef hneg] at hhead
    exact ⟨_, hhead, status_low_nibble base dc hbase h0 h15⟩
  · intro h
    simp only [dispatchEntry, hexp dc h, hexp dc2 h]

/-- C16 (witness): the button mapping with no explicit channel sends status
`0xB5` under default channel 5 and `0xB9` under default channel 9; the mapping
with explicit channel 2 sends `0x92` under both. -/
theorem effective_channel_resolution_witness :
    (dispatchEntry ccButtonExample 5
      { currentValue := 1, valueChanged := true, previousValue := 0 }).2 = [[0xB5, 7, 127]] ∧
    (dispatchEntry ccButtonExample 9
      { currentValue := 1, valueChanged := true, previousValue := 0 }).2 = [[0xB9, 7, 127]] ∧
    dispatchEntry noteButtonExample 5
        { currentValue := 1, valueChanged := true, previousValue := 0 }
      = dispatchEntry noteButtonExample 9
        { currentValue := 1, valueChanged := true, previousValue := 0 } := by
  have h := effective_channel_resolution noteButtonExample 5 9
    { currentValue := 1, valueChanged := true, previousValue := 0 }
  exact ⟨by decide, by decide, h.2.2.2.2 (by decide)⟩

/-- C17: whenever the dispatch step consumes a dirty entry, `previousValue`
equals `currentValue` afterwards, whether or not a message was sent;
`currentValue` is unchanged and the flag is clear. -/
theorem dispatch_records_previous (m : ControlMapping) (dc : Int) (s : MappingState)
    (hdirty : s.valueChanged = true) :
    (dispatchEntry m dc s).1.previousValue = s.currentValue ∧
    (dispatchEntry m dc s).1.currentValue = s.currentValue ∧
    (dispatchEntry m dc s).1.previousValue = (dispatchEntry m dc s).1.currentValue ∧
    (dispatchEntry m dc s).1.valueChanged = false := by
  unfold dispatchEntry exchangeValueChanged
  simp only [hdirty]
  split_ifs <;> exact ⟨rfl, rfl, rfl, rfl⟩

/-- C17 (witness): the four cases without a message: a button without an edge,
an uncalibrated axis, a degenerate axis, and an axis value equal to the last
value sent. -/
theorem dispatch_records_previous_witness :
    dispatchEntry noteButtonExample 0
        { currentValue := 2, valueChanged := true, previousValue := 1 }
      = ({ currentValue := 2, valueChanged := false, previousValue := 2 }, []) ∧
    dispatchEntry uncalibratedAxisExample 0 dirty500
      = ({ currentValue := 500, valueChanged := false, previousValue := 500 }, []) ∧
    dispatchEntry degenerateAxisExample 0 dirty500
      = ({ currentValue := 500, valueChanged := false, previousValue := 500 }, []) ∧
    (dispatchEntry axisExample 0
        { currentValue := 500, valueChanged := true, previousValue := 3,
          lastSentMidiValue := 64 }).1.previousValue = 500 := by
  have h := dispatch_records_previous axisExample 0
    { currentValue := 500, valueChanged := true, previousValue := 3,
      lastSentMidiValue := 64 } rfl
  exact ⟨by decide, by decide, by decide, h.1⟩

/-- C18 (counterexample): a button mapping of kind `NONE` (a default-constructed
mapping) sends a message on an edge: the press sends `[0xB0, 0, 127]` and the
release sends `[0xB0, 0, 0]`. -/
theorem none_kind_button_sends :
    (dispatchEntry noneButtonExample 0
      { currentValue := 1, valueChanged := true, previousValue := 0 }).2 = [[0xB0, 0, 127]] ∧
    (dispatchEntry noneButtonExample 0
      { currentValue := 0, valueChanged := true, previousValue := 1 }).2 = [[0xB0, 0, 0]] ∧
    ¬ ((dispatchEntry noneButtonExample 0
      { currentValue := 1, valueChanged := true, previousValue := 0 }).2 = []) := by
  decide

/-- C18 (amended): for a button mapping of kind `NONE`, an edge sends the same
controller message as kind `CC`: `[0xB0 | channel, number, onValue]` on a
rising edge and `[0xB0 | channel, number, offValue]` on a falling edge; and
`previousValue` is updated. -/
theorem none_kind_button_edge (m : ControlMapping) (dc : Int) (s : MappingState)
    (hbutton : m.control.isButton = true)
    (hkind : m.midiMessageType = MidiMessageType.NONE)
    (hdirty : s.valueChanged = true)
    (hedge : ¬ (s.currentValue ≠ 0 ↔ s.previousValue ≠ 0)) :
    (dispatchEntry m dc s).2 =
      [[toUChar (Int.lor 0xB0 (GetEffectiveChannel m dc)),
        toUChar m.midiNoteOrCCNumber,
        toUChar (if s.currentValue ≠ 0 then m.midiValueCCOn else m.midiValueCCOff)]] ∧
    (dispatchEntry m dc s).2 =
      (dispatchEntry { m with midiMessageType := MidiMessageType.CC } dc s).2 ∧
    (dispatchEntry m dc s).1.previousValue = s.currentValue := by
  have hb : ((s.currentValue != 0) != (s.previousValue != 0)) = true := by
    rcases bne_zero_cases s.currentValue with ⟨hc, hcb⟩ | ⟨hc, hcb⟩ <;>
      rcases bne_zero_cases s.previousValue with ⟨hp, hpb⟩ | ⟨hp, hpb⟩ <;>
      simp [hc, hp, hcb, hpb] at hedge ⊢
  rw [dispatchEntry_button m dc s hbutton hdirty,
    dispatchEntry_button { m with midiMessageType := MidiMessageType.CC } dc s hbutton hdirty]
  simp only [if_pos hb, and_true]
  refine ⟨?_, ?_⟩
  · rcases bne_zero_cases s.currentValue with ⟨hc, hcb⟩ | ⟨hc, hcb⟩
    · simp [buttonMessage, hkind, hc]
    · simp [buttonMessage, hkind, hc, hcb]
  · simp [buttonMessage, hkind, GetEffectiveChannel]

/-- C18 (amended, witness): the default-constructed button mapping sends
`[0xB0, 0, 127]` on a press and records the value. -/
theorem none_kind_button_edge_witness :
    (dispatchEntry noneButtonExample 0
      { currentValue := 1, valueChanged := true, previousValue := 0 }).2 = [[0xB0, 0, 127]] ∧
    (dispatchEntry noneButtonExample 0
      { currentValue := 1, valueChanged := true, previousValue := 0 }).1.previousValue = 1 ∧
    ({} : ControlMapping).midiMessageType = MidiMessageType.NONE ∧
    Json.getMidiMessageType (Json.str "Pitch") = MidiMessageType.NONE := by
  have h := none_kind_button_edge noneButtonExample 0
    { currentValue := 1, valueChanged := true, previousValue := 0 } rfl rfl rfl (by decide)
  exact ⟨by rw [h.1]; decide, h.2.2, rfl, by decide⟩

/-- C19 (counterexample): after `InitializeMappingStates` for one mapping the
entry has `previousValue = -1` and `lastSentMidiValue = -1`, so it is not true
that every entry has `previousValue = 0` and `lastSentValue = 0`. -/
theorem fresh_entry_not_zeroed :
    InitializeMappingStates oneAxisGlobals.g_currentConfig
      = [{ currentValue := 0, valueChanged := false, previousValue := -1,
           lastSentMidiValue := -1 }] ∧
    ¬ (∀ s ∈ InitializeMappingStates oneAxisGlobals.g_currentConfig,
        s.currentValue = 0 ∧ s.valueChanged = false ∧ s.previousValue = 0 ∧
        s.lastSentMidiValue = 0) := by
  refine ⟨by decide, ?_⟩
  intro h
  have h0 := h {} (by decide)
  exact absurd h0.2.2.1 (by decide)

/-- C19 (amended): `InitializeMappingStates` replaces the store with one fresh
entry per mapping: every entry has `currentValue = 0`, `valueChanged = false`
and `lastSentMidiValue = -1` (a value no axis computes, so the first axis value
is always sent), whatever the store held before. -/
theorem reinitialized_entries (g : Globals) :
    (InitializeMappingStates g.g_currentConfig).length = g.g_currentConfig.mappings.length ∧
    (∀ s ∈ InitializeMappingStates g.g_currentConfig,
      s.currentValue = 0 ∧ s.valueChanged = false ∧ s.lastSentMidiValue = -1) ∧
    (∀ g2 : Globals, g2.g_currentConfig = g.g_currentConfig →
      InitializeMappingStates g2.g_currentConfig = InitializeMappingStates g.g_currentConfig) := by
  refine ⟨InitializeMappingStates_length g.g_currentConfig, ?_, ?_⟩
  · intro s hs
    unfold InitializeMappingStates at hs
    rw [List.eq_of_mem_replicate hs]
    exact ⟨rfl, rfl, rfl⟩
  · intro g2 h
    rw [h]

/-- C20: the add-mapping operation and the remove-mapping operation either
change nothing or leave the state vector with exactly as many entries as the
mapping vector (which then has one mapping more, respectively fewer); every
operation keeps the two vectors aligned, and in aligned globals every valid
mapping index has its entry in the store. -/
theorem mutations_keep_alignment (controls : List ControlInfo) (g : Globals)
    (console : Console) (minSamples maxSamples : List Int) :
    ((EditConfiguration_add controls g console minSamples maxSamples).1 = g ∨
      (IndexAligned (EditConfiguration_add controls g console minSamples maxSamples).1 ∧
        (EditConfiguration_add controls g console minSamples
            maxSamples).1.g_currentConfig.mappings.length
          = g.g_currentConfig.mappings.length + 1)) ∧
    ((EditConfiguration_remove g console).1 = g ∨
      (IndexAligned (EditConfiguration_remove g console).1 ∧
        (EditConfiguration_remove g console).1.g_currentConfig.mappings.length + 1
          = g.g_currentConfig.mappings.length)) ∧
    (∀ ops : List ConfigOp, IndexAligned g → IndexAligned (runConfigOps g ops)) ∧
    (IndexAligned g → ∀ i, i < g.g_currentConfig.mappings.length →
      ∃ state, g.g_mappingStates.get? i = some state) := by
  refine ⟨(EditConfiguration_add_spec controls g console minSamples maxSamples).1,
    (EditConfiguration_remove_spec g console).1, ?_, ?_⟩
  · intro ops
    unfold runConfigOps
    induction ops generalizing g with
    | nil => exact id
    | cons op ops ih =>
      intro hg
      exact ih (applyConfigOp g op) (applyConfigOp_aligned g op hg)
  · intro hg i hi
    unfold IndexAligned at hg
    have hlt : i < g.g_mappingStates.length := by omega
    exact ⟨g.g_mappingStates.get ⟨i, hlt⟩, List.get?_eq_get hlt⟩

/-- C20 (witness): in the example session the vectors have sizes 1 and 1 after
the first addition, 2 and 2 after the second, and 1 and 1 after the
removal. -/
theorem mutations_keep_alignment_witness :
    IndexAligned (runConfigOps {} editSessionExample) ∧
    ((runConfigOps {} (editSessionExample.take 1)).g_currentConfig.mappings.length,
      (runConfigOps {} (editSessionExample.take 1)).g_mappingStates.length) = (1, 1) ∧
    ((runConfigOps {} (editSessionExample.take 2)).g_currentConfig.mappings.length,
      (runConfigOps {} (editSessionExample.take 2)).g_mappingStates.length) = (2, 2) ∧
    ((runConfigOps {} editSessionExample).g_currentConfig.mappings.length,
      (runConfigOps {} editSessionExample).g_mappingStates.length) = (1, 1) := by
  have h := (mutations_keep_alignment [] {} {} [] []).2.2.1 editSessionExample rfl
  exact ⟨h, by decide, by decide, by decide⟩

/-! ## Dirty flag and last consumed value -/

/-- After the dispatch step on a dirty entry `previousValue` is `currentValue`,
which is unchanged, and the flag is clear. -/
theorem dispatchEntry_dirty_fields (m : ControlMapping) (dc : Int) (s : MappingState)
    (hdirty : s.valueChanged = true) :
    (dispatchEntry m dc s).1.previousValue = s.currentValue ∧
    (dispatchEntry m dc s).1.currentValue = s.currentValue ∧
    (dispatchEntry m dc s).1.valueChanged = false := by
  unfold dispatchEntry exchangeValueChanged
  simp only [hdirty]
  split_ifs <;> exact ⟨rfl, rfl, rfl⟩

/-- After a dispatch step that consumed the entry, `observe` calls that all
carry one value keep `previousValue`, and leave the entry either clean with the
consumed value or dirty with the new value, which differs from the consumed
one. -/
theorem observe_replicate_after_consume (s : MappingState) (v : Int)
    (hclean : s.valueChanged = false) (hcons : s.currentValue = s.previousValue) :
    ∀ n : Nat,
      (observeAll s (List.replicate n v)).previousValue = s.previousValue ∧
      (((observeAll s (List.replicate n v)).valueChanged = false ∧
          (observeAll s (List.replicate n v)).currentValue = s.previousValue) ∨
        ((observeAll s (List.replicate n v)).valueChanged = true ∧
          (observeAll s (List.replicate n v)).currentValue = v ∧ v ≠ s.previousValue)) := by
  intro n
  induction n with
  | zero => exact ⟨rfl, Or.inl ⟨hclean, hcons⟩⟩
  | succ k ih =>
    have hstep : observeAll s (List.replicate (k + 1) v)
        = observe (observeAll s (List.replicate k v)) v := by
      simp only [observeAll, List.replicate_succ', List.foldl_append, List.foldl_cons,
        List.foldl_nil]
    rw [hstep]
    obtain ⟨hp, hc⟩ := ih
    refine ⟨by rw [observe_previousValue, hp], ?_⟩
    rw [observe_valueChanged, observe_currentValue]
    rcases hc with ⟨hcl, hcur⟩ | ⟨hd, hcur, hne⟩
    · by_cases hv : v = s.previousValue
      · left
        have hb : (v != (observeAll s (List.replicate k v)).currentValue) = false := by
          rw [hcur]
          simp [hv]
        rw [hb]
        exact ⟨by simpa using hcl, hv⟩
      · right
        have hb : (v != (observeAll s (List.replicate k v)).currentValue) = true := by
          rw [hcur]
          simp [hv]
        rw [hb]
        exact ⟨by simp, rfl, hv⟩
    · right
      exact ⟨by simp [hd], rfl, hne⟩

/-- The steps of a sequence that ends with a dispatch pass and `observe` calls
carrying one value. -/
theorem runEntryOps_dispatch_observes (m : ControlMapping) (ops : List EntryOp) (dc v : Int)
    (n : Nat) :
    (runEntryOps m {}
        (ops ++ EntryOp.dispatch dc :: List.replicate n (EntryOp.observe v))).1
      = observeAll (dispatchEntry m dc (runEntryOps m {} ops).1).1 (List.replicate n v) := by
  have hobs : ∀ (k : Nat) (acc : MappingState × List Message),
      ((List.replicate k (EntryOp.observe v)).foldl (applyEntryOp m) acc).1
        = observeAll acc.1 (List.replicate k v) := by
    intro k
    induction k with
    | zero => intro acc; rfl
    | succ j ih =>
      intro acc
      simp only [List.replicate_succ, List.foldl_cons, observeAll]
      rw [ih]
      rfl
  simp only [runEntryOps, List.foldl_append, List.foldl_cons]
  rw [hobs]
  rfl

/-- C21 (counterexample): from a fresh entry, `observe 5`, a dispatch pass,
`observe 7` and `observe 5` leave the entry dirty with `currentValue = 5` equal
to `previousValue = 5`, the value last consumed. -/
theorem dirty_with_consumed_value :
    (runEntryOps noteButtonExample {}
      [EntryOp.observe 5, EntryOp.dispatch 0, EntryOp.observe 7, EntryOp.observe 5]).1
      = { currentValue := 5, valueChanged := true, previousValue := 5 } ∧
    ¬ ((runEntryOps noteButtonExample {}
        [EntryOp.observe 5, EntryOp.dispatch 0, EntryOp.observe 7,
          EntryOp.observe 5]).1.valueChanged = true →
      (runEntryOps noteButtonExample {}
        [EntryOp.observe 5, EntryOp.dispatch 0, EntryOp.observe 7,
          EntryOp.observe 5]).1.currentValue ≠
      (runEntryOps noteButtonExample {}
        [EntryOp.observe 5, EntryOp.dispatch 0, EntryOp.observe 7,
          EntryOp.observe 5]).1.previousValue) := by
  decide

/-- C21 (amended): in every state reached from a fresh entry by `observe` and
dispatch steps that end with a dispatch step on the dirty entry followed by any
number of `observe` calls that all carry one value, dirty implies that
`currentValue` differs from `previousValue`, the value last consumed. -/
theorem dirty_after_one_change (m : ControlMapping) (ops : List EntryOp) (dc v : Int) (n : Nat)
    (hconsumed : (runEntryOps m {} ops).1.valueChanged = true)
    (hdirty : (runEntryOps m {}
      (ops ++ EntryOp.dispatch dc :: List.replicate n (EntryOp.observe v))).1.valueChanged
        = true) :
    (runEntryOps m {}
      (ops ++ EntryOp.dispatch dc :: List.replicate n (EntryOp.observe v))).1.currentValue
      ≠ (runEntryOps m {}
      (ops ++ EntryOp.dispatch dc :: List.replicate n (EntryOp.observe v))).1.previousValue := by
  rw [runEntryOps_dispatch_observes] at hdirty ⊢
  obtain ⟨h1, h2, h3⟩ := dispatchEntry_dirty_fields m dc (runEntryOps m {} ops).1 hconsumed
  obtain ⟨hp, hc⟩ := observe_replicate_after_consume
    (dispatchEntry m dc (runEntryOps m {} ops).1).1 v h3 (by rw [h1, h2]) n
  rcases hc with ⟨hcl, _⟩ | ⟨_, hcur, hne⟩
  · rw [hcl] at hdirty
    exact absurd hdirty Bool.false_ne_true
  · rw [hp, hcur]
    exact hne

/-- C21 (amended, witness): after `observe 5`, a dispatch pass and `observe 7`
the entry is dirty and the value 7 differs from the consumed value 5. -/
theorem dirty_after_one_change_witness :
    (runEntryOps noteButtonExample {}
      [EntryOp.observe 5, EntryOp.dispatch 0, EntryOp.observe 7]).1
      = { currentValue := 7, valueChanged := true, previousValue := 5 } ∧
    (runEntryOps noteButtonExample {}
      ([EntryOp.observe 5] ++ EntryOp.dispatch 0
        :: List.replicate 1 (EntryOp.observe 7))).1.currentValue
      ≠ (runEntryOps noteButtonExample {}
      ([EntryOp.observe 5] ++ EntryOp.dispatch 0
        :: List.replicate 1 (EntryOp.observe 7))).1.previousValue :=
  ⟨by decide, dirty_after_one_change noteButtonExample [EntryOp.observe 5] 0 7 1
    (by decide) (by decide)⟩

/-! ## Loading a configuration -/

/-- A successful conversion of a configuration found every required field with
a value its conversion accepts. -/
theorem from_json_MidiMappingConfig_some (j : Json) (cfg r : MidiMappingConfig)
    (h : from_json_MidiMappingConfig j cfg = some r) :
    (∃ s, (j.atKey "hidDevicePath").bind Json.getString = some s) ∧
    (∃ s, (j.atKey "hidDeviceName").bind Json.getString = some s) ∧
    (∃ s, (j.atKey "midiDeviceName").bind Json.getString = some s) ∧
    (∃ ms, (j.atKey "mappings").bind from_json_mappings = some ms) := by
  unfold from_json_MidiMappingConfig at h
  simp only [bind, Option.bind_eq_some, pure, Option.some.injEq] at h
  obtain ⟨a, ha, a2, ha2, b, hb, b2, hb2, c, hc, c2, hc2, d, _, e, _, f, hf, ms, hms, _⟩ := h
  exact ⟨⟨a2, by simp [ha, ha2]⟩, ⟨b2, by simp [hb, hb2]⟩, ⟨c2, by simp [hc, hc2]⟩,
    ⟨ms, by simp [hf, hms]⟩⟩

/-- A successful conversion of a mapping found `control`, `midiMessageType` and
`midiNoteOrCCNumber`, the control and the number with accepted values. -/
theorem from_json_ControlMapping_some (j : Json) (m r : ControlMapping)
    (h : from_json_ControlMapping j m = some r) :
    (∃ c, (j.atKey "control").bind (fun v => from_json_ControlInfo v m.control) = some c) ∧
    (∃ k, j.atKey "midiMessageType" = some k) ∧
    (∃ n, (j.atKey "midiNoteOrCCNumber").bind Json.getInt = some n) := by
  unfold from_json_ControlMapping at h
  simp only [bind, Option.bind_eq_some, pure, Option.some.injEq] at h
  obtain ⟨a, ha, a2, ha2, k, hk, _, _, n, hn, n2, hn2, _⟩ := h
  exact ⟨⟨a2, by simp [ha, ha2]⟩, ⟨k, hk⟩, ⟨n2, by simp [hn, hn2]⟩⟩

/-- A successful conversion of the mapping array converted every element. -/
theorem mapM_from_json_some (items : List Json) :
    ∀ ms, items.mapM (fun item => from_json_ControlMapping item {}) = some ms →
      ∀ item ∈ items, ∃ r, from_json_ControlMapping item {} = some r := by
  induction items with
  | nil => intro ms _ item hitem; exact absurd hitem (List.not_mem_nil item)
  | cons x xs ih =>
    intro ms h item hitem
    rw [List.mapM_cons] at h
    simp only [bind, Option.bind_eq_some, pure, Option.some.injEq] at h
    obtain ⟨r, hr, rs, hrs, _⟩ := h
    rcases List.mem_cons.mp hitem with rfl | hmem
    · exact ⟨r, hr⟩
    · exact ih rs hrs item hmem

/-- Function `LoadConfiguration` returns false with the configuration untouched,
or true. -/
theorem LoadConfiguration_false (file : ConfigFile) (config : MidiMappingConfig)
    (h : (LoadConfiguration file config).1 = false) :
    LoadConfiguration file config = (false, config) := by
  unfold LoadConfiguration at h ⊢
  cases file with
  | cannotOpen => rfl
  | notJson => rfl
  | json j =>
    simp only at h ⊢
    cases hj : from_json_MidiMappingConfig j {} with
    | none => rfl
    | some loaded => rw [hj] at h; simp at h

/-- A JSON value that does not convert fails the load. -/
theorem LoadConfiguration_none (j : Json) (config : MidiMappingConfig)
    (h : from_json_MidiMappingConfig j {} = none) :
    LoadConfiguration (ConfigFile.json j) config = (false, config) := by
  simp [LoadConfiguration, h]

/-- C22 (counterexample): a file whose mapping has the number 42 as
`midiMessageType`, a required field of the wrong type, does not fail to load:
`LoadConfiguration` returns true and replaces the caller's configuration by
one whose mapping has kind `NONE`. -/
theorem wrong_kind_loads :
    (LoadConfiguration wrongKindFile {}).1 = true ∧
    (LoadConfiguration wrongKindFile {}).2.mappings.map (fun m => m.midiMessageType)
      = [MidiMessageType.NONE] ∧
    ¬ (LoadConfiguration wrongKindFile {} = (false, {})) := by
  decide

/-- C22 (amended): whenever `LoadConfiguration` returns false the caller's
configuration is exactly as it was (an empty mapping set stays empty), and it
returns false when the file cannot be opened, when the text is not JSON, when
`hidDevicePath`, `hidDeviceName`, `midiDeviceName` or `mappings` is missing or
has a value its conversion rejects, and when an element of `mappings` lacks
`control`, `midiMessageType` or `midiNoteOrCCNumber` or has a control or a
number that its conversion rejects. A string conversion rejects everything
but strings, a number conversion everything but numbers and booleans, the
array conversion everything but arrays. -/
theorem load_failure_leaves_config (file : ConfigFile) (config : MidiMappingConfig) :
    ((LoadConfiguration file config).1 = false →
      (LoadConfiguration file config).2 = config) ∧
    ((LoadConfiguration file config).1 = false → config.mappings = [] →
      (LoadConfiguration file config).2.mappings = []) ∧
    LoadConfiguration ConfigFile.cannotOpen config = (false, config) ∧
    LoadConfiguration ConfigFile.notJson config = (false, config) ∧
    (∀ j : Json,
      ((j.atKey "hidDevicePath").bind Json.getString = none ∨
        (j.atKey "hidDeviceName").bind Json.getString = none ∨
        (j.atKey "midiDeviceName").bind Json.getString = none ∨
        (j.atKey "mappings").bind from_json_mappings = none) →
      LoadConfiguration (ConfigFile.json j) config = (false, config)) ∧
    (∀ (items : List Json) (item : Json), item ∈ items →
      ((item.atKey "control").bind (fun v => from_json_ControlInfo v {}) = none ∨
        item.atKey "midiMessageType" = none ∨
        (item.atKey "midiNoteOrCCNumber").bind Json.getInt = none) →
      from_json_mappings (Json.arr items) = none) ∧
    (∀ v : Json, (∀ s, v ≠ Json.str s) → v.getString = none) ∧
    (∀ v : Json, (∀ n, v ≠ Json.num n) → (∀ b, v ≠ Json.bool b) → v.getInt = none) ∧
    (∀ v : Json, (∀ items, v ≠ Json.arr items) → from_json_mappings v = none) := by
  refine ⟨?_, ?_, rfl, rfl, ?_, ?_, ?_, ?_, ?_⟩
  · intro h
    rw [LoadConfiguration_false file config h]
  · intro h hempty
    rw [LoadConfiguration_false file config h]
    exact hempty
  · intro j hj
    apply LoadConfiguration_none
    cases hr : from_json_MidiMappingConfig j {} with
    | none => rfl
    | some r =>
      obtain ⟨⟨a, ha⟩, ⟨b, hb⟩, ⟨c, hc⟩, ⟨d, hd⟩⟩ := from_json_MidiMappingConfig_some j {} r hr
      rcases hj with h | h | h | h
      · rw [h] at ha; exact absurd ha (by simp)
      · rw [h] at hb; exact absurd hb (by simp)
      · rw [h] at hc; exact absurd hc (by simp)
      · rw [h] at hd; exact absurd hd (by simp)
  · intro items item hmem hitem
    cases hr : from_json_mappings (Json.arr items) with
    | none => rfl
    | some ms =>
      obtain ⟨r, hr2⟩ := mapM_from_json_some items ms hr item hmem
      obtain ⟨⟨a, ha⟩, ⟨b, hb⟩, ⟨c, hc⟩⟩ := from_json_ControlMapping_some item {} r hr2
      rcases hitem with h | h | h
      · rw [h] at ha; exact absurd ha (by simp)
      · rw [h] at hb; exact absurd hb (by simp)
      · rw [h] at hc; exact absurd hc (by simp)
  · intro v hv
    cases v with
    | str s => exact absurd rfl (hv s)
    | _ => rfl
  · intro v hn hb
    cases v with
    | num n => exact absurd rfl (hn n)
    | bool b => exact absurd rfl (hb b)
    | _ => rfl
  · intro v hv
    cases v with
    | arr items => exact absurd rfl (hv items)
    | _ => rfl

/-- C22 (amended, witness): a file whose mapping lacks `midiNoteOrCCNumber`
fails to load and leaves a configuration with one mapping as it was. -/
theorem load_failure_leaves_config_witness :
    (LoadConfiguration missingNumberFile oneAxisGlobals.g_currentConfig).1 = false ∧
    (LoadConfiguration missingNumberFile oneAxisGlobals.g_currentConfig).2
      = oneAxisGlobals.g_currentConfig :=
  ⟨by decide,
    (load_failure_leaves_config missingNumberFile oneAxisGlobals.g_currentConfig).1
      (by decide)⟩

/-! ## Frame of the calibration -/

/-- What `PerformCalibration` does for a button mapping at a valid index. -/
theorem PerformCalibration_button (g : Globals) (i : Nat) (minSamples maxSamples : List Int)
    (mapping : ControlMapping) (hs : i < g.g_mappingStates.length)
    (hget : g.g_currentConfig.mappings.get? i = some mapping)
    (hbutton : mapping.control.isButton = true) :
    PerformCalibration g i minSamples maxSamples = (true, g) := by
  have hi : i < g.g_currentConfig.mappings.length := by
    rcases Nat.lt_or_ge i g.g_currentConfig.mappings.length with h | h
    · exact h
    · rw [List.get?_eq_none.mpr h] at hget
      exact absurd hget (by simp)
  have hguard : ¬ (i ≥ g.g_currentConfig.mappings.length ∨ i ≥ g.g_mappingStates.length) := by
    omega
  unfold PerformCalibration
  rw [if_neg hguard, hget]
  simp [hbutton]

/-- C23: for a button mapping at a valid index, `PerformCalibration` returns
success and changes nothing: the mapping keeps its `calibrationMinHid`,
`calibrationMaxHid` and `calibrationDone`, so a button that was never
calibrated keeps `calibrationDone = false`. -/
theorem button_calibration_is_noop (g : Globals) (i : Nat) (minSamples maxSamples : List Int)
    (mapping : ControlMapping) (hs : i < g.g_mappingStates.length)
    (hget : g.g_currentConfig.mappings.get? i = some mapping)
    (hbutton : mapping.control.isButton = true) :
    PerformCalibration g i minSamples maxSamples = (true, g) ∧
    (PerformCalibration g i minSamples maxSamples).2.g_currentConfig.mappings.get? i
      = some mapping ∧
    (mapping.calibrationDone = false →
      ∀ m2, (PerformCalibration g i minSamples maxSamples).2.g_currentConfig.mappings.get? i
          = some m2 → m2.calibrationDone = false) := by
  have h := PerformCalibration_button g i minSamples maxSamples mapping hs hget hbutton
  rw [h]
  refine ⟨rfl, hget, ?_⟩
  intro hdone m2 hm2
  rw [hget] at hm2
  rw [← Option.some.inj hm2]
  exact hdone

/-- C23 (witness): calibrating the button of the example globals, with any
values read, returns true and leaves the globals as they were. -/
theorem button_calibration_is_noop_witness :
    PerformCalibration oneButtonGlobals 0 [80] [20] = (true, oneButtonGlobals) :=
  (button_calibration_is_noop oneButtonGlobals 0 [80] [20] noteButtonExample
    (by decide) rfl rfl).1

/-- C24: `PerformCalibration` on index `i` leaves the state vector, the other
fields of the configuration, the number of mappings and every mapping at
another index unchanged, and of the mapping at `i` it changes at most
`calibrationMinHid`, `calibrationMaxHid` and `calibrationDone`; for an axis at
a valid index the result is the same whatever these three fields held
before. -/
theorem calibration_frame (g : Globals) (i : Nat) (minSamples maxSamples : List Int) :
    (PerformCalibration g i minSamples maxSamples).2.g_mappingStates = g.g_mappingStates ∧
    { (PerformCalibration g i minSamples maxSamples).2.g_currentConfig with
        mappings := g.g_currentConfig.mappings } = g.g_currentConfig ∧
    (PerformCalibration g i minSamples maxSamples).2.g_currentConfig.mappings.length
      = g.g_currentConfig.mappings.length ∧
    (∀ j, j ≠ i →
      (PerformCalibration g i minSamples maxSamples).2.g_currentConfig.mappings.get? j
        = g.g_currentConfig.mappings.get? j) ∧
    (∀ m m2, g.g_currentConfig.mappings.get? i = some m →
      (PerformCalibration g i minSamples maxSamples).2.g_currentConfig.mappings.get? i
        = some m2 →
      { m2 with calibrationMinHid := m.calibrationMinHid,
                calibrationMaxHid := m.calibrationMaxHid,
                calibrationDone := m.calibrationDone } = m) ∧
    (∀ m (x y : Int) (z : Bool), i < g.g_mappingStates.length →
      g.g_currentConfig.mappings.get? i = some m → m.control.isButton = false →
      PerformCalibration
          (withMappings g (g.g_currentConfig.mappings.set i
            { m with calibrationMinHid := x, calibrationMaxHid := y, calibrationDone := z }))
          i minSamples maxSamples
        = PerformCalibration g i minSamples maxSamples) := by
  refine ⟨(PerformCalibration_sizes g i minSamples maxSamples).1, ?_,
    (PerformCalibration_sizes g i minSamples maxSamples).2, ?_, ?_, ?_⟩
  · rcases PerformCalibration_cases g i minSamples maxSamples with h | ⟨mapping, _, _, h⟩
    · rw [h]
    · rw [h]; rfl
  · intro j hj
    rcases PerformCalibration_cases g i minSamples maxSamples with h | ⟨mapping, _, _, h⟩
    · rw [h]
    · rw [h]
      simp only [withMappings, List.get?_eq_getElem?]
      exact List.getElem?_set_ne (Ne.symm hj)
  · intro m m2 hm hm2
    rcases PerformCalibration_cases g i minSamples maxSamples with h | ⟨mapping, hget, _, h⟩
    · rw [h, hm] at hm2
      rw [← Option.some.inj hm2]
    · rw [hm] at hget
      have hmm : m = mapping := Option.some.inj hget
      rw [h] at hm2
      have hi : i < g.g_currentConfig.mappings.length := by
        rcases Nat.lt_or_ge i g.g_currentConfig.mappings.length with hlt | hge
        · exact hlt
        · rw [List.get?_eq_none.mpr hge] at hm
          exact absurd hm (by simp)
      simp only [withMappings, List.get?_eq_getElem?, List.getElem?_set_self hi,
        Option.some.injEq] at hm2
      rw [← hm2, hmm]
  · intro m x y z hs hget haxis
    have hi : i < g.g_currentConfig.mappings.length := by
      rcases Nat.lt_or_ge i g.g_currentConfig.mappings.length with hlt | hge
      · exact hlt
      · rw [List.get?_eq_none.mpr hge] at hget
        exact absurd hget (by simp)
    have hget2 : (withMappings g (g.g_currentConfig.mappings.set i
        { m with calibrationMinHid := x, calibrationMaxHid := y,
                 calibrationDone := z })).g_currentConfig.mappings.get? i
        = some { m with calibrationMinHid := x, calibrationMaxHid := y,
                        calibrationDone := z } := by
      simp [withMappings, hi]
    have h2 := PerformCalibration_axis
      (withMappings g (g.g_currentConfig.mappings.set i
        { m with calibrationMinHid := x, calibrationMaxHid := y, calibrationDone := z }))
      i minSamples maxSamples
      { m with calibrationMinHid := x, calibrationMaxHid := y, calibrationDone := z }
      hs hget2 haxis
    rw [h2, PerformCalibration_axis g i minSamples maxSamples m hs hget haxis]
    simp [withMappings]

/-- C24 (witness): calibrating the axis of the example globals gives the bounds
20 and 80 whether the mapping was uncalibrated or held other bounds, and the
state vector is as before. -/
theorem calibration_frame_witness :
    PerformCalibration
        (withMappings oneAxisGlobals
          [{ midiMessageType := MidiMessageType.CC, calibrationMinHid := 300,
             calibrationMaxHid := 900, calibrationDone := true }]) 0 [80] [20]
      = PerformCalibration oneAxisGlobals 0 [80] [20] ∧
    (PerformCalibration oneAxisGlobals 0 [80] [20]).2.g_mappingStates = [{}] := by
  have h := calibration_frame oneAxisGlobals 0 [80] [20]
  exact ⟨h.2.2.2.2.2 { midiMessageType := MidiMessageType.CC } 300 900 true (by decide) rfl rfl,
    h.1⟩

/-! ## One `observe` against one dispatch pass -/

/-- The dispatch loop body is the exchange, the translation of the loaded
value and the assignment of `previousValue`. -/
theorem dispatchEntry_eq_translate (m : ControlMapping) (dc : Int) (s : MappingState) :
    dispatchEntry m dc s =
      if s.valueChanged then
        ({ (translateLoaded m dc { s with valueChanged := false } s.currentValue).1 with
            previousValue := s.currentValue },
          (translateLoaded m dc { s with valueChanged := false } s.currentValue).2)
      else ({ s with valueChanged := false }, []) := by
  unfold dispatchEntry translateLoaded exchangeValueChanged
  cases s.valueChanged
  · simp
  · simp only [if_true]
    split_ifs <;> rfl

/-- The three atomic operations of the dispatch loop, run without
interruption, are the dispatch step. -/
theorem runSchedule_dispatch_alone (m : ControlMapping) (dc rawValue : Int)
    (s : MappingState) :
    (runSchedule m dc rawValue { state := s }
      [Thread.dispatch, Thread.dispatch, Thread.dispatch]).state = (dispatchEntry m dc s).1 ∧
    (runSchedule m dc rawValue { state := s }
      [Thread.dispatch, Thread.dispatch, Thread.dispatch]).sent = (dispatchEntry m dc s).2 := by
  rw [dispatchEntry_eq_translate]
  cases hd : s.valueChanged
  · simp [runSchedule, stepDispatch, exchangeValueChanged, hd]
  · have hcur : (translateLoaded m dc { s with valueChanged := false } s.currentValue).1.currentValue
        = s.currentValue := by
      unfold translateLoaded
      simp only
      split_ifs <;> rfl
    simp [runSchedule, stepDispatch, exchangeValueChanged, hd, hcur]

/-- The three atomic operations of the input thread, run without interruption,
are `observe`. -/
theorem runSchedule_input_alone (m : ControlMapping) (dc rawValue : Int) (s : MappingState) :
    (runSchedule m dc rawValue { state := s }
      [Thread.input, Thread.input, Thread.input]).state = observe s rawValue := by
  by_cases h : rawValue = s.currentValue
  · simp [runSchedule, stepObserve, observe, h]
  · simp [runSchedule, stepObserve, observe, h]

/-- C25 (behaviour of the code): a button is pressed and not yet consumed, and
the release arrives between the two loads of `currentValue` of the dispatch
pass. The pass sends the Note-On for the value 1 but records
`previousValue = 0`, and the entry ends dirty with the value 0. This is
neither the outcome of `observe` followed by the dispatch step nor that of the
dispatch step followed by `observe`; and the next dispatch pass sends nothing,
so the Note-Off that the sequential order sends is lost. -/
theorem interleaving_not_serializable :
    (runSchedule noteButtonExample 0 0 { state := pressedPending } racingSchedule).state
      = { currentValue := 0, valueChanged := true, previousValue := 0 } ∧
    (runSchedule noteButtonExample 0 0 { state := pressedPending } racingSchedule).sent
      = [[0x92, 60, 100]] ∧
    (runSchedule noteButtonExample 0 0 { state := pressedPending } racingSchedule).observePc
      = ObservePc.done ∧
    (runSchedule noteButtonExample 0 0 { state := pressedPending } racingSchedule).dispatchPc
      = DispatchPc.done ∧
    dispatchEntry noteButtonExample 0 (observe pressedPending 0)
      = ({ currentValue := 0, valueChanged := false, previousValue := 0 }, []) ∧
    (observe (dispatchEntry noteButtonExample 0 pressedPending).1 0,
        (dispatchEntry noteButtonExample 0 pressedPending).2)
      = ({ currentValue := 0, valueChanged := true, previousValue := 1 }, [[0x92, 60, 100]]) ∧
    (dispatchEntry noteButtonExample 0
      (runSchedule noteButtonExample 0 0 { state := pressedPending } racingSchedule).state).2
      = [] ∧
    (dispatchEntry noteButtonExample 0
      (observe (dispatchEntry noteButtonExample 0 pressedPending).1 0)).2
      = [[0x82, 60, 0]] := by
  decide

/-! ## Range of the axis value -/

/-- Bounds in order whose difference is representable give the difference as
the range the code computes. -/
theorem axisRange_of_lt (m : ControlMapping)
    (hlt : m.calibrationMinHid < m.calibrationMaxHid)
    (hdiff : m.calibrationMaxHid - m.calibrationMinHid < 2147483648) :
    axisRange m = m.calibrationMaxHid - m.calibrationMinHid ∧ 0 < axisRange m := by
  unfold axisRange wrapLong
  omega

/-- Every message the dispatch step sends is the button message for the stored
value, or the axis message for the value computed from the stored value, the
latter only when the computed range is positive. -/
theorem dispatchEntry_sent_precise (m : ControlMapping) (dc : Int) (s : MappingState) :
    ∀ msg ∈ (dispatchEntry m dc s).2,
      (m.control.isButton = true ∧
        msg = buttonMessage m (GetEffectiveChannel m dc) (s.currentValue != 0)) ∨
      (m.control.isButton = false ∧ 0 < axisRange m ∧
        msg = axisMessage m (GetEffectiveChannel m dc) (axisMidiVal m s.currentValue)) := by
  intro msg hmsg
  cases hd : s.valueChanged with
  | false =>
    rw [dispatchEntry_clean m dc s hd] at hmsg
    exact absurd hmsg (List.not_mem_nil msg)
  | true =>
    cases hb : m.control.isButton with
    | true =>
      rw [dispatchEntry_button m dc s hb hd] at hmsg
      simp only at hmsg
      split_ifs at hmsg
      · left
        exact ⟨rfl, List.mem_singleton.mp hmsg⟩
      · exact absurd hmsg (List.not_mem_nil msg)
    | false =>
      by_cases hsil : m.calibrationDone = false ∨ axisRange m ≤ 0
      · rw [(dispatchEntry_axis_silent m dc s hb hsil).1] at hmsg
        exact absurd hmsg (List.not_mem_nil msg)
      · push_neg at hsil
        have hcal : m.calibrationDone = true := by simpa using hsil.1
        rw [dispatchEntry_axis m dc s hb hcal hsil.2 hd] at hmsg
        split_ifs at hmsg
        · right
          exact ⟨rfl, hsil.2, List.mem_singleton.mp hmsg⟩
        · exact absurd hmsg (List.not_mem_nil msg)

/-- C26: for a calibrated axis mapping with `calMin < calMax` and a difference
below `2^31`, for every raw value and either setting of the reverse flag, the
value the step computes lies in `0..127` and is not the initial
`lastSentMidiValue = -1`, and so does the value of the exact formula; the value
byte of every message the dispatch step sends is the computed value and is
below 128. -/
theorem axis_value_is_seven_bit (m : ControlMapping) (dc : Int) (s : MappingState)
    (hmin : InLong m.calibrationMinHid) (hmax : InLong m.calibrationMaxHid)
    (haxis : m.control.isButton = false)
    (hlt : m.calibrationMinHid < m.calibrationMaxHid)
    (hdiff : m.calibrationMaxHid - m.calibrationMinHid < 2147483648) :
    (∀ v : Int,
      0 ≤ axisMidiVal m v ∧ axisMidiVal m v ≤ 127 ∧
      axisMidiVal m v ≠ ({} : MappingState).lastSentMidiValue ∧
      0 ≤ outValueExact m.calibrationMinHid m.calibrationMaxHid m.reverseAxis v ∧
      outValueExact m.calibrationMinHid m.calibrationMaxHid m.reverseAxis v ≤ 127) ∧
    (∀ msg ∈ (dispatchEntry m dc s).2,
      ∃ status number value, msg = [status, number, value] ∧
        (value : Int) = axisMidiVal m s.currentValue ∧ value < 128) := by
  have hr := (axisRange_of_lt m hlt hdiff).2
  refine ⟨?_, ?_⟩
  · intro v
    obtain ⟨h0, h1⟩ := axisMidiVal_bounds m v hmin hmax hr
    obtain ⟨e0, e1⟩ := outValueExact_bounds m v hmin hmax hr
    refine ⟨h0, h1, ?_, e0, e1⟩
    show axisMidiVal m v ≠ -1
    omega
  · intro msg hmsg
    obtain ⟨h0, h1⟩ := axisMidiVal_bounds m s.currentValue hmin hmax hr
    rcases dispatchEntry_sent_precise m dc s msg hmsg with ⟨hb, _⟩ | ⟨_, _, h⟩
    · rw [haxis] at hb
      exact absurd hb Bool.false_ne_true
    · refine ⟨toUChar (Int.lor 0xB0 (GetEffectiveChannel m dc)), toUChar m.midiNoteOrCCNumber,
        (axisMidiVal m s.currentValue).toNat, ?_, ?_, ?_⟩
      · rw [h, axisMessage, toUChar_of_bounds h0 h1]
      · exact Int.toNat_of_nonneg h0
      · omega

/-- C26 (witness): on the example axis `[0, 1000]` the raw values -5, 500 and
2000 give 0, 64 and 127. -/
theorem axis_value_is_seven_bit_witness :
    (0 ≤ axisMidiVal axisExample 500 ∧ axisMidiVal axisExample 500 ≤ 127) ∧
    axisMidiVal axisExample (-5) = 0 ∧ axisMidiVal axisExample 500 = 64 ∧
    axisMidiVal axisExample 2000 = 127 := by
  have h := (axis_value_is_seven_bit axisExample 0 dirty500 (by decide) (by decide) rfl
    (by decide) (by decide)).1 500
  have hs := (axisMidiVal_saturates axisExample (-5) (by decide) (by decide) (by decide)
    (by decide)).1 rfl
  have hs2 := (axisMidiVal_saturates axisExample 2000 (by decide) (by decide) (by decide)
    (by decide)).1 rfl
  exact ⟨⟨h.1, h.2.1⟩, hs.1 (by decide), axisMidiVal_axisExample_500, hs2.2 (by decide)⟩

/-! ## Monotonicity of the axis value -/

/-- The exact formula is monotone in the raw value: increasing without the
reverse flag, decreasing with it. -/
theorem outValueExact_mono (lo hi v1 v2 : Int) (hlt : lo < hi) (hv : v1 ≤ v2) :
    outValueExact lo hi false v1 ≤ outValueExact lo hi false v2 ∧
    outValueExact lo hi true v2 ≤ outValueExact lo hi true v1 := by
  have h := exact_norm_mono lo hi v1 v2 hlt hv
  unfold outValueExact
  simp only [Bool.false_eq_true, if_false, if_true]
  constructor
  · apply Int.floor_mono
    linarith
  · apply Int.floor_mono
    linarith

/-- The exact formula at and below the lower bound, and at and above the upper
bound. -/
theorem outValueExact_saturates (lo hi v : Int) (hlt : lo < hi) :
    (v ≤ lo → outValueExact lo hi false v = 0 ∧ outValueExact lo hi true v = 127) ∧
    (hi ≤ v → outValueExact lo hi false v = 127 ∧ outValueExact lo hi true v = 0) := by
  have hd : ((hi - lo : Int) : ℚ) ≠ 0 := by
    have : (0 : ℚ) < ((hi - lo : Int) : ℚ) := by exact_mod_cast (by omega : 0 < hi - lo)
    exact ne_of_gt this
  constructor
  · intro hv
    have hc : max lo (min hi v) = lo := by omega
    unfold outValueExact
    simp only [hc, sub_self, Int.cast_zero, zero_div, Bool.false_eq_true, if_false, if_true]
    constructor <;> norm_num
  · intro hv
    have hc : max lo (min hi v) = hi := by omega
    unfold outValueExact
    simp only [hc, div_self hd, Bool.false_eq_true, if_false, if_true]
    constructor <;> norm_num

/-- C27: for a calibrated axis mapping with positive range (`calMin < calMax`,
and the range the code computes is positive), the computed value is monotone
in the raw value, increasing without the reverse flag and decreasing with it,
and it saturates: every value `≤ calMin` gives 0 and every value `≥ calMax`
gives 127 without the reverse flag, 127 and 0 with it. -/
theorem axis_value_monotone (m : ControlMapping)
    (hmin : InLong m.calibrationMinHid) (hmax : InLong m.calibrationMaxHid)
    (hlt : m.calibrationMinHid < m.calibrationMaxHid) (hr : 0 < axisRange m) :
    (m.reverseAxis = false → ∀ v1 v2 : Int, v1 ≤ v2 → axisMidiVal m v1 ≤ axisMidiVal m v2) ∧
    (m.reverseAxis = true → ∀ v1 v2 : Int, v1 ≤ v2 → axisMidiVal m v2 ≤ axisMidiVal m v1) ∧
    (m.reverseAxis = false → ∀ v : Int,
      (v ≤ m.calibrationMinHid → axisMidiVal m v = 0) ∧
      (m.calibrationMaxHid ≤ v → axisMidiVal m v = 127)) ∧
    (m.reverseAxis = true → ∀ v : Int,
      (v ≤ m.calibrationMinHid → axisMidiVal m v = 127) ∧
      (m.calibrationMaxHid ≤ v → axisMidiVal m v = 0)) := by
  refine ⟨?_, ?_, ?_, ?_⟩
  · intro hrev v1 v2 hv
    exact (axisMidiVal_mono m v1 v2 hmin hmax hlt hr hv).1 hrev
  · intro hrev v1 v2 hv
    exact (axisMidiVal_mono m v1 v2 hmin hmax hlt hr hv).2 hrev
  · intro hrev v
    exact (axisMidiVal_saturates m v hmin hmax hlt hr).1 hrev
  · intro hrev v
    exact (axisMidiVal_saturates m v hmin hmax hlt hr).2 hrev

/-- C27 (witness): on the example axis `[0, 1000]` the values 250 and 750 give
32 and 95, in that order, and in the opposite order on the reversed example;
the ends give 0 and 127. -/
theorem axis_value_monotone_witness :
    axisMidiVal axisExample 250 ≤ axisMidiVal axisExample 750 ∧
    axisMidiVal reversedAxisExample 750 ≤ axisMidiVal reversedAxisExample 250 ∧
    axisMidiVal axisExample 0 = 0 ∧ axisMidiVal axisExample 1000 = 127 ∧
    axisMidiVal reversedAxisExample 0 = 127 ∧ axisMidiVal reversedAxisExample 1000 = 0 ∧
    axisMidiVal axisExample 250 = 32 ∧ axisMidiVal axisExample 750 = 95 := by
  have h := axis_value_monotone axisExample (by decide) (by decide) (by decide) (by decide)
  have hrev := axis_value_monotone reversedAxisExample (by decide) (by decide) (by decide)
    (by decide)
  exact ⟨h.1 rfl 250 750 (by decide), hrev.2.1 rfl 250 750 (by decide),
    (h.2.2.1 rfl 0).1 (by decide), (h.2.2.1 rfl 1000).2 (by decide),
    (hrev.2.2.2 rfl 0).1 (by decide), (hrev.2.2.2 rfl 1000).2 (by decide),
    axisMidiVal_axisExample_250, axisMidiVal_axisExample_750⟩

/-! ## Wraparound of the range -/

/-- C28 (counterexample): with `calMin = 2147483647` and `calMax = -2147483648`
the range the code computes is 1, which is positive, but it is not the true
difference `-4294967295`, and `calMin < calMax` does not hold. -/
theorem wrapped_range_positive_but_inverted :
    InLong underflowAxisExample.calibrationMinHid ∧
    InLong underflowAxisExample.calibrationMaxHid ∧
    axisRange underflowAxisExample = 1 ∧ 0 < axisRange underflowAxisExample ∧
    axisRange underflowAxisExample
      ≠ underflowAxisExample.calibrationMaxHid - underflowAxisExample.calibrationMinHid ∧
    ¬ (underflowAxisExample.calibrationMinHid < underflowAxisExample.calibrationMaxHid) := by
  decide

/-- C28 (amended): for representable bounds, whenever the range the code
computes is positive, either it equals the true difference and
`calMin < calMax`, or the true difference is below `-2^31` (so
`calMax < calMin`) and the range is the difference plus `2^32`; in both cases
the subtraction `clamped - calMin` does not overflow and lies in `0..range`.
Conversely, when the true difference is `2^31` or more the computed range is
negative and the axis sends nothing; and when `calMin < calMax` with a
difference below `2^31` the computed range is the difference. -/
theorem wrapped_range_cases (m : ControlMapping) (dc : Int) (s : MappingState) (v : Int)
    (hmin : InLong m.calibrationMinHid) (hmax : InLong m.calibrationMaxHid) :
    (0 < axisRange m →
      ((m.calibrationMinHid < m.calibrationMaxHid ∧
          axisRange m = m.calibrationMaxHid - m.calibrationMinHid) ∨
        (m.calibrationMaxHid - m.calibrationMinHid < -2147483648 ∧
          axisRange m = m.calibrationMaxHid - m.calibrationMinHid + 4294967296)) ∧
      wrapLong (max m.calibrationMinHid (min m.calibrationMaxHid v) - m.calibrationMinHid)
        = max m.calibrationMinHid (min m.calibrationMaxHid v) - m.calibrationMinHid ∧
      0 ≤ max m.calibrationMinHid (min m.calibrationMaxHid v) - m.calibrationMinHid ∧
      max m.calibrationMinHid (min m.calibrationMaxHid v) - m.calibrationMinHid
        ≤ axisRange m) ∧
    (2147483648 ≤ m.calibrationMaxHid - m.calibrationMinHid →
      axisRange m < 0 ∧
      (m.control.isButton = false → (dispatchEntry m dc s).2 = [])) ∧
    (m.calibrationMinHid < m.calibrationMaxHid →
      m.calibrationMaxHid - m.calibrationMinHid < 2147483648 →
      axisRange m = m.calibrationMaxHid - m.calibrationMinHid ∧ 0 < axisRange m) := by
  refine ⟨?_, ?_, axisRange_of_lt m⟩
  · intro hr
    unfold InLong at hmin hmax
    unfold axisRange wrapLong at *
    omega
  · intro hbig
    have hneg : axisRange m < 0 := by
      unfold InLong at hmin hmax
      unfold axisRange wrapLong
      omega
    exact ⟨hneg, fun haxis =>
      (dispatchEntry_axis_silent m dc s haxis (Or.inr (le_of_lt hneg))).1⟩

/-- C28 (amended, witness): the axis with bounds `0` and `1000` has the range
1000; the axis over the whole `LONG` range has the computed range `-1` and
sends nothing; the axis with the two ends the wrong way round has the computed
range 1. -/
theorem wrapped_range_cases_witness :
    axisRange axisExample = 1000 ∧
    axisRange fullRangeAxisExample = -1 ∧
    (dispatchEntry fullRangeAxisExample 0 dirty500).2 = [] ∧
    axisRange underflowAxisExample
      = underflowAxisExample.calibrationMaxHid - underflowAxisExample.calibrationMinHid
        + 4294967296 := by
  have h := wrapped_range_cases fullRangeAxisExample 0 dirty500 500 (by decide) (by decide)
  exact ⟨by decide, by decide, (h.2.1 (by decide)).2 rfl, by decide⟩

/-! ## Well-formed messages -/

/-- A status combined with a channel in `0..15` is their sum. -/
theorem status_byte_eq (base ch : Int) (hbase : base = 0x80 ∨ base = 0x90 ∨ base = 0xB0)
    (h0 : 0 ≤ ch) (h15 : ch ≤ 15) : toUChar (Int.lor base ch) = (base + ch).toNat := by
  rcases hbase with rfl | rfl | rfl <;> interval_cases ch <;> decide

/-- C30: if the effective channel is in `0..15` and the mapping's number,
velocity, on value and off value are in `0..127` (and the calibration bounds are
representable), every message the dispatch step sends has exactly three
bytes: a status byte of at least `0x80` whose high four bits are `0x8`, `0x9`
or `0xB` and whose low four bits are the effective channel, the configured
number, and a value byte below 128 that is the configured velocity, 0, the on
value or the off value for a button and the computed value for an axis, none
of them truncated. -/
theorem messages_well_formed (m : ControlMapping) (dc : Int) (s : MappingState)
    (hch0 : 0 ≤ GetEffectiveChannel m dc) (hch15 : GetEffectiveChannel m dc ≤ 15)
    (hnum0 : 0 ≤ m.midiNoteOrCCNumber) (hnum : m.midiNoteOrCCNumber ≤ 127)
    (hvel0 : 0 ≤ m.midiValueNoteOnVelocity) (hvel : m.midiValueNoteOnVelocity ≤ 127)
    (hon0 : 0 ≤ m.midiValueCCOn) (hon : m.midiValueCCOn ≤ 127)
    (hoff0 : 0 ≤ m.midiValueCCOff) (hoff : m.midiValueCCOff ≤ 127)
    (hmin : InLong m.calibrationMinHid) (hmax : InLong m.calibrationMaxHid) :
    ∀ msg ∈ (dispatchEntry m dc s).2,
      ∃ status number value : Nat, msg = [status, number, value] ∧
        128 ≤ status ∧ status < 256 ∧
        (status / 16 = 8 ∨ status / 16 = 9 ∨ status / 16 = 11) ∧
        (status % 16 : Int) = GetEffectiveChannel m dc ∧
        (number : Int) = m.midiNoteOrCCNumber ∧ number < 128 ∧
        value < 128 ∧
        ((m.control.isButton = true ∧
            ((value : Int) = m.midiValueNoteOnVelocity ∨ value = 0 ∨
              (value : Int) = m.midiValueCCOn ∨ (value : Int) = m.midiValueCCOff)) ∨
          (m.control.isButton = false ∧ (value : Int) = axisMidiVal m s.currentValue)) := by
  intro msg hmsg
  have hstatus : ∀ base : Int, (base = 0x80 ∨ base = 0x90 ∨ base = 0xB0) →
      128 ≤ toUChar (Int.lor base (GetEffectiveChannel m dc)) ∧
      toUChar (Int.lor base (GetEffectiveChannel m dc)) < 256 ∧
      (toUChar (Int.lor base (GetEffectiveChannel m dc)) / 16 = 8 ∨
        toUChar (Int.lor base (GetEffectiveChannel m dc)) / 16 = 9 ∨
        toUChar (Int.lor base (GetEffectiveChannel m dc)) / 16 = 11) ∧
      ((toUChar (Int.lor base (GetEffectiveChannel m dc)) % 16 : Nat) : Int)
        = GetEffectiveChannel m dc := by
    intro base hbase
    rw [status_byte_eq base _ hbase hch0 hch15]
    rcases hbase with rfl | rfl | rfl <;> omega
  have hbyte : ∀ x : Int, 0 ≤ x → x ≤ 127 → ((toUChar x : Nat) : Int) = x ∧ toUChar x < 128 := by
    intro x h0 h1
    rw [toUChar_of_bounds h0 h1]
    omega
  rcases dispatchEntry_sent_precise m dc s msg hmsg with ⟨hb, h⟩ | ⟨hb, hr, h⟩
  · by_cases hk : m.midiMessageType = MidiMessageType.NOTE_ON_OFF
    · cases hp : (s.currentValue != 0) with
      | true =>
        obtain ⟨s1, s2, s3, s4⟩ := hstatus 0x90 (Or.inr (Or.inl rfl))
        refine ⟨_, _, _, ?_, s1, s2, s3, s4, (hbyte _ hnum0 hnum).1, (hbyte _ hnum0 hnum).2,
          (hbyte _ hvel0 hvel).2, Or.inl ⟨hb, Or.inl (hbyte _ hvel0 hvel).1⟩⟩
        rw [h, hp]
        simp [buttonMessage, hk]
      | false =>
        obtain ⟨s1, s2, s3, s4⟩ := hstatus 0x80 (Or.inl rfl)
        refine ⟨_, _, 0, ?_, s1, s2, s3, s4, (hbyte _ hnum0 hnum).1, (hbyte _ hnum0 hnum).2,
          by decide, Or.inl ⟨hb, Or.inr (Or.inl rfl)⟩⟩
        rw [h, hp]
        simp [buttonMessage, hk, toUChar]
    · obtain ⟨s1, s2, s3, s4⟩ := hstatus 0xB0 (Or.inr (Or.inr rfl))
      cases hp : (s.currentValue != 0) with
      | true =>
        refine ⟨_, _, _, ?_, s1, s2, s3, s4, (hbyte _ hnum0 hnum).1, (hbyte _ hnum0 hnum).2,
          (hbyte _ hon0 hon).2, Or.inl ⟨hb, Or.inr (Or.inr (Or.inl (hbyte _ hon0 hon).1))⟩⟩
        rw [h, hp]
        simp [buttonMessage, hk]
      | false =>
        refine ⟨_, _, _, ?_, s1, s2, s3, s4, (hbyte _ hnum0 hnum).1, (hbyte _ hnum0 hnum).2,
          (hbyte _ hoff0 hoff).2, Or.inl ⟨hb, Or.inr (Or.inr (Or.inr (hbyte _ hoff0 hoff).1))⟩⟩
        rw [h, hp]
        simp [buttonMessage, hk]
  · obtain ⟨s1, s2, s3, s4⟩ := hstatus 0xB0 (Or.inr (Or.inr rfl))
    obtain ⟨v0, v1⟩ := axisMidiVal_bounds m s.currentValue hmin hmax hr
    refine ⟨_, _, _, ?_, s1, s2, s3, s4, (hbyte _ hnum0 hnum).1, (hbyte _ hnum0 hnum).2,
      (hbyte _ v0 v1).2, Or.inr ⟨hb, (hbyte _ v0 v1).1⟩⟩
    rw [h, axisMessage]

/-- C30 (witness): the Note-On of the example button on channel 2 is
`[0x92, 60, 100]`: status `0x92 = 9 * 16 + 2`, note 60, velocity 100. -/
theorem messages_well_formed_witness :
    (dispatchEntry noteButtonExample 0 pressedPending).2 = [[0x92, 60, 100]] ∧
    ∃ status number value : Nat, [0x92, 60, 100] = [status, number, value] ∧
      128 ≤ status ∧ status / 16 = 9 ∧ status % 16 = 2 ∧ number < 128 ∧ value < 128 := by
  have h := messages_well_formed noteButtonExample 0 pressedPending (by decide) (by decide)
    (by decide) (by decide) (by decide) (by decide) (by decide) (by decide) (by decide)
    (by decide) (by decide) (by decide) [0x92, 60, 100] (by decide)
  obtain ⟨status, number, value, hmsg, h1, _, _, _, _, h6, h7, _⟩ := h
  refine ⟨by decide, status, number, value, hmsg, h1, ?_, ?_, h6, h7⟩
  · have : status = 0x92 := by
      have := List.cons.inj hmsg
      exact this.1.symm
    rw [this]
  · have : status = 0x92 := by
      have := List.cons.inj hmsg
      exact this.1.symm
    rw [this]

/-! ## Index bounds of the loops -/

/-- The dispatch loop in terms of indices: the store keeps its size; an index
below both sizes gets the dispatch step of its mapping; an index at or beyond
the number of mappings is untouched; the messages are those of the indices
below both sizes, in order. -/
theorem dispatchLoop_spec (dc : Int) (mappings : List ControlMapping) :
    ∀ states : List MappingState,
      (dispatchLoop dc mappings states).1.length = states.length ∧
      (∀ i m s, mappings.get? i = some m → states.get? i = some s →
        (dispatchLoop dc mappings states).1.get? i = some (dispatchEntry m dc s).1) ∧
      (∀ i, mappings.length ≤ i →
        (dispatchLoop dc mappings states).1.get? i = states.get? i) ∧
      (dispatchLoop dc mappings states).2
        = ((mappings.zip states).map (fun p => (dispatchEntry p.1 dc p.2).2)).flatten := by
  induction mappings with
  | nil =>
    intro states
    refine ⟨by simp [dispatchLoop], ?_, by simp [dispatchLoop], by simp [dispatchLoop]⟩
    intro i m s hm
    simp at hm
  | cons m0 ms ih =>
    intro states
    cases states with
    | nil =>
      refine ⟨by simp [dispatchLoop], ?_, by simp [dispatchLoop], by simp [dispatchLoop]⟩
      intro i m s _ hs
      simp at hs
    | cons s0 ss =>
      obtain ⟨h1, h2, h3, h4⟩ := ih ss
      refine ⟨by simp [dispatchLoop, h1], ?_, ?_, by simp [dispatchLoop, h4]⟩
      · intro i m s hm hs
        cases i with
        | zero =>
          simp only [List.get?_cons_zero, Option.some.injEq] at hm hs
          simp [dispatchLoop, hm, hs]
        | succ k =>
          simp only [List.get?_cons_succ] at hm hs
          simp only [dispatchLoop, List.get?_cons_succ]
          exact h2 k m s hm hs
      · intro i hi
        cases i with
        | zero => simp at hi
        | succ k =>
          simp only [dispatchLoop, List.get?_cons_succ]
          exact h3 k (by simpa using hi)

/-- The ingestion loop in terms of indices: the store keeps its size; an index
below both sizes is updated when its mapping has the event's type and code
and is untouched otherwise; an index at or beyond the number of mappings is
untouched. -/
theorem InputMonitorLoop_event_spec (ev : InputEvent) (mappings : List ControlMapping) :
    ∀ states : List MappingState,
      (InputMonitorLoop_event ev mappings states).length = states.length ∧
      (∀ i m s, mappings.get? i = some m → states.get? i = some s →
        (InputMonitorLoop_event ev mappings states).get? i =
          some (if ev.type = m.control.eventType ∧ ev.code = m.control.eventCode then
            observe s ev.value else s)) ∧
      (∀ i, mappings.length ≤ i →
        (InputMonitorLoop_event ev mappings states).get? i = states.get? i) := by
  induction mappings with
  | nil =>
    intro states
    refine ⟨by simp [InputMonitorLoop_event], ?_, by simp [InputMonitorLoop_event]⟩
    intro i m s hm
    simp at hm
  | cons m0 ms ih =>
    intro states
    cases states with
    | nil =>
      refine ⟨by simp [InputMonitorLoop_event], ?_, by simp [InputMonitorLoop_event]⟩
      intro i m s _ hs
      simp at hs
    | cons s0 ss =>
      obtain ⟨h1, h2, h3⟩ := ih ss
      refine ⟨by simp [InputMonitorLoop_event, h1], ?_, ?_⟩
      · intro i m s hm hs
        cases i with
        | zero =>
          simp only [List.get?_cons_zero, Option.some.injEq] at hm hs
          simp [InputMonitorLoop_event, hm, hs]
        | succ k =>
          simp only [List.get?_cons_succ] at hm hs
          simp only [InputMonitorLoop_event, List.get?_cons_succ]
          exact h2 k m s hm hs
      · intro i hi
        cases i with
        | zero => simp at hi
        | succ k =>
          simp only [InputMonitorLoop_event, List.get?_cons_succ]
          exact h3 k (by simpa using hi)

/-- The display loop shows exactly the indices below both sizes. -/
theorem DisplayMonitoringOutput_spec (mappings : List ControlMapping) :
    ∀ states : List MappingState,
      DisplayMonitoringOutput mappings states
        = (mappings.zip states).map (fun p => displayEntry p.1 p.2) := by
  induction mappings with
  | nil => intro states; simp [DisplayMonitoringOutput]
  | cons m0 ms ih =>
    intro states
    cases states with
    | nil => simp [DisplayMonitoringOutput]
    | cons s0 ss => simp [DisplayMonitoringOutput, ih ss]

/-- C29: the dispatch loop, the ingestion loop and the monitoring display act on
the indices below both the number of mappings and the number of store
entries, and only on them: the store keeps its size, an entry below both
sizes gets the step of its own mapping, entries at or beyond the number of
mappings are unchanged, messages and display items come only from indices
below both sizes (mappings beyond the store are skipped), and
`PerformCalibration` with an index outside either vector returns false and
changes nothing. -/
theorem loops_stay_in_bounds (dc : Int) (ev : InputEvent) (mappings : List ControlMapping)
    (states : List MappingState) :
    ((dispatchLoop dc mappings states).1.length = states.length ∧
      (∀ i m s, mappings.get? i = some m → states.get? i = some s →
        (dispatchLoop dc mappings states).1.get? i = some (dispatchEntry m dc s).1) ∧
      (∀ i, mappings.length ≤ i →
        (dispatchLoop dc mappings states).1.get? i = states.get? i) ∧
      (dispatchLoop dc mappings states).2
        = ((mappings.zip states).map (fun p => (dispatchEntry p.1 dc p.2).2)).flatten) ∧
    ((InputMonitorLoop_event ev mappings states).length = states.length ∧
      (∀ i m s, mappings.get? i = some m → states.get? i = some s →
        (InputMonitorLoop_event ev mappings states).get? i =
          some (if ev.type = m.control.eventType ∧ ev.code = m.control.eventCode then
            observe s ev.value else s)) ∧
      (∀ i, mappings.length ≤ i →
        (InputMonitorLoop_event ev mappings states).get? i = states.get? i)) ∧
    (DisplayMonitoringOutput mappings states
        = (mappings.zip states).map (fun p => displayEntry p.1 p.2) ∧
      (DisplayMonitoringOutput mappings states).length
        = min mappings.length states.length) ∧
    (∀ (g : Globals) (i : Nat) (minSamples maxSamples : List Int),
      (g.g_currentConfig.mappings.length ≤ i ∨ g.g_mappingStates.length ≤ i) →
      PerformCalibration g i minSamples maxSamples = (false, g)) := by
  refine ⟨dispatchLoop_spec dc mappings states, InputMonitorLoop_event_spec ev mappings states,
    ⟨DisplayMonitoringOutput_spec mappings states, ?_⟩, ?_⟩
  · rw [DisplayMonitoringOutput_spec]
    simp
  · intro g i minSamples maxSamples hi
    unfold PerformCalibration
    rw [if_pos hi]

/-- C29 (witness): two mappings and one store entry: the dispatch loop handles
index 0 only, the mapping at index 1 is skipped; one mapping and two entries:
the entry at index 1 is unchanged even though it is dirty. -/
theorem loops_stay_in_bounds_witness :
    dispatchLoop 0 [noteButtonExample, ccButtonExample] [pressedPending]
      = ([{ currentValue := 1, valueChanged := false, previousValue := 1 }],
          [[0x92, 60, 100]]) ∧
    dispatchLoop 0 [noteButtonExample] [pressedPending, pressedPending]
      = ([{ currentValue := 1, valueChanged := false, previousValue := 1 }, pressedPending],
          [[0x92, 60, 100]]) ∧
    (dispatchLoop 0 [noteButtonExample] [pressedPending, pressedPending]).1.get? 1
      = some pressedPending := by
  have h := (loops_stay_in_bounds 0 { type := 1, code := 288, value := 1 } [noteButtonExample]
    [pressedPending, pressedPending]).1.2.2.1 1 (by decide)
  exact ⟨by decide, by decide, h⟩

end JoystickMidi
